import Mathlib

/-!
L2CAP signaling and Security Manager core of ArduinoBLE.

A shallow embedding of `src/utility/L2CAPSignaling.cpp`.

* Bytes and machine words are natural numbers; a narrowing conversion is an
  explicit `% 2 ^ w`.
* A byte buffer is a `List Nat`; reading element `i` is `byteAt`, the entry
  at `i` reduced to a byte.
* Packed structs overlaid on a buffer are read and written little-endian, the
  byte order of every board the library targets.
* The calls into the HCI transport are recorded, in order, in a trace of
  `Event`s carried by the state.
-/

namespace L2CAPSignaling

/-! ## Bytes and words -/

/-- Low byte of a 16-bit word. -/
def lo (x : Nat) : Nat := x % 256

/-- High byte of a 16-bit word. -/
def hi (x : Nat) : Nat := x / 256 % 256

/-- Element `i` of a `uint8_t` buffer. -/
def byteAt (data : List Nat) (i : Nat) : Nat := data.getD i 0 % 256

/-- A `uint16_t` field of a packed struct read at byte offset `off`. -/
def rd16 (data : List Nat) (off : Nat) : Nat :=
  byteAt data off + 256 * byteAt data (off + 1)

/-- The loop `for (i = 0; i < n; i++) out[n - 1 - i] = src[off + i]`: the `n`
bytes of `src` from offset `off`, in reverse order. -/
def revBytes (n : Nat) (src : List Nat) (off : Nat) : List Nat :=
  (List.range n).map (fun j => byteAt src (off + (n - 1 - j)))

/-- The call `memcpy(out, src + off, n)`: `n` bytes of `src` from offset `off`. -/
def copyBytes (n : Nat) (src : List Nat) (off : Nat) : List Nat :=
  (List.range n).map (fun j => byteAt src (off + j))

/-- The two bytes a `uint16_t` field occupies in a packed struct. -/
def wr16 (x : Nat) : List Nat := [lo x, hi x]

/-- Width of `size_t` and of `int` promotion on the target: the library is built
for 8-bit AVR boards (16-bit `size_t`) and for 32-bit ARM boards. -/
inductive SizeT where
  | bits16
  | bits32
  deriving DecidableEq, Repr

/-- Modulus of `size_t` arithmetic. -/
def SizeT.modulus : SizeT → Nat
  | .bits16 => 2 ^ 16
  | .bits32 => 2 ^ 32

/-! ## Constants -/

/-- The define `CONNECTION_PARAMETER_UPDATE_REQUEST` of the source. -/
def CONNECTION_PARAMETER_UPDATE_REQUEST : Nat := 0x12

/-- The define `CONNECTION_PARAMETER_UPDATE_RESPONSE` of the source. -/
def CONNECTION_PARAMETER_UPDATE_RESPONSE : Nat := 0x13

/-- Modelled from the spec: `SIGNALING_CID` is declared in `L2CAPSignaling.h`,
which is not part of the sources; the spec gives "signaling = 0x0005". -/
def SIGNALING_CID : Nat := 0x0005

/-- Modelled from the spec: `SECURITY_CID` is declared in `L2CAPSignaling.h`,
which is not part of the sources; the spec gives "security = 0x0006". -/
def SECURITY_CID : Nat := 0x0006

/-! ## Calls into the collaborators -/

/-- One call from the core into the HCI transport, the controller or a user
callback. -/
inductive Event where
  | sendAclPkt (handle cid : Nat) (data : List Nat)
  | sendCommand (opcode : Nat) (params : List Nat)
  | leConnUpdate (handle minInterval maxInterval latency supervisionTimeout : Nat)
  | readBdAddr
  | leRand
  | poll
  | displayCode (code : Nat)
  | binaryConfirmPairing (answer : Bool)
  | saveNewAddress (addressType : Nat) (address peerIrk localIrk : List Nat)
  | storeLTK (address ltk : List Nat)
  | serialPrintln (msg : String)
  deriving DecidableEq, Repr

/-- The ACL packets of a trace, in order: `(handle, cid, bytes)`. -/
def aclPackets : List Event → List (Nat × Nat × List Nat)
  | [] => []
  | .sendAclPkt h c d :: es => (h, c, d) :: aclPackets es
  | _ :: es => aclPackets es

/-- The controller commands of a trace, in order. An `leConnUpdate` call is
the LE Connection Update command. -/
def hciCommands : List Event → List Event
  | [] => []
  | .sendCommand o p :: es => .sendCommand o p :: hciCommands es
  | .leConnUpdate h a b c d :: es => .leConnUpdate h a b c d :: hciCommands es
  | _ :: es => hciCommands es

/-! ## Parameters of the embedding

What the source takes from headers and collaborators that are not part of the
sources is a field of `Env`. -/

/-- The enumerators of `PEER_ENCRYPTION` the source names; `bitDescriptions.h`
is not part of the sources, so their values are parameters. -/
structure PeerEncryption where
  NO_ENCRYPTION : Nat
  PAIRING_REQUEST : Nat
  REQUESTED_ENCRYPTION : Nat
  DH_KEY_CALULATED : Nat
  RECEIVED_DH_CHECK : Nat
  SENT_DH_CHECK : Nat
  deriving DecidableEq, Repr

/-- External functions and constants. -/
structure Env where
  /-- width of `size_t` on the target -/
  sz : SizeT
  /-- the enumerators of `PEER_ENCRYPTION` -/
  pe : PeerEncryption
  /-- the constant `OGF_LE_CTL` -/
  OGF_LE_CTL : Nat
  /-- the constant `LE_COMMAND::READ_LOCAL_P256` -/
  READ_LOCAL_P256 : Nat
  /-- the constant `LE_COMMAND::GENERATE_DH_KEY_V1` -/
  GENERATE_DH_KEY_V1 : Nat
  /-- the octet of a default-constructed `KeyDistribution` -/
  kdDefault : Nat
  /-- the call `btct.AES_CMAC(key, msg, len, out)`: key, message, result -/
  AES_CMAC : List Nat → List Nat → List Nat
  /-- the call `btct.g2(U, V, X, Y, out)` -/
  g2 : List Nat → List Nat → List Nat → List Nat → List Nat
  /-- the call `btct.f5(W, N1, N2, A1, A2, MacKey, LTK)`: the pair (MacKey, LTK) -/
  f5 : List Nat → List Nat → List Nat → List Nat → List Nat → List Nat × List Nat
  /-- the call `btct.f6(W, N1, N2, R, IOCap, A1, A2, out)` -/
  f6 : List Nat → List Nat → List Nat → List Nat → List Nat → List Nat → List Nat → List Nat
  /-- the address `HCI.readBdAddr` leaves in `HCI.localAddr` -/
  bdAddr : List Nat
  /-- the eight bytes the n-th call of `HCI.leRand` writes -/
  leRand : Nat → List Nat
  /-- content of the uninitialised local `originalConfirmValue` of
  `validatePeerConfirmValue` when the function is entered -/
  stack : List Nat
  /-- whether `ATT.getPeerPairingConfirmValue` takes its second argument by
  reference (and so can write the one byte it is given) or by value -/
  confirmGetterByReference : Bool
  /-- the constant `IOCAP_DISPLAY_ONLY` -/
  IOCAP_DISPLAY_ONLY : Nat := 0
  /-- content of the uninitialised local `localIOCap` of
  `initiatePairingRequest` when the function is entered -/
  stackIOCap : List Nat := []
  /-- what `x << n` contributes to a `uint32_t` sum on a target whose `int` is
  no wider than `n` bits: the language leaves it undefined, so it is a
  parameter of the target, given the operand `x` and the count `n` -/
  shiftPastWidth : Nat → Nat → Nat := fun _ _ => 0

/-! ## State -/

/-- The members of `L2CAPSignalingClass`. -/
structure Config where
  minInterval : Nat
  maxInterval : Nat
  supervisionTimeout : Nat
  pairing_enabled : Nat
  deriving DecidableEq, Repr

/-- The constructor `L2CAPSignalingClass::L2CAPSignalingClass`. -/
def Config.init : Config :=
  { minInterval := 0, maxInterval := 0, supervisionTimeout := 0, pairing_enabled := 1 }

/-- Modelled from the spec: the per-connection record of the connection
registry (`ATT.cpp` is not part of the sources), with the fields its getters
and setters named in the source read and write. -/
structure Peer where
  encryption : Nat
  peerIOCap : List Nat
  pairingConfirmValue : List Nat
  /-- result of `getPeerPairingInitiatorRelationship`: the peer sent the
  Pairing Request -/
  peerIsInitiator : Bool
  /-- the seven bytes `getPeerAddrWithType` returns -/
  addrWithType : List Nat
  deriving DecidableEq, Repr

/-- Modelled from the spec: the connection registry `ATT` (`ATT.cpp` is not
part of the sources): one `Peer` per connection handle and the members the
source names. -/
structure ATTState where
  peers : Nat → Peer
  peerIRK : List Nat
  localIRK : List Nat
  localIOCap : List Nat
  remoteKeyDistribution : Nat
  localKeyDistribution : Nat

/-- The members of the `HCI` object the source names (`HCI.cpp` is not part of
the sources). The three callbacks are function pointers that may be null:
`displayCode` and `storeLTK` say whether one is registered,
`binaryConfirmPairing` holds the answer the registered callback gives. -/
structure HCIState where
  Na : List Nat
  Nb : List Nat
  localPublicKeyBuffer : List Nat
  remotePublicKeyBuffer : List Nat
  DHKey : List Nat
  MacKey : List Nat
  LTK : List Nat
  remoteDHKeyCheckBuffer : List Nat
  localAddr : List Nat
  /-- result of `HCI.localIOCap()` -/
  localIOCap : Nat
  /-- result of `HCI.localAuthreq().getOctet()` -/
  localAuthreq : Nat
  /-- number of `leRand` calls made so far -/
  randCalls : Nat
  displayCode : Bool
  binaryConfirmPairing : Option Bool
  storeLTK : Bool
  deriving DecidableEq, Repr

/-- The state the core reads and writes, and the trace of its calls. -/
structure World where
  config : Config
  hci : HCIState
  att : ATTState
  trace : List Event

/-- Record a call. -/
def World.emit (w : World) (e : Event) : World :=
  { w with trace := w.trace ++ [e] }

/-- The call `HCI.sendAclPkt(handle, cid, len, data)`. -/
def World.sendAclPkt (w : World) (handle cid : Nat) (data : List Nat) : World :=
  w.emit (.sendAclPkt handle cid data)

/-- Modelled from the spec: `ATT.getPeerEncryption` (`ATT.cpp` is not part of
the sources), the getter of the connection's `encryption_flags`. -/
def World.getPeerEncryption (w : World) (handle : Nat) : Nat :=
  (w.att.peers handle).encryption

/-- Update the record of one connection. -/
def World.modifyPeer (w : World) (handle : Nat) (f : Peer → Peer) : World :=
  { w with att := { w.att with
      peers := fun k => if k = handle then f (w.att.peers k) else w.att.peers k } }

/-- Modelled from the spec: `ATT.setPeerEncryption` (`ATT.cpp` is not part of
the sources), the setter of the connection's `encryption_flags`. -/
def World.setPeerEncryption (w : World) (handle encryption : Nat) : World :=
  w.modifyPeer handle (fun p => { p with encryption := encryption })

/-- Modelled from the spec: `ATT.setPeerIOCap` (`ATT.cpp` is not part of the
sources), the setter of the connection's `peer_io_cap`. -/
def World.setPeerIOCap (w : World) (handle : Nat) (ioCap : List Nat) : World :=
  w.modifyPeer handle (fun p => { p with peerIOCap := ioCap })

/-- Modelled from the spec: `ATT.setPeerPairingConfirmValue` (`ATT.cpp` is not
part of the sources), the setter of the connection's `peer_confirm`. -/
def World.setPeerPairingConfirmValue (w : World) (handle : Nat) (cb : List Nat) : World :=
  w.modifyPeer handle (fun p => { p with pairingConfirmValue := cb })

/-- `L2CAPSignalingClass::setConnectionInterval`. -/
def setConnectionInterval (w : World) (minInterval maxInterval : Nat) : World :=
  { w with config := { w.config with minInterval := minInterval, maxInterval := maxInterval } }

/-- `L2CAPSignalingClass::setSupervisionTimeout`. -/
def setSupervisionTimeout (w : World) (supervisionTimeout : Nat) : World :=
  { w with config := { w.config with supervisionTimeout := supervisionTimeout } }

/-- `L2CAPSignalingClass::setPairingEnabled`. -/
def setPairingEnabled (w : World) (enabled : Nat) : World :=
  { w with config := { w.config with pairing_enabled := enabled } }

/-- `L2CAPSignalingClass::isPairingEnabled`. -/
def isPairingEnabled (w : World) : Bool := decide (w.config.pairing_enabled > 0)

/-! ## Parameter update engine -/

/-- The test `_minInterval && _maxInterval` followed by
`interval < _minInterval || interval > _maxInterval` of `addConnection`. -/
def intervalOutOfRange (c : Config) (interval : Nat) : Bool :=
  decide (c.minInterval ≠ 0) && decide (c.maxInterval ≠ 0) &&
    (decide (interval < c.minInterval) || decide (interval > c.maxInterval))

/-- The test `_supervisionTimeout && supervisionTimeout != _supervisionTimeout`
of `addConnection`. -/
def timeoutDiffers (c : Config) (supervisionTimeout : Nat) : Bool :=
  decide (c.supervisionTimeout ≠ 0) && decide (supervisionTimeout ≠ c.supervisionTimeout)

/-- `L2CAPSignalingClass::addConnection`. The unnamed parameters of the source
(peer address, latency, clock accuracy) are not read and are left out. -/
def addConnection (w : World) (handle role interval supervisionTimeout : Nat) : World :=
  if role ≠ 1 then w
  else
    let updatedMinInterval :=
      if intervalOutOfRange w.config interval then w.config.minInterval else interval
    let updatedMaxInterval :=
      if intervalOutOfRange w.config interval then w.config.maxInterval else interval
    let updatedSupervisionTimeout :=
      if timeoutDiffers w.config supervisionTimeout then w.config.supervisionTimeout
      else supervisionTimeout
    let updateParameters : Bool :=
      intervalOutOfRange w.config interval || timeoutDiffers w.config supervisionTimeout
    if updateParameters then
      w.sendAclPkt handle SIGNALING_CID
        ([CONNECTION_PARAMETER_UPDATE_REQUEST, 0x01] ++ wr16 8 ++
          wr16 updatedMinInterval ++ wr16 updatedMaxInterval ++ wr16 0x0000 ++
          wr16 updatedSupervisionTimeout)
    else w

/-- The `value` field of the response of `connectionParameterUpdateRequest`:
`0x0001` after either of the two reject assignments, else the initial
`0x0000`. -/
def responseValue (c : Config) (data : List Nat) : Nat :=
  let v0 : Nat := 0x0000
  let v1 :=
    if c.minInterval ≠ 0 ∧ c.maxInterval ≠ 0 then
      if rd16 data 0 < c.minInterval ∨ rd16 data 2 > c.maxInterval then 0x0001 else v0
    else v0
  if c.supervisionTimeout ≠ 0 then
    if rd16 data 6 ≠ c.supervisionTimeout then 0x0001 else v1
  else v1

/-- `L2CAPSignalingClass::connectionParameterUpdateRequest`: `dlen` is the
`uint8_t` parameter, `data` the payload after the signaling header. -/
def connectionParameterUpdateRequest (w : World) (handle identifier dlen : Nat)
    (data : List Nat) : World :=
  if dlen < 8 then w
  else
    let value := responseValue w.config data
    let w1 := w.sendAclPkt handle SIGNALING_CID
      ([CONNECTION_PARAMETER_UPDATE_RESPONSE, identifier] ++ wr16 2 ++ wr16 value)
    if value = 0x0000 then
      w1.emit (.leConnUpdate handle (rd16 data 0) (rd16 data 2) (rd16 data 4) (rd16 data 6))
    else w1

/-- `L2CAPSignalingClass::connectionParameterUpdateResponse`: empty body. -/
def connectionParameterUpdateResponse (w : World) (_handle _identifier _dlen : Nat)
    (_data : List Nat) : World := w

/-- What `handleData` does with a frame. -/
inductive Dispatch where
  | dropped
  | ignoredCode
  | request (identifier dlen : Nat) (payload : List Nat)
  | response (identifier dlen : Nat) (payload : List Nat)
  deriving DecidableEq, Repr

/-- A frame is handed to one of the two handlers. -/
def Dispatch.isHandled : Dispatch → Bool
  | .request _ _ _ => true
  | .response _ _ _ => true
  | _ => false

/-- The control flow of `L2CAPSignalingClass::handleData`: `dlen` is the
`uint8_t` frame length, `data` the frame. The sum `sizeof(hdr) + length` is
computed in `size_t`; the 16-bit header length is narrowed to the `uint8_t dlen`
parameter of the handlers. -/
def handleDataDispatch (sz : SizeT) (dlen : Nat) (data : List Nat) : Dispatch :=
  if dlen < 4 then .dropped
  else if dlen ≠ (4 + rd16 data 2) % sz.modulus then .dropped
  else
    let code := byteAt data 0
    let identifier := byteAt data 1
    let length := rd16 data 2
    let payload := data.drop 4
    if code = CONNECTION_PARAMETER_UPDATE_REQUEST then
      .request identifier (length % 256) payload
    else if code = CONNECTION_PARAMETER_UPDATE_RESPONSE then
      .response identifier (length % 256) payload
    else .ignoredCode

/-- `L2CAPSignalingClass::handleData`. -/
def handleData (env : Env) (w : World) (connectionHandle dlen : Nat) (data : List Nat) :
    World :=
  match handleDataDispatch env.sz dlen data with
  | .dropped => w
  | .ignoredCode => w
  | .request identifier n payload =>
      connectionParameterUpdateRequest w connectionHandle identifier n payload
  | .response identifier n payload =>
      connectionParameterUpdateResponse w connectionHandle identifier n payload

/-! ## Security Manager -/

/-- Modelled from the spec: the SMP code `PairingRequest (0x01)`; the constant
is declared in a header that is not part of the sources. -/
def CONNECTION_PAIRING_REQUEST : Nat := 0x01

/-- Modelled from the spec: the SMP code `PairingResponse (0x02)`. -/
def CONNECTION_PAIRING_RESPONSE : Nat := 0x02

/-- Modelled from the spec: the SMP code `PairingConfirm (0x03)`. -/
def CONNECTION_PAIRING_CONFIRM : Nat := 0x03

/-- Modelled from the spec: the SMP code `PairingRandom (0x04)`. -/
def CONNECTION_PAIRING_RANDOM : Nat := 0x04

/-- Modelled from the spec: the SMP code `PairingFailed (0x05)`. -/
def CONNECTION_PAIRING_FAILED : Nat := 0x05

/-- Modelled from the spec: the SMP code `IdentityInformation (0x08)`. -/
def CONNECTION_IDENTITY_INFORMATION : Nat := 0x08

/-- Modelled from the spec: the SMP code `IdentityAddressInformation (0x09)`. -/
def CONNECTION_IDENTITY_ADDRESS : Nat := 0x09

/-- Modelled from the spec: the SMP code `PairingPublicKey (0x0C)`. -/
def CONNECTION_PAIRING_PUBLIC_KEY : Nat := 0x0C

/-- Modelled from the spec: the SMP code `PairingDHKeyCheck (0x0D)`. -/
def CONNECTION_PAIRING_DHKEY_CHECK : Nat := 0x0D

/-- Modelled from the spec: `KeyDistribution` (`keyDistribution.h` is not part
of the sources); the octet after `KeyDistribution()`, `setIdKey(true)`, with
IdKey at bit 1 as the spec gives it. -/
def responseKD (env : Env) : Nat := env.kdDefault ||| 0x02

/-- Modelled from the spec: `ATT.getPeerPairingInitiatorRelationship`
(`ATT.cpp` is not part of the sources). -/
def World.getPeerPairingInitiatorRelationship (w : World) (handle : Nat) : Bool :=
  (w.att.peers handle).peerIsInitiator

/-- Modelled from the spec: `ATT.getPeerAddrWithType` (`ATT.cpp` is not part
of the sources): the seven bytes written to the caller's buffer. -/
def World.getPeerAddrWithType (w : World) (handle : Nat) : List Nat :=
  copyBytes 7 (w.att.peers handle).addrWithType 0

/-- Modelled from the spec: `ATT.getPeerIOCap` (`ATT.cpp` is not part of the
sources): the three bytes written to the caller's buffer. -/
def World.getPeerIOCap (w : World) (handle : Nat) : List Nat :=
  copyBytes 3 (w.att.peers handle).peerIOCap 0

/-- The call `HCI.readBdAddr()`. -/
def World.readBdAddr (env : Env) (w : World) : World :=
  ({ w with hci := { w.hci with localAddr := env.bdAddr } } : World).emit .readBdAddr

/-- The call `HCI.poll()`. The events the transport has pending are handled by
further calls of the entry points; here the call is recorded. -/
def World.poll (w : World) : World := w.emit .poll

/-- `L2CAPSignalingClass::handlePairingRequestFromInitiator`: `data` is the
security frame, the request fields follow the code byte. -/
def handlePairingRequestFromInitiator (env : Env) (w : World) (connectionHandle : Nat)
    (data : List Nat) : World :=
  if isPairingEnabled w then
    let w1 : World :=
      if w.config.pairing_enabled ≥ 2 then
        { w with config := { w.config with pairing_enabled := 0 } }
      else w
    let ioCapability := byteAt data 1
    let oobDataFlag := byteAt data 2
    let authReq := byteAt data 3
    let w2 : World := { w1 with att := { w1.att with
      remoteKeyDistribution := responseKD env, localKeyDistribution := responseKD env } }
    let peerIOCap := [authReq, oobDataFlag, ioCapability]
    let w3 := w2.setPeerIOCap connectionHandle peerIOCap
    let w4 := w3.setPeerEncryption connectionHandle
      (w3.getPeerEncryption connectionHandle ||| env.pe.PAIRING_REQUEST)
    w4.sendAclPkt connectionHandle SECURITY_CID
      [CONNECTION_PAIRING_RESPONSE, w4.hci.localIOCap, 0, w4.hci.localAuthreq, 0x10,
        responseKD env, responseKD env]
  else
    (w.sendAclPkt connectionHandle SECURITY_CID
      [CONNECTION_PAIRING_FAILED, 0x05]).setPeerEncryption connectionHandle
        env.pe.NO_ENCRYPTION

/-- `L2CAPSignalingClass::handlePairingRequestResponseAsInitiator`. -/
def handlePairingRequestResponseAsInitiator (env : Env) (w : World) (connectionHandle : Nat)
    (data : List Nat) : World :=
  let ioCapability := byteAt data 1
  let oobDataFlag := byteAt data 2
  let authReq := byteAt data 3
  let w1 : World := { w with att := { w.att with
    remoteKeyDistribution := responseKD env, localKeyDistribution := responseKD env } }
  let w2 := w1.setPeerIOCap connectionHandle [authReq, oobDataFlag, ioCapability]
  w2.emit (.sendCommand ((env.OGF_LE_CTL <<< 10) ||| env.READ_LOCAL_P256) [])

/-- The 65 bytes of `f4Params` in `validatePeerConfirmValue`: U is the reversed
first half of `HCI.localPublicKeyBuffer`, V the reversed first half of
`HCI.remotePublicKeyBuffer`, Z the zero left by `memset`. -/
def f4Params (w : World) : List Nat :=
  revBytes 32 w.hci.localPublicKeyBuffer 0 ++ revBytes 32 w.hci.remotePublicKeyBuffer 0 ++ [0]

/-- The array `newConfirmValue` of `validatePeerConfirmValue`: the reversed
result of `AES_CMAC` with key `HCI.Nb` over `f4Params`. -/
def newConfirmValue (env : Env) (w : World) : List Nat :=
  revBytes 16 (env.AES_CMAC w.hci.Nb (f4Params w)) 0

/-- Modelled from the spec: the content of the local array
`originalConfirmValue` after `ATT.getPeerPairingConfirmValue(connectionHandle,
*originalConfirmValue)` (`ATT.cpp` is not part of the sources). The array is
not initialised, and the call is given its element 0, one `uint8_t`, not the
array: a getter taking a reference can store the first byte of the
connection's confirm value there, a getter taking a value can store nothing.
Elements 1 to 15 are what the stack held. -/
def originalConfirmValue (env : Env) (w : World) (connectionHandle : Nat) : List Nat :=
  if env.confirmGetterByReference then
    byteAt (w.att.peers connectionHandle).pairingConfirmValue 0 ::
      copyBytes 15 env.stack 1
  else copyBytes 16 env.stack 0

/-- `L2CAPSignalingClass::validatePeerConfirmValue`: the state after the call
and the value returned. -/
def validatePeerConfirmValue (env : Env) (w : World) (connectionHandle : Nat) :
    World × Bool :=
  if newConfirmValue env w = originalConfirmValue env w connectionHandle then (w, true)
  else
    let w1 := w.emit (.serialPrintln "The confirm values do not match.")
    let w2 := w1.sendAclPkt connectionHandle SECURITY_CID [CONNECTION_PAIRING_FAILED, 0x04]
    (w2.setPeerEncryption connectionHandle env.pe.NO_ENCRYPTION, false)

/-- `L2CAPSignalingClass::sendRandomValue`. -/
def sendRandomValue (env : Env) (w : World) (handle : Nat) : World :=
  let Na := copyBytes 8 (env.leRand w.hci.randCalls) 0 ++
    copyBytes 8 (env.leRand (w.hci.randCalls + 1)) 0
  let w1 : World := ({ w with hci := { w.hci with randCalls := w.hci.randCalls + 2 } } :
    World).emit .leRand |>.emit .leRand
  let w2 : World := { w1 with hci := { w1.hci with Na := revBytes 16 Na 0 } }
  w2.sendAclPkt handle SECURITY_CID (CONNECTION_PAIRING_RANDOM :: copyBytes 16 w2.hci.Na 0)

/-- `L2CAPSignalingClass::smCalculateLTKandConfirm`. -/
def smCalculateLTKandConfirm (env : Env) (w : World) (handle : Nat) (expectedEa : List Nat) :
    World :=
  let remoteAddress := w.getPeerAddrWithType handle
  let w1 := w.readBdAddr env
  let localAddress := 0 :: copyBytes 6 w1.hci.localAddr 0
  let keys := env.f5 w1.hci.DHKey w1.hci.Na w1.hci.Nb remoteAddress localAddress
  let MacKey := keys.1
  let w2 : World := { w1 with hci := { w1.hci with LTK := keys.2 } }
  let SlaveIOCap := [w2.hci.localAuthreq, 0x0, w2.hci.localIOCap]
  let MasterIOCap := w2.getPeerIOCap handle
  let R := List.replicate 16 0
  let Ea := env.f6 MacKey w2.hci.Na w2.hci.Nb R MasterIOCap remoteAddress localAddress
  let Eb := env.f6 MacKey w2.hci.Nb w2.hci.Na R SlaveIOCap localAddress remoteAddress
  if copyBytes 16 Ea 0 = copyBytes 16 expectedEa 0 then
    let w3 := w2.sendAclPkt handle SECURITY_CID
      (CONNECTION_PAIRING_DHKEY_CHECK :: revBytes 16 Eb 0)
    let encryption := (w3.getPeerEncryption handle ||| env.pe.SENT_DH_CHECK) % 256
    w3.setPeerEncryption handle encryption
  else
    (w2.sendAclPkt handle SECURITY_CID
      [CONNECTION_PAIRING_FAILED, 0x0B]).setPeerEncryption handle env.pe.NO_ENCRYPTION

/-- An `int` of 16 bits holding the low 16 bits of `v`, converted to
`uint32_t`: values from 0x8000 are negative and are sign-extended. -/
def int16ToUint32 (v : Nat) : Nat :=
  if v % 65536 < 32768 then v % 65536 else v % 65536 + (2 ^ 32 - 65536)

/-- The `uint32_t result` assembled from the four bytes of the g2 output by
`result += g2Result[3 - i] << 8 * i` for `i` in 0..3. Each byte is promoted to
`int` before the shift; `int` is as wide as `size_t` on the targets modelled
(`env.sz`: 16 bits on AVR, 32 bits on ARM). With a 32-bit `int` every term
fits 32 bits and the sum is taken modulo 2^32. With a 16-bit `int` the terms
for `i` = 0 and 1 are 16-bit `int`s, sign-extended when added to `result`, and
the shifts by 16 and 24 are as wide as `int` or wider: what they contribute is
`env.shiftPastWidth`. -/
def g2Value (env : Env) (g2Result : List Nat) : Nat :=
  match env.sz with
  | .bits32 =>
      ((List.range 4).map (fun i => byteAt g2Result (3 - i) <<< (8 * i))).sum % 2 ^ 32
  | .bits16 =>
      (int16ToUint32 (byteAt g2Result 3 <<< (8 * 0)) +
        int16ToUint32 (byteAt g2Result 2 <<< (8 * 1)) +
        env.shiftPastWidth (byteAt g2Result 1) (8 * 2) +
        env.shiftPastWidth (byteAt g2Result 0) (8 * 3)) % 2 ^ 32

/-- The branch of `handleSecurityData` for `CONNECTION_PAIRING_RANDOM`. -/
def handlePairingRandom (env : Env) (w : World) (connectionHandle : Nat) (data : List Nat) :
    World :=
  if w.getPeerPairingInitiatorRelationship connectionHandle then
    let w1 : World := { w with hci := { w.hci with Na := revBytes 16 data 1 } }
    let w2 := w1.sendAclPkt connectionHandle SECURITY_CID
      (CONNECTION_PAIRING_RANDOM :: revBytes 16 w1.hci.Nb 0)
    let U := revBytes 32 w2.hci.remotePublicKeyBuffer 0
    let V := revBytes 32 w2.hci.localPublicKeyBuffer 0
    let result := g2Value env (env.g2 U V w2.hci.Na w2.hci.Nb)
    let w3 := if w2.hci.displayCode then w2.emit (.displayCode (result % 1000000)) else w2
    match w3.hci.binaryConfirmPairing with
    | none => w3
    | some answer =>
        let w4 := w3.emit (.binaryConfirmPairing answer)
        if !answer then
          (w4.sendAclPkt connectionHandle SECURITY_CID
            [CONNECTION_PAIRING_FAILED, 0x0C]).setPeerEncryption connectionHandle
              env.pe.NO_ENCRYPTION
        else w4
  else
    let w1 : World := { w with hci := { w.hci with Nb := revBytes 16 data 1 } }
    let U := revBytes 32 w1.hci.localPublicKeyBuffer 0
    let V := revBytes 32 w1.hci.remotePublicKeyBuffer 0
    let _result := g2Value env (env.g2 U V w1.hci.Na w1.hci.Nb)
    (validatePeerConfirmValue env w1 connectionHandle).1

/-- The branch of `handleSecurityData` for `CONNECTION_PAIRING_PUBLIC_KEY`. -/
def handlePairingPublicKey (env : Env) (w : World) (connectionHandle : Nat)
    (data : List Nat) : World :=
  let generateDHKeyCommand := copyBytes 32 data 1 ++ copyBytes 32 data 33
  let w1 := w.setPeerEncryption connectionHandle
    (w.getPeerEncryption connectionHandle ||| env.pe.REQUESTED_ENCRYPTION)
  if w1.getPeerPairingInitiatorRelationship connectionHandle then
    let w2 : World := { w1 with hci := { w1.hci with
      remotePublicKeyBuffer := generateDHKeyCommand } }
    w2.emit (.sendCommand ((env.OGF_LE_CTL <<< 10) ||| env.READ_LOCAL_P256) [])
  else
    let w2 : World := { w1 with hci := { w1.hci with
      remotePublicKeyBuffer := generateDHKeyCommand } }
    (w2.emit (.sendCommand ((env.OGF_LE_CTL <<< 10) ||| env.GENERATE_DH_KEY_V1)
      w2.hci.remotePublicKeyBuffer)).poll

/-- The branch of `handleSecurityData` for `CONNECTION_PAIRING_DHKEY_CHECK`.
The second half of the source names the connection `handle`; it stands for
`connectionHandle`, the only connection identifier in scope. -/
def handlePairingDHKeyCheck (env : Env) (w : World) (connectionHandle : Nat)
    (data : List Nat) : World :=
  let RemoteDHKeyCheck := revBytes 16 data 1
  if w.getPeerPairingInitiatorRelationship connectionHandle then
    let encryptionState :=
      (w.getPeerEncryption connectionHandle ||| env.pe.RECEIVED_DH_CHECK) % 256
    let w1 := w.setPeerEncryption connectionHandle encryptionState
    if encryptionState &&& env.pe.DH_KEY_CALULATED = 0 then
      { w1 with hci := { w1.hci with remoteDHKeyCheckBuffer := RemoteDHKeyCheck } }
    else
      smCalculateLTKandConfirm env w1 connectionHandle RemoteDHKeyCheck
  else
    let encryptionState :=
      (w.getPeerEncryption connectionHandle ||| env.pe.RECEIVED_DH_CHECK) % 256
    let w1 := w.setPeerEncryption connectionHandle encryptionState
    let remoteAddress := w1.getPeerAddrWithType connectionHandle
    let w2 := w1.readBdAddr env
    let localAddress := 0 :: copyBytes 6 w2.hci.localAddr 0
    let SlaveIOCap := w2.getPeerIOCap connectionHandle
    let R := List.replicate 16 0
    let Eb := env.f6 w2.hci.MacKey w2.hci.Nb w2.hci.Na R SlaveIOCap remoteAddress localAddress
    if copyBytes 16 Eb 0 = RemoteDHKeyCheck then w2
    else
      (w2.sendAclPkt connectionHandle SECURITY_CID
        [CONNECTION_PAIRING_FAILED, 0x0B]).setPeerEncryption connectionHandle
          env.pe.NO_ENCRYPTION

/-- The branch of `handleSecurityData` for `CONNECTION_IDENTITY_ADDRESS`. -/
def handleIdentityAddress (w : World) (data : List Nat) : World :=
  let peerAddress := revBytes 6 data 2
  let w1 := w.emit (.saveNewAddress (byteAt data 1) peerAddress w.att.peerIRK w.att.localIRK)
  if w1.hci.storeLTK then w1.emit (.storeLTK peerAddress w1.hci.LTK) else w1

/-- `L2CAPSignalingClass::handleSecurityData`: `data` is the security frame,
`dlen` its length, which the source reads only inside trace sections. -/
def handleSecurityData (env : Env) (w : World) (connectionHandle _dlen : Nat)
    (data : List Nat) : World :=
  let code := byteAt data 0
  if code = CONNECTION_PAIRING_REQUEST then
    handlePairingRequestFromInitiator env w connectionHandle data
  else if code = CONNECTION_PAIRING_RANDOM then
    handlePairingRandom env w connectionHandle data
  else if code = CONNECTION_PAIRING_RESPONSE then
    handlePairingRequestResponseAsInitiator env w connectionHandle data
  else if code = CONNECTION_PAIRING_FAILED then
    w.setPeerEncryption connectionHandle env.pe.NO_ENCRYPTION
  else if code = CONNECTION_IDENTITY_INFORMATION then
    { w with att := { w.att with peerIRK := revBytes 16 data 1 } }
  else if code = CONNECTION_IDENTITY_ADDRESS then
    handleIdentityAddress w data
  else if code = CONNECTION_PAIRING_PUBLIC_KEY then
    handlePairingPublicKey env w connectionHandle data
  else if code = CONNECTION_PAIRING_DHKEY_CHECK then
    handlePairingDHKeyCheck env w connectionHandle data
  else if code = CONNECTION_PAIRING_CONFIRM then
    let w1 := w.setPeerPairingConfirmValue connectionHandle (copyBytes 16 data 1)
    (sendRandomValue env w1 connectionHandle).poll
  else w

/-- Modelled from the spec: `ATT.getLocalIOCap` (`ATT.cpp` is not part of the
sources): the three bytes written to the caller's buffer. -/
def World.getLocalIOCap (w : World) : List Nat :=
  copyBytes 3 w.att.localIOCap 0

/-- Modelled from the spec: `ATT.setLocalIOCap` (`ATT.cpp` is not part of the
sources), the setter of `local_io_cap`. -/
def World.setLocalIOCap (w : World) (ioCap : List Nat) : World :=
  { w with att := { w.att with localIOCap := ioCap } }

/-- `L2CAPSignalingClass::initiatePairingRequest`: the state after the call;
the value returned is always `true`. The three capability bytes are assigned
to `peerIOCap`, the array the request is built from; the local array
`localIOCap` handed to `ATT.setLocalIOCap` is never assigned and holds what
the stack held. The last statement names the connection `connectionHandle`;
it stands for `handle`, the only connection identifier in scope. -/
def initiatePairingRequest (env : Env) (w : World) (handle : Nat) : World :=
  let localIOCap := copyBytes 3 env.stackIOCap 0
  let peerIOCap := [0x9, 0x00, env.IOCAP_DISPLAY_ONLY]
  let w1 := w.setLocalIOCap localIOCap
  let pr := [CONNECTION_PAIRING_REQUEST, byteAt peerIOCap 2, byteAt peerIOCap 1,
    byteAt peerIOCap 0, 0x10, 0x01, 0x01]
  let w2 := w1.sendAclPkt handle SECURITY_CID pr
  w2.setPeerEncryption handle (w2.getPeerEncryption handle ||| env.pe.PAIRING_REQUEST)

/-- `L2CAPSignalingClass::sendDHKCheck`: the parameter is a `uint8_t`, so the
connection handle given is narrowed to its low byte. -/
def sendDHKCheck (env : Env) (w : World) (handle16 : Nat) : World :=
  let handle := handle16 % 256
  let remoteAddress := w.getPeerAddrWithType handle
  let w1 := w.readBdAddr env
  let localAddress := 0 :: copyBytes 6 w1.hci.localAddr 0
  let keys := env.f5 w1.hci.DHKey w1.hci.Na w1.hci.Nb localAddress remoteAddress
  let w2 : World := { w1 with hci := { w1.hci with MacKey := keys.1, LTK := keys.2 } }
  let MasterIOCap := w2.getLocalIOCap
  let R := List.replicate 16 0
  let Ea := env.f6 w2.hci.MacKey w2.hci.Na w2.hci.Nb R MasterIOCap localAddress remoteAddress
  let w3 := w2.sendAclPkt handle SECURITY_CID
    (CONNECTION_PAIRING_DHKEY_CHECK :: revBytes 16 Ea 0)
  let encryption := (w3.getPeerEncryption handle ||| env.pe.SENT_DH_CHECK) % 256
  (w3.setPeerEncryption handle encryption).poll

/-- The arguments U, V, X, Y of the `btct.g2` call in the responder branch of
`CONNECTION_PAIRING_RANDOM`: U from the remote key, V from the local key, X
the nonce just stored in `HCI.Na` from the frame, Y `HCI.Nb`. -/
def responderG2Args (w : World) (data : List Nat) :
    List Nat × List Nat × List Nat × List Nat :=
  (revBytes 32 w.hci.remotePublicKeyBuffer 0, revBytes 32 w.hci.localPublicKeyBuffer 0,
    revBytes 16 data 1, w.hci.Nb)

/-- The arguments U, V, X, Y of the `btct.g2` call in the initiator branch of
`CONNECTION_PAIRING_RANDOM`: U from the local key, V from the remote key, X
`HCI.Na`, Y the nonce just stored in `HCI.Nb` from the frame. -/
def initiatorG2Args (w : World) (data : List Nat) :
    List Nat × List Nat × List Nat × List Nat :=
  (revBytes 32 w.hci.localPublicKeyBuffer 0, revBytes 32 w.hci.remotePublicKeyBuffer 0,
    w.hci.Na, revBytes 16 data 1)

/-- The `uint32_t result` either branch assembles from the output of its g2
call. -/
def g2ResultOf (env : Env) (args : List Nat × List Nat × List Nat × List Nat) : Nat :=
  g2Value env (env.g2 args.1 args.2.1 args.2.2.1 args.2.2.2)

/-- The events recorded between the state `w` before a call and the state
`w'` after it. -/
def callEvents (w w' : World) : List Event := w'.trace.drop w.trace.length

/-- An event is the sending of a PairingFailed PDU: an ACL packet on the
security CID whose first byte is 0x05. -/
def Event.isPairingFailed : Event → Bool
  | .sendAclPkt _ cid (code :: _) => decide (cid = SECURITY_CID) && decide (code = 0x05)
  | _ => false

/-- A PairingFailed PDU was sent between `w` and `w'`. -/
def sentPairingFailed (w w' : World) : Bool := (callEvents w w').any Event.isPairingFailed

/-- A call of one of the entry points that write a connection's encryption
flags. -/
inductive EntryPoint where
  | handleSecurityData (connectionHandle dlen : Nat) (data : List Nat)
  | initiatePairingRequest (handle : Nat)
  | sendDHKCheck (handle : Nat)
  | smCalculateLTKandConfirm (handle : Nat) (expectedEa : List Nat)
  deriving DecidableEq, Repr

/-- The state after a call of an entry point. -/
def callEntryPoint (env : Env) (w : World) : EntryPoint → World
  | .handleSecurityData h dlen data => handleSecurityData env w h dlen data
  | .initiatePairingRequest h => initiatePairingRequest env w h
  | .sendDHKCheck h => sendDHKCheck env w h
  | .smCalculateLTKandConfirm h ea => smCalculateLTKandConfirm env w h ea

/-- The call handles an inbound PairingFailed PDU. -/
def EntryPoint.receivesPairingFailed : EntryPoint → Bool
  | .handleSecurityData _ _ data => decide (byteAt data 0 = 0x05)
  | _ => false

/-- `L2CAPSignalingClass::removeConnection`: empty body. -/
def removeConnection (w : World) (_handle _reason : Nat) : World := w

/-! ## Sequences of calls -/

/-- One call of a member function of the signaling object other than
`setPairingEnabled`: the entry points and the functions they call. -/
inductive Input where
  | securityData (connectionHandle dlen : Nat) (data : List Nat)
  | signalingData (connectionHandle dlen : Nat) (data : List Nat)
  | addConnection (handle role interval supervisionTimeout : Nat)
  | setConnectionInterval (minInterval maxInterval : Nat)
  | setSupervisionTimeout (supervisionTimeout : Nat)
  | initiatePairingRequest (handle : Nat)
  | sendDHKCheck (handle : Nat)
  | smCalculateLTKandConfirm (handle : Nat) (expectedEa : List Nat)
  | sendRandomValue (handle : Nat)
  | validatePeerConfirmValue (connectionHandle : Nat)
  | removeConnection (handle reason : Nat)
  deriving DecidableEq, Repr

/-- The state after one call. -/
def step (env : Env) (w : World) : Input → World
  | .securityData h dlen data => handleSecurityData env w h dlen data
  | .signalingData h dlen data => handleData env w h dlen data
  | .addConnection h role interval timeout => addConnection w h role interval timeout
  | .setConnectionInterval a b => setConnectionInterval w a b
  | .setSupervisionTimeout t => setSupervisionTimeout w t
  | .initiatePairingRequest h => initiatePairingRequest env w h
  | .sendDHKCheck h => sendDHKCheck env w h
  | .smCalculateLTKandConfirm h ea => smCalculateLTKandConfirm env w h ea
  | .sendRandomValue h => sendRandomValue env w h
  | .validatePeerConfirmValue h => (validatePeerConfirmValue env w h).1
  | .removeConnection h reason => removeConnection w h reason

/-- The state after a sequence of calls, each run to completion before the
next. -/
def run (env : Env) (w : World) : List Input → World
  | [] => w
  | i :: is => run env (step env w i) is

/-! ## Fixtures for concrete evaluation -/

/-- A connection record with every field cleared. -/
def Peer.zero : Peer :=
  { encryption := 0, peerIOCap := [0, 0, 0], pairingConfirmValue := List.replicate 16 0,
    peerIsInitiator := false, addrWithType := List.replicate 7 0 }

/-- A registry in which every connection record is cleared. -/
def ATTState.zero : ATTState :=
  { peers := fun _ => Peer.zero, peerIRK := List.replicate 16 0,
    localIRK := List.replicate 16 0, localIOCap := [0, 0, 0],
    remoteKeyDistribution := 0, localKeyDistribution := 0 }

/-- An HCI object with every buffer cleared and no callback registered. -/
def HCIState.zero : HCIState :=
  { Na := List.replicate 16 0, Nb := List.replicate 16 0,
    localPublicKeyBuffer := List.replicate 64 0,
    remotePublicKeyBuffer := List.replicate 64 0,
    DHKey := List.replicate 32 0, MacKey := List.replicate 16 0,
    LTK := List.replicate 16 0, remoteDHKeyCheckBuffer := List.replicate 16 0,
    localAddr := List.replicate 6 0, localIOCap := 0, localAuthreq := 0,
    randCalls := 0, displayCode := false, binaryConfirmPairing := none, storeLTK := false }

/-- The state after construction, with the given configuration and no call
made yet. -/
def World.start (c : Config) : World :=
  { config := c, hci := HCIState.zero, att := ATTState.zero, trace := [] }

/-- The configuration of the spec's parameter-update scenarios: min=0x0018,
max=0x0028, timeout=0x01F4. -/
def scenarioConfig : Config :=
  { minInterval := 0x0018, maxInterval := 0x0028, supervisionTimeout := 0x01F4,
    pairing_enabled := 1 }

/-- Enumerator values for evaluation: one bit per `PEER_ENCRYPTION` flag. -/
def PeerEncryption.sample : PeerEncryption :=
  { NO_ENCRYPTION := 0, PAIRING_REQUEST := 1, REQUESTED_ENCRYPTION := 2,
    DH_KEY_CALULATED := 8, RECEIVED_DH_CHECK := 16, SENT_DH_CHECK := 32 }

/-- A stand-in for the MAC, for evaluation only: byte i of the result is the
sum of key byte i and message byte i. -/
def sampleMac (key msg : List Nat) : List Nat :=
  (List.range 16).map (fun i => (byteAt key i + byteAt msg i) % 256)

/-- An environment for evaluation, with stand-ins for the cryptographic
functions. -/
def Env.sample : Env :=
  { sz := .bits32, pe := PeerEncryption.sample, OGF_LE_CTL := 0x08,
    READ_LOCAL_P256 := 0x25, GENERATE_DH_KEY_V1 := 0x26, kdDefault := 0,
    AES_CMAC := sampleMac,
    g2 := fun U V X Y => (sampleMac X (U ++ V ++ Y)).drop 12,
    f5 := fun W N1 N2 A1 A2 =>
      (sampleMac W (N1 ++ N2 ++ A1 ++ A2), sampleMac W (N2 ++ N1 ++ A2 ++ A1)),
    f6 := fun W N1 N2 R IOCap A1 A2 => sampleMac W (N1 ++ N2 ++ R ++ IOCap ++ A1 ++ A2),
    bdAddr := [1, 2, 3, 4, 5, 6], leRand := fun n => List.replicate 8 (n + 1),
    stack := List.replicate 16 0xAA, confirmGetterByReference := true }

/-- Modelled from the spec: `f4(U, V, X, Z) = AES-CMAC_X(U ‖ V ‖ Z)`, the
confirm value function, over the environment's `AES_CMAC`. -/
def f4 (env : Env) (U V X : List Nat) (Z : Nat) : List Nat :=
  env.AES_CMAC X (U ++ V ++ [Z])

/-- The sample environment with the stack area of `originalConfirmValue`
holding `stack`. -/
def Env.sampleWithStack (stack : List Nat) : Env :=
  { Env.sample with stack := stack }

/-- A state in which the confirm value stored for connection 64 is a zero byte
followed by fifteen bytes 0x01. -/
def wrongConfirmWorld : World :=
  (World.start scenarioConfig).setPeerPairingConfirmValue 64 (0 :: List.replicate 15 1)

/-- X coordinate of the initiator's public key, as held in the first half of
a public-key buffer. -/
def sampleKeyA : List Nat := (List.range 32).map (fun i => i + 1)

/-- X coordinate of the responder's public key, as held in the first half of
a public-key buffer. -/
def sampleKeyB : List Nat := (List.range 32).map (fun i => i + 101)

/-- The responder's nonce, in the order `HCI.Nb` holds it. -/
def sampleNb : List Nat := (List.range 16).map (fun i => i + 51)

/-- The confirm value an honest responder sends for the sample keys and nonce,
as the bytes of its PairingConfirm PDU: the reversed
`f4(PKb.x, PKa.x, Nb, 0)`. -/
def honestConfirm : List Nat :=
  revBytes 16 (f4 Env.sample (revBytes 32 sampleKeyB 0) (revBytes 32 sampleKeyA 0) sampleNb 0) 0

/-- The initiator's state before it validates the honest responder's confirm
value: its own key is key A, the remote key is key B, `HCI.Nb` is the
responder's nonce and the stored confirm value is the responder's. -/
def honestWorld : World :=
  let base := World.start scenarioConfig
  ({ base with hci := { base.hci with
      localPublicKeyBuffer := sampleKeyA ++ List.replicate 32 0,
      remotePublicKeyBuffer := sampleKeyB ++ List.replicate 32 0,
      Nb := sampleNb } } : World).setPeerPairingConfirmValue 64 honestConfirm

/-- Modelled from the spec: the local address A_local used in f5 and f6, type
byte 0 followed by the six bytes of the local address the controller reports. -/
def specLocalAddress (env : Env) : List Nat := 0 :: copyBytes 6 env.bdAddr 0

/-- Modelled from the spec: the responder's
`(MacKey, LTK) = f5(DHKey, Na, Nb, A_peer, A_local)`. -/
def specResponderKeys (env : Env) (w : World) (h : Nat) : List Nat × List Nat :=
  env.f5 w.hci.DHKey w.hci.Na w.hci.Nb (w.getPeerAddrWithType h) (specLocalAddress env)

/-- Modelled from the spec: the responder's
`Ea' = f6(MacKey, Na, Nb, 0^16, peer IOcap, A_peer, A_local)`. -/
def specResponderEa (env : Env) (w : World) (h : Nat) : List Nat :=
  env.f6 (specResponderKeys env w h).1 w.hci.Na w.hci.Nb (List.replicate 16 0)
    (w.getPeerIOCap h) (w.getPeerAddrWithType h) (specLocalAddress env)

/-- Modelled from the spec: the responder's
`Eb = f6(MacKey, Nb, Na, 0^16, local IOcap, A_local, A_peer)`, the local IO
capability being the triple authReq, oobFlag 0, ioCap. -/
def specResponderEb (env : Env) (w : World) (h : Nat) : List Nat :=
  env.f6 (specResponderKeys env w h).1 w.hci.Nb w.hci.Na (List.replicate 16 0)
    [w.hci.localAuthreq, 0, w.hci.localIOCap] (specLocalAddress env) (w.getPeerAddrWithType h)

/-- Modelled from the spec: the initiator's
`Eb' = f6(MacKey, Nb, Na, 0^16, IOcap_R, A_R, A_I)` with the stored MacKey,
the peer's IO capability and address, and the local address. -/
def specInitiatorEb (env : Env) (w : World) (h : Nat) : List Nat :=
  env.f6 w.hci.MacKey w.hci.Nb w.hci.Na (List.replicate 16 0)
    (w.getPeerIOCap h) (w.getPeerAddrWithType h) (specLocalAddress env)

/-- A responder state: the peer of connection 64 sent the Pairing Request and
the connection's flags are `flags`. -/
def responderWorld (flags : Nat) : World :=
  (World.start scenarioConfig).modifyPeer 64
    (fun p => { p with peerIsInitiator := true, encryption := flags })

/-- An initiator state: the local device sent the Pairing Request on
connection 64 and the connection's flags are `flags`. -/
def initiatorWorld (flags : Nat) : World :=
  (World.start scenarioConfig).modifyPeer 64
    (fun p => { p with peerIsInitiator := false, encryption := flags })

/-- The state `w` with a display callback registered and a confirm callback
that answers `answer`, or no confirm callback for `none`. -/
def withCallbacks (w : World) (answer : Option Bool) : World :=
  { w with hci := { w.hci with displayCode := true, binaryConfirmPairing := answer } }

/-- A PairingDHKeyCheck frame with payload bytes 1 to 16. -/
def sampleDHKeyCheckFrame : List Nat := 0x0D :: (List.range 16).map (fun i => i + 1)

/-- A PairingRandom frame with payload bytes 1 to 16. -/
def sampleRandomFrame : List Nat := 0x04 :: (List.range 16).map (fun i => i + 1)

/-- Every flag bit of the byte `old` is still set in `new`. -/
def KeepsFlags (old new : Nat) : Prop :=
  ∀ i, i < 8 → old.testBit i = true → new.testBit i = true

/-- What a call that took `w` to `res` did to the flags of connection `h`, the
connection the call is about. Either it sent a PairingFailed PDU, the flags
are NoEncryption and DHKey, MacKey and the public-key buffers are as before;
or it handled an inbound PairingFailed (`received`), sent nothing, the flags
are NoEncryption and the HCI members are as before; or it sent no
PairingFailed and kept every flag bit. The flags of the other connections are
as before. -/
def FlagsOutcome (env : Env) (received : Bool) (w res : World) (h : Nat) : Prop :=
  ((sentPairingFailed w res = true ∧ res.getPeerEncryption h = env.pe.NO_ENCRYPTION ∧
        res.hci.DHKey = w.hci.DHKey ∧ res.hci.MacKey = w.hci.MacKey ∧
        res.hci.localPublicKeyBuffer = w.hci.localPublicKeyBuffer ∧
        res.hci.remotePublicKeyBuffer = w.hci.remotePublicKeyBuffer) ∨
      (received = true ∧ res.trace = w.trace ∧
        res.getPeerEncryption h = env.pe.NO_ENCRYPTION ∧ res.hci = w.hci) ∨
      (sentPairingFailed w res = false ∧
        KeepsFlags (w.getPeerEncryption h) (res.getPeerEncryption h))) ∧
    ∀ j, j ≠ h → res.getPeerEncryption j = w.getPeerEncryption j

/-- The connection a call of an entry point is about. -/
def EntryPoint.connection : EntryPoint → Nat
  | .handleSecurityData h _ _ => h
  | .initiatePairingRequest h => h
  | .sendDHKCheck h => h % 256
  | .smCalculateLTKandConfirm h _ => h

/-- The index `sizeof(E) - i` the DHKey-check loops of `sendDHKCheck` and
`smCalculateLTKandConfirm` write in step `i`. -/
def dhkeyCheckIndex (i : Nat) : Nat := 16 - i

/-- The 17-byte buffer `ret` of `sendDHKCheck` and `smCalculateLTKandConfirm`
when it is sent: `ret[0] = CONNECTION_PAIRING_DHKEY_CHECK`, then the loop
`for (i = 0; i < 16; i++) ret[16 - i] = E[i]`, starting from the content `ret`
the uninitialised array had. -/
def dhkeyCheckPdu (E : List Nat) (ret : List Nat) : List Nat :=
  (List.range 16).foldl (fun buf i => buf.set (dhkeyCheckIndex i) (byteAt E i))
    (ret.set 0 CONNECTION_PAIRING_DHKEY_CHECK)

/-- Modelled from the spec: the initiator's
`(MacKey, LTK) = f5(DHKey, Na, Nb, A_I, A_R)`, `A_I` the local address with
type byte 0 and `A_R` the peer address with type. -/
def specInitiatorKeys (env : Env) (w : World) (h : Nat) : List Nat × List Nat :=
  env.f5 w.hci.DHKey w.hci.Na w.hci.Nb (specLocalAddress env) (w.getPeerAddrWithType h)

/-- Modelled from the spec: the initiator's
`Ea = f6(MacKey, Na, Nb, 0^16, IOcap_I, A_I, A_R)`, `IOcap_I` the local IO
capability triple. -/
def specInitiatorEa (env : Env) (w : World) (h : Nat) : List Nat :=
  env.f6 (specInitiatorKeys env w h).1 w.hci.Na w.hci.Nb (List.replicate 16 0)
    w.getLocalIOCap (specLocalAddress env) (w.getPeerAddrWithType h)

/-- A 16-byte value: sixteen entries, each a byte. -/
def IsValue16 (v : List Nat) : Prop := v.length = 16 ∧ ∀ b ∈ v, b < 256

/-- The conversion between wire order and cryptographic order of a 16-byte
value: the loop `out[15 - i] = in[i]` for `i` in 0..15. -/
def swapOrder16 (v : List Nat) : List Nat := revBytes 16 v 0

/-- A PairingPublicKey frame: code 0x0C, X bytes 1 to 32, Y bytes 101 to
132. -/
def samplePublicKeyFrame : List Nat :=
  0x0C :: ((List.range 32).map (fun i => i + 1) ++ (List.range 32).map (fun i => i + 101))

/-- A sequence of calls made between two pairing requests: a direct DHKey
check of the responder, a DHKey check and a pairing request of the initiator,
a PairingRandom frame, a parameter update request and a new connection. -/
def sampleLaterCalls : List Input :=
  [.smCalculateLTKandConfirm 64 (List.replicate 16 0), .sendDHKCheck 64,
    .initiatePairingRequest 66, .securityData 64 17 sampleRandomFrame,
    .signalingData 64 12
      [0x12, 0x07, 0x08, 0x00, 0x20, 0x00, 0x24, 0x00, 0x00, 0x00, 0xF4, 0x01],
    .addConnection 67 1 0x0010 0x01F4, .sendRandomValue 64, .validatePeerConfirmValue 64]

/-- The sample environment on a target with 16-bit `int`; what the shifts
past the width of `int` contribute is 0. -/
def Env.sample16 : Env :=
  { Env.sample with sz := .bits16 }

/-- A public-key buffer whose X half holds 0x21 at index 16 and 0x80 at index
17, every other byte zero. -/
def sampleKeyHigh : List Nat :=
  (List.range 64).map (fun i => if i = 16 then 0x21 else if i = 17 then 0x80 else 0)

/-- A PairingRandom frame carrying the initiator's nonce: payload bytes 0 to 3
zero, then 5 to 16. -/
def sampleNaFrame : List Nat :=
  0x04 :: (List.range 16).map (fun i => if i < 4 then 0 else i + 1)

/-- The responder's state when the initiator's PairingRandom arrives: the
remote key is `sampleKeyHigh`, its own nonce Nb is the reversed payload of
`sampleRandomFrame`, a display callback is registered. -/
def codeResponderWorld : World :=
  let base := withCallbacks (responderWorld 3) none
  { base with hci := { base.hci with
      remotePublicKeyBuffer := sampleKeyHigh, Nb := revBytes 16 sampleRandomFrame 1 } }

/-- The initiator's state when the responder's PairingRandom arrives: its own
key is `sampleKeyHigh`, its own nonce Na is the reversed payload of
`sampleNaFrame`. -/
def codeInitiatorWorld : World :=
  let base := withCallbacks (initiatorWorld 3) none
  { base with hci := { base.hci with
      localPublicKeyBuffer := sampleKeyHigh, Na := revBytes 16 sampleNaFrame 1 } }

/-! ## Theorems -/

theorem byteAt_lt (data : List Nat) (i : Nat) : byteAt data i < 256 :=
  Nat.mod_lt _ (by decide)

theorem rd16_lt (data : List Nat) (off : Nat) : rd16 data off < 65536 := by
  have h0 := byteAt_lt data off
  have h1 := byteAt_lt data (off + 1)
  unfold rd16
  omega

theorem emit_trace (w : World) (e : Event) : (w.emit e).trace = w.trace ++ [e] := rfl

theorem emit_ne_self (w : World) (e : Event) : w.emit e ≠ w := by
  intro h
  have := congrArg (fun x => x.trace.length) h
  simp [World.emit] at this

theorem emit_emit_ne_emit (w : World) (e1 e2 e3 : Event) :
    (w.emit e1).emit e2 ≠ w.emit e3 := by
  intro h
  have := congrArg (fun x => x.trace.length) h
  simp [World.emit] at this

/-- A frame is dropped exactly when it is shorter than the header or its
length disagrees with the header's length field. -/
theorem dispatch_dropped_iff (sz : SizeT) (dlen : Nat) (data : List Nat) (hdlen : dlen < 256) :
    handleDataDispatch sz dlen data = .dropped ↔ (dlen < 4 ∨ dlen ≠ 4 + rd16 data 2) := by
  have hl := rd16_lt data 2
  have hmod : 4 ≤ dlen →
      (dlen ≠ (4 + rd16 data 2) % sz.modulus ↔ dlen ≠ 4 + rd16 data 2) := by
    intro h4
    cases sz <;> simp only [SizeT.modulus, Nat.reducePow] <;> omega
  unfold handleDataDispatch
  by_cases h4 : dlen < 4
  · simp [h4]
  · have hm := hmod (by omega)
    by_cases hne : dlen ≠ (4 + rd16 data 2) % sz.modulus
    · have h1 := hm.1 hne
      rw [if_neg h4, if_pos hne]
      exact ⟨fun _ => Or.inr h1, fun _ => rfl⟩
    · have h1 : ¬ dlen ≠ 4 + rd16 data 2 := fun h => hne (hm.2 h)
      rw [if_neg h4, if_neg hne]
      constructor
      · intro h
        dsimp only at h
        split_ifs at h
      · intro h
        rcases h with h | h
        · exact absurd h h4
        · exact absurd h h1

/-- C1. For every signaling frame whose `uint8_t` length dlen is below 4, or
differs from 4 plus the little-endian length field of bytes 2..3, handleData
returns the state it was given: no ACL packet, no HCI command, no state change.
These are exactly the dropped frames, and a frame that reaches one of the two
handlers has dlen = 4 + header.length. -/
theorem handleData_length_agreement (env : Env) (w : World) (connectionHandle dlen : Nat)
    (data : List Nat) (hdlen : dlen < 256) :
    (handleDataDispatch env.sz dlen data = .dropped ↔
        (dlen < 4 ∨ dlen ≠ 4 + rd16 data 2)) ∧
      ((dlen < 4 ∨ dlen ≠ 4 + rd16 data 2) →
        handleData env w connectionHandle dlen data = w) ∧
      ((handleDataDispatch env.sz dlen data).isHandled = true →
        dlen = 4 + rd16 data 2) := by
  refine ⟨dispatch_dropped_iff env.sz dlen data hdlen, ?_, ?_⟩
  · intro h
    have hd := (dispatch_dropped_iff env.sz dlen data hdlen).2 h
    simp [handleData, hd]
  · intro h
    by_contra hne
    have hd := (dispatch_dropped_iff env.sz dlen data hdlen).2 (Or.inr hne)
    rw [hd] at h
    simp [Dispatch.isHandled] at h

/-- Witness of C1: a two-byte frame is dropped. -/
theorem handleData_length_agreement_witness :
    (2 : Nat) < 256 ∧
      handleData Env.sample (World.start scenarioConfig) 64 2 [0x12, 0x01] =
        World.start scenarioConfig :=
  ⟨by decide,
    (handleData_length_agreement Env.sample (World.start scenarioConfig) 64 2 [0x12, 0x01]
      (by decide)).2.1 (Or.inl (by decide))⟩

theorem responseValue_eq_one_iff (c : Config) (data : List Nat) :
    responseValue c data = 0x0001 ↔
      ((c.minInterval ≠ 0 ∧ c.maxInterval ≠ 0 ∧
          (rd16 data 0 < c.minInterval ∨ rd16 data 2 > c.maxInterval)) ∨
        (c.supervisionTimeout ≠ 0 ∧ rd16 data 6 ≠ c.supervisionTimeout)) := by
  unfold responseValue
  split_ifs <;> simp_all

theorem responseValue_cases (c : Config) (data : List Nat) :
    responseValue c data = 0x0000 ∨ responseValue c data = 0x0001 := by
  unfold responseValue
  split_ifs <;> simp

/-- C2. For a ConnParamUpdateRequest whose payload length is at least 8, the
handler's result is the given state plus exactly one packet on the signaling
CID with bytes code 0x13, the echoed identifier, length 2, value 0x0001 (and so
no LE Connection Update), exactly when both interval bounds are configured and
req.min < local.min or req.max > local.max, or a supervision timeout is
configured and differs from the requested one. -/
theorem connectionParameterUpdateRequest_reject_iff (w : World)
    (handle identifier dlen : Nat) (data : List Nat) (hlen : 8 ≤ dlen) :
    connectionParameterUpdateRequest w handle identifier dlen data =
        w.sendAclPkt handle SIGNALING_CID [0x13, identifier, 0x02, 0x00, 0x01, 0x00] ↔
      ((w.config.minInterval ≠ 0 ∧ w.config.maxInterval ≠ 0 ∧
          (rd16 data 0 < w.config.minInterval ∨ rd16 data 2 > w.config.maxInterval)) ∨
        (w.config.supervisionTimeout ≠ 0 ∧ rd16 data 6 ≠ w.config.supervisionTimeout)) := by
  rw [← responseValue_eq_one_iff]
  have hd : ¬ dlen < 8 := by omega
  unfold connectionParameterUpdateRequest
  rw [if_neg hd]
  rcases responseValue_cases w.config data with h0 | h1
  · simp only [h0, if_true]
    constructor
    · intro h
      exact absurd h (emit_emit_ne_emit _ _ _ _)
    · intro h
      exact absurd h (by decide)
  · simp only [h1]
    constructor
    · intro _
      trivial
    · intro _
      rfl

/-- Witness of C2: the reject scenario of the spec, request min=0x0010 against
configured min=0x0018. -/
theorem connectionParameterUpdateRequest_reject_iff_witness :
    (8 : Nat) ≤ 8 ∧
      connectionParameterUpdateRequest (World.start scenarioConfig) 64 7 8
          [0x10, 0x00, 0x24, 0x00, 0x00, 0x00, 0xF4, 0x01] =
        (World.start scenarioConfig).sendAclPkt 64 SIGNALING_CID
          [0x13, 7, 0x02, 0x00, 0x01, 0x00] :=
  ⟨le_refl 8,
    (connectionParameterUpdateRequest_reject_iff (World.start scenarioConfig) 64 7 8
      [0x10, 0x00, 0x24, 0x00, 0x00, 0x00, 0xF4, 0x01] (le_refl 8)).2
      (Or.inl ⟨by decide, by decide, Or.inl (by decide)⟩)⟩

/-- C3. For a ConnParamUpdateRequest whose payload length is at least 8 and
that is not rejected, the handler's result is the given state plus exactly one
response with bytes code 0x13, the request's identifier, length 2, value
0x0000 on the signaling CID, followed by exactly one LE Connection Update with
the request's minInterval, maxInterval, latency and supervisionTimeout; when
the payload length is below 8 the result is the given state. -/
theorem connectionParameterUpdateRequest_accept (w : World)
    (handle identifier dlen : Nat) (data : List Nat) :
    (8 ≤ dlen →
      ¬ ((w.config.minInterval ≠ 0 ∧ w.config.maxInterval ≠ 0 ∧
            (rd16 data 0 < w.config.minInterval ∨ rd16 data 2 > w.config.maxInterval)) ∨
          (w.config.supervisionTimeout ≠ 0 ∧ rd16 data 6 ≠ w.config.supervisionTimeout)) →
      connectionParameterUpdateRequest w handle identifier dlen data =
        (w.sendAclPkt handle SIGNALING_CID [0x13, identifier, 0x02, 0x00, 0x00, 0x00]).emit
          (.leConnUpdate handle (rd16 data 0) (rd16 data 2) (rd16 data 4) (rd16 data 6))) ∧
    (dlen < 8 → connectionParameterUpdateRequest w handle identifier dlen data = w) := by
  constructor
  · intro hlen hacc
    rw [← responseValue_eq_one_iff] at hacc
    have h0 : responseValue w.config data = 0x0000 := by
      rcases responseValue_cases w.config data with h | h
      · exact h
      · exact absurd h hacc
    have hd : ¬ dlen < 8 := by omega
    unfold connectionParameterUpdateRequest
    rw [if_neg hd]
    simp only [h0, if_true]
    rfl
  · intro hlt
    unfold connectionParameterUpdateRequest
    rw [if_pos hlt]

/-- Witness of C3: the accept scenario of the spec, config min=0x0018,
max=0x0028, timeout=0x01F4; request min=0x0020, max=0x0024, latency=0,
timeout=0x01F4. -/
theorem connectionParameterUpdateRequest_accept_witness :
    connectionParameterUpdateRequest (World.start scenarioConfig) 64 7 8
        [0x20, 0x00, 0x24, 0x00, 0x00, 0x00, 0xF4, 0x01] =
      ((World.start scenarioConfig).sendAclPkt 64 SIGNALING_CID
          [0x13, 7, 0x02, 0x00, 0x00, 0x00]).emit
        (.leConnUpdate 64 0x0020 0x0024 0 0x01F4) :=
  (connectionParameterUpdateRequest_accept (World.start scenarioConfig) 64 7 8
    [0x20, 0x00, 0x24, 0x00, 0x00, 0x00, 0xF4, 0x01]).1 (le_refl 8) (by decide)

/-- C4. addConnection leaves the state as it was (emits nothing) unless the
local role is 1 and the granted parameters are out of range: both interval
bounds configured and interval < min or interval > max, or a configured
supervision timeout that differs from the granted one. In that case the result
is the given state plus a single frame on the signaling CID, 12 bytes long,
with code 0x12, identifier 0x01, length 8 and latency 0. -/
theorem addConnection_emits_iff (w : World) (handle role interval supervisionTimeout : Nat) :
    (addConnection w handle role interval supervisionTimeout ≠ w ↔
      (role = 1 ∧
        ((w.config.minInterval ≠ 0 ∧ w.config.maxInterval ≠ 0 ∧
            (interval < w.config.minInterval ∨ interval > w.config.maxInterval)) ∨
          (w.config.supervisionTimeout ≠ 0 ∧
            supervisionTimeout ≠ w.config.supervisionTimeout)))) ∧
    (addConnection w handle role interval supervisionTimeout ≠ w →
      ∃ frame : List Nat,
        addConnection w handle role interval supervisionTimeout =
            w.sendAclPkt handle SIGNALING_CID frame ∧
          frame.length = 12 ∧ byteAt frame 0 = 0x12 ∧ byteAt frame 1 = 0x01 ∧
          rd16 frame 2 = 8 ∧ rd16 frame 8 = 0) := by
  have hcond : (intervalOutOfRange w.config interval ||
        timeoutDiffers w.config supervisionTimeout) = true ↔
      ((w.config.minInterval ≠ 0 ∧ w.config.maxInterval ≠ 0 ∧
          (interval < w.config.minInterval ∨ interval > w.config.maxInterval)) ∨
        (w.config.supervisionTimeout ≠ 0 ∧
          supervisionTimeout ≠ w.config.supervisionTimeout)) := by
    simp [intervalOutOfRange, timeoutDiffers, and_assoc]
  by_cases hrole : role ≠ 1
  · have hw : addConnection w handle role interval supervisionTimeout = w := by
      unfold addConnection
      rw [if_pos hrole]
    constructor
    · constructor
      · intro h
        exact absurd hw h
      · intro h
        exact absurd h.1 hrole
    · intro h
      exact absurd hw h
  · have hr : role = 1 := by omega
    by_cases hup : (intervalOutOfRange w.config interval ||
        timeoutDiffers w.config supervisionTimeout) = true
    · have hw : addConnection w handle role interval supervisionTimeout =
          w.sendAclPkt handle SIGNALING_CID
            ([CONNECTION_PARAMETER_UPDATE_REQUEST, 0x01] ++ wr16 8 ++
              wr16 (if intervalOutOfRange w.config interval then w.config.minInterval
                else interval) ++
              wr16 (if intervalOutOfRange w.config interval then w.config.maxInterval
                else interval) ++ wr16 0x0000 ++
              wr16 (if timeoutDiffers w.config supervisionTimeout then
                w.config.supervisionTimeout else supervisionTimeout)) := by
        unfold addConnection
        rw [if_neg hrole]
        simp only [hup, if_true]
      constructor
      · constructor
        · intro _
          exact ⟨hr, hcond.1 hup⟩
        · intro _
          rw [hw]
          exact emit_ne_self _ _
      · intro _
        refine ⟨_, hw, ?_, ?_, ?_, ?_, ?_⟩
        · simp [wr16]
        · rfl
        · rfl
        · rfl
        · rfl
    · have hw : addConnection w handle role interval supervisionTimeout = w := by
        unfold addConnection
        rw [if_neg hrole]
        simp only [hup]
        rfl
      constructor
      · constructor
        · intro h
          exact absurd hw h
        · intro h
          exact absurd (hcond.2 h.2) hup
      · intro h
        exact absurd hw h

/-- Witness of C4: a peripheral connection granted interval 0x0010 against
configured bounds 0x0018..0x0028 changes the state, and a master-role
connection with the same parameters does not. -/
theorem addConnection_emits_iff_witness :
    addConnection (World.start scenarioConfig) 64 1 0x0010 0x01F4 ≠
        World.start scenarioConfig ∧
      addConnection (World.start scenarioConfig) 64 0 0x0010 0x01F4 =
        World.start scenarioConfig :=
  ⟨(addConnection_emits_iff (World.start scenarioConfig) 64 1 0x0010 0x01F4).1.2
      ⟨rfl, Or.inl ⟨by decide, by decide, Or.inl (by decide)⟩⟩,
    rfl⟩

/-- C5 as stated fails: with min=0x0018, max=0x0028, timeout=0x01F4 configured
and a peripheral connection granted interval 0x0020 (in range) and timeout
0x0100 (mismatch), the request emitted has minInterval = maxInterval = 0x0020,
the granted interval, not the configured 0x0018 and 0x0028. -/
theorem addConnection_preferred_values_counterexample :
    (addConnection (World.start scenarioConfig) 64 1 0x0020 0x0100).trace =
        [.sendAclPkt 64 0x0005
          [0x12, 0x01, 0x08, 0x00, 0x20, 0x00, 0x20, 0x00, 0x00, 0x00, 0xF4, 0x01]] ∧
      rd16 [0x12, 0x01, 0x08, 0x00, 0x20, 0x00, 0x20, 0x00, 0x00, 0x00, 0xF4, 0x01] 4 ≠
        scenarioConfig.minInterval ∧
      rd16 [0x12, 0x01, 0x08, 0x00, 0x20, 0x00, 0x20, 0x00, 0x00, 0x00, 0xF4, 0x01] 6 ≠
        scenarioConfig.maxInterval := by
  decide

/-- C5, amended. Whenever addConnection emits a ConnParamUpdateRequest, its
minInterval and maxInterval are the configured min_interval and max_interval
when both bounds are configured and the granted interval lies outside them,
and are both the granted interval otherwise; its supervisionTimeout is the
configured supervision_timeout when one is configured, and the granted timeout
otherwise. -/
theorem addConnection_request_values (w : World) (handle interval supervisionTimeout : Nat)
    (hout : (w.config.minInterval ≠ 0 ∧ w.config.maxInterval ≠ 0 ∧
          (interval < w.config.minInterval ∨ interval > w.config.maxInterval)) ∨
        (w.config.supervisionTimeout ≠ 0 ∧
          supervisionTimeout ≠ w.config.supervisionTimeout)) :
    addConnection w handle 1 interval supervisionTimeout =
      w.sendAclPkt handle SIGNALING_CID
        ([0x12, 0x01, 0x08, 0x00] ++
          wr16 (if w.config.minInterval ≠ 0 ∧ w.config.maxInterval ≠ 0 ∧
                  (interval < w.config.minInterval ∨ interval > w.config.maxInterval)
                then w.config.minInterval else interval) ++
          wr16 (if w.config.minInterval ≠ 0 ∧ w.config.maxInterval ≠ 0 ∧
                  (interval < w.config.minInterval ∨ interval > w.config.maxInterval)
                then w.config.maxInterval else interval) ++
          [0x00, 0x00] ++
          wr16 (if w.config.supervisionTimeout ≠ 0 then w.config.supervisionTimeout
                else supervisionTimeout)) := by
  have hi : intervalOutOfRange w.config interval = true ↔
      (w.config.minInterval ≠ 0 ∧ w.config.maxInterval ≠ 0 ∧
        (interval < w.config.minInterval ∨ interval > w.config.maxInterval)) := by
    simp [intervalOutOfRange, and_assoc]
  have ht : timeoutDiffers w.config supervisionTimeout = true ↔
      (w.config.supervisionTimeout ≠ 0 ∧
        supervisionTimeout ≠ w.config.supervisionTimeout) := by
    simp [timeoutDiffers]
  have hup : (intervalOutOfRange w.config interval ||
      timeoutDiffers w.config supervisionTimeout) = true := by
    rw [Bool.or_eq_true, hi, ht]
    exact hout
  have hto : (if timeoutDiffers w.config supervisionTimeout then
        w.config.supervisionTimeout else supervisionTimeout) =
      (if w.config.supervisionTimeout ≠ 0 then w.config.supervisionTimeout
        else supervisionTimeout) := by
    by_cases h0 : w.config.supervisionTimeout ≠ 0
    · by_cases hd : supervisionTimeout ≠ w.config.supervisionTimeout
      · rw [if_pos (ht.2 ⟨h0, hd⟩), if_pos h0]
      · have hnd : ¬ timeoutDiffers w.config supervisionTimeout = true :=
          fun h => hd (ht.1 h).2
        rw [if_neg hnd, if_pos h0]
        exact not_not.1 hd
    · have hnd : ¬ timeoutDiffers w.config supervisionTimeout = true :=
        fun h => h0 (ht.1 h).1
      rw [if_neg hnd, if_neg h0]
  unfold addConnection
  rw [if_neg (by decide : ¬ (1 : Nat) ≠ 1)]
  simp only [hup, if_true]
  rw [hto]
  by_cases hio : intervalOutOfRange w.config interval = true
  · rw [if_pos hio, if_pos hio, if_pos (hi.1 hio), if_pos (hi.1 hio)]
    rfl
  · rw [if_neg hio, if_neg hio, if_neg (fun h => hio (hi.2 h)),
      if_neg (fun h => hio (hi.2 h))]
    rfl

/-- Witness of C5 amended: granted interval 0x0010 below the configured
minimum, timeout as configured. -/
theorem addConnection_request_values_witness :
    addConnection (World.start scenarioConfig) 64 1 0x0010 0x01F4 =
      (World.start scenarioConfig).sendAclPkt 64 SIGNALING_CID
        [0x12, 0x01, 0x08, 0x00, 0x18, 0x00, 0x28, 0x00, 0x00, 0x00, 0xF4, 0x01] :=
  addConnection_request_values (World.start scenarioConfig) 64 0x0010 0x01F4
    (Or.inl ⟨by decide, by decide, Or.inl (by decide)⟩)

/-! ### Pairing requests -/

theorem setPeerEncryption_config (w : World) (h e : Nat) :
    (w.setPeerEncryption h e).config = w.config := rfl

theorem setPeerEncryption_trace (w : World) (h e : Nat) :
    (w.setPeerEncryption h e).trace = w.trace := rfl

theorem smCalculateLTKandConfirm_config (env : Env) (w : World) (h : Nat) (ea : List Nat) :
    (smCalculateLTKandConfirm env w h ea).config = w.config := by
  unfold smCalculateLTKandConfirm
  dsimp only
  split_ifs <;> rfl

theorem validatePeerConfirmValue_config (env : Env) (w : World) (h : Nat) :
    (validatePeerConfirmValue env w h).1.config = w.config := by
  unfold validatePeerConfirmValue
  split_ifs <;> rfl

theorem handlePairingRandom_config (env : Env) (w : World) (h : Nat) (data : List Nat) :
    (handlePairingRandom env w h data).config = w.config := by
  unfold handlePairingRandom
  split_ifs
  · dsimp only
    split
    · split_ifs <;> rfl
    · split_ifs <;> rfl
  · rw [validatePeerConfirmValue_config]

theorem handlePairingPublicKey_config (env : Env) (w : World) (h : Nat) (data : List Nat) :
    (handlePairingPublicKey env w h data).config = w.config := by
  unfold handlePairingPublicKey
  dsimp only
  split_ifs <;> rfl

theorem handlePairingDHKeyCheck_config (env : Env) (w : World) (h : Nat) (data : List Nat) :
    (handlePairingDHKeyCheck env w h data).config = w.config := by
  unfold handlePairingDHKeyCheck
  dsimp only
  split_ifs
  · rfl
  · rw [smCalculateLTKandConfirm_config]
    rfl
  · rfl
  · rfl

theorem handleIdentityAddress_config (w : World) (data : List Nat) :
    (handleIdentityAddress w data).config = w.config := by
  unfold handleIdentityAddress
  dsimp only
  split_ifs <;> rfl

/-- A pairing request handled while pairing is disabled. -/
theorem handlePairingRequest_disabled (env : Env) (w : World) (h : Nat) (data : List Nat)
    (hdis : w.config.pairing_enabled = 0) :
    handlePairingRequestFromInitiator env w h data =
      (w.sendAclPkt h SECURITY_CID [0x05, 0x05]).setPeerEncryption h env.pe.NO_ENCRYPTION := by
  unfold handlePairingRequestFromInitiator
  have : isPairingEnabled w = false := by simp [isPairingEnabled, hdis]
  rw [this]
  rfl

/-- The mode after a pairing request: pair-once (2 and above) becomes 0, the
other modes stay. -/
theorem handlePairingRequest_config (env : Env) (w : World) (h : Nat) (data : List Nat) :
    (handlePairingRequestFromInitiator env w h data).config =
      if 2 ≤ w.config.pairing_enabled then { w.config with pairing_enabled := 0 }
      else w.config := by
  unfold handlePairingRequestFromInitiator
  by_cases hen : isPairingEnabled w = true
  · rw [if_pos hen]
    by_cases h2 : w.config.pairing_enabled ≥ 2
    · simp only [h2, if_true]
      rfl
    · simp only [h2, if_false]
      rfl
  · rw [if_neg hen]
    have h0 : ¬ 2 ≤ w.config.pairing_enabled := by
      simp [isPairingEnabled] at hen
      omega
    rw [if_neg h0]
    rfl

/-- Only a pairing request in pair-once mode changes the members of the
signaling object. -/
theorem handleSecurityData_config (env : Env) (w : World) (h dlen : Nat) (data : List Nat) :
    (handleSecurityData env w h dlen data).config =
      if byteAt data 0 = 0x01 ∧ 2 ≤ w.config.pairing_enabled then
        { w.config with pairing_enabled := 0 }
      else w.config := by
  unfold handleSecurityData
  dsimp only
  by_cases hc : byteAt data 0 = CONNECTION_PAIRING_REQUEST
  · rw [if_pos hc, handlePairingRequest_config]
    have hc1 : byteAt data 0 = 0x01 := hc
    simp [hc1]
  · rw [if_neg hc]
    have hc1 : ¬ (byteAt data 0 = 0x01 ∧ 2 ≤ w.config.pairing_enabled) := fun hh => hc hh.1
    rw [if_neg hc1]
    split_ifs
    · exact handlePairingRandom_config env w h data
    · rfl
    · rfl
    · rfl
    · exact handleIdentityAddress_config w data
    · exact handlePairingPublicKey_config env w h data
    · exact handlePairingDHKeyCheck_config env w h data
    · rfl
    · rfl

theorem handleData_config (env : Env) (w : World) (h dlen : Nat) (data : List Nat) :
    (handleData env w h dlen data).config = w.config := by
  unfold handleData
  split
  · rfl
  · rfl
  · unfold connectionParameterUpdateRequest
    dsimp only
    split_ifs <;> rfl
  · rfl

theorem addConnection_config (w : World) (h role interval timeout : Nat) :
    (addConnection w h role interval timeout).config = w.config := by
  unfold addConnection
  dsimp only
  split_ifs <;> rfl

/-- No call other than `setPairingEnabled` leaves mode 0. -/
theorem step_pairing_disabled (env : Env) (w : World) (i : Input)
    (hdis : w.config.pairing_enabled = 0) : (step env w i).config.pairing_enabled = 0 := by
  cases i with
  | securityData h dlen data =>
      show (handleSecurityData env w h dlen data).config.pairing_enabled = 0
      rw [handleSecurityData_config]
      split_ifs
      · rfl
      · exact hdis
  | signalingData h dlen data =>
      show (handleData env w h dlen data).config.pairing_enabled = 0
      rw [handleData_config]
      exact hdis
  | addConnection h role interval timeout =>
      show (addConnection w h role interval timeout).config.pairing_enabled = 0
      rw [addConnection_config]
      exact hdis
  | setConnectionInterval a b => exact hdis
  | setSupervisionTimeout t => exact hdis
  | initiatePairingRequest h => exact hdis
  | sendDHKCheck h => exact hdis
  | smCalculateLTKandConfirm h ea =>
      show (smCalculateLTKandConfirm env w h ea).config.pairing_enabled = 0
      rw [smCalculateLTKandConfirm_config]
      exact hdis
  | sendRandomValue h => exact hdis
  | validatePeerConfirmValue h =>
      show (validatePeerConfirmValue env w h).1.config.pairing_enabled = 0
      rw [validatePeerConfirmValue_config]
      exact hdis
  | removeConnection h reason => exact hdis

theorem run_pairing_disabled (env : Env) (is : List Input) :
    ∀ w : World, w.config.pairing_enabled = 0 → (run env w is).config.pairing_enabled = 0 := by
  induction is with
  | nil => intro w hdis; exact hdis
  | cons i is ih => intro w hdis; exact ih _ (step_pairing_disabled env w i hdis)

/-- A pairing request handled while pairing is enabled: the packet sent, the
IO capability recorded and the flags stored. -/
theorem handlePairingRequest_enabled (env : Env) (w : World) (h : Nat) (data : List Nat)
    (hen : 0 < w.config.pairing_enabled) :
    (handlePairingRequestFromInitiator env w h data).trace =
        w.trace ++ [.sendAclPkt h 0x0006
          [0x02, w.hci.localIOCap, 0x00, w.hci.localAuthreq, 0x10,
            responseKD env, responseKD env]] ∧
      ((handlePairingRequestFromInitiator env w h data).att.peers h).peerIOCap =
        [byteAt data 3, byteAt data 2, byteAt data 1] ∧
      (handlePairingRequestFromInitiator env w h data).getPeerEncryption h =
        w.getPeerEncryption h ||| env.pe.PAIRING_REQUEST := by
  unfold handlePairingRequestFromInitiator
  have hp : isPairingEnabled w = true := by simp [isPairingEnabled, hen]
  rw [if_pos hp]
  by_cases h2 : w.config.pairing_enabled ≥ 2
  · simp only [h2, if_true]
    simp [World.sendAclPkt, World.emit, World.setPeerEncryption, World.setPeerIOCap,
      World.modifyPeer, World.getPeerEncryption, SECURITY_CID, CONNECTION_PAIRING_RESPONSE]
  · simp only [h2, if_false]
    simp [World.sendAclPkt, World.emit, World.setPeerEncryption, World.setPeerIOCap,
      World.modifyPeer, World.getPeerEncryption, SECURITY_CID, CONNECTION_PAIRING_RESPONSE]

theorem handleSecurityData_pairing_request (env : Env) (w : World) (h dlen : Nat)
    (data : List Nat) (hreq : byteAt data 0 = 0x01) :
    handleSecurityData env w h dlen data = handlePairingRequestFromInitiator env w h data := by
  have hc : byteAt data 0 = CONNECTION_PAIRING_REQUEST := hreq
  unfold handleSecurityData
  dsimp only
  rw [if_pos hc]

/-- C6. For every inbound PairingRequest handled while pairing_enabled = 0, the
core sends exactly one PDU, the bytes 0x05, 0x05 on CID 0x0006, sets the
connection's encryption state to NoEncryption, leaves every connection's
recorded peer IO capability as it was and leaves pairing_enabled at 0. -/
theorem pairing_disabled_rejects (env : Env) (w : World) (h dlen : Nat) (data : List Nat)
    (hreq : byteAt data 0 = 0x01) (hdis : w.config.pairing_enabled = 0) :
    (handleSecurityData env w h dlen data).trace =
        w.trace ++ [.sendAclPkt h 0x0006 [0x05, 0x05]] ∧
      (handleSecurityData env w h dlen data).getPeerEncryption h = env.pe.NO_ENCRYPTION ∧
      (∀ k, ((handleSecurityData env w h dlen data).att.peers k).peerIOCap =
        (w.att.peers k).peerIOCap) ∧
      (handleSecurityData env w h dlen data).config.pairing_enabled = 0 := by
  rw [handleSecurityData_pairing_request env w h dlen data hreq,
    handlePairingRequest_disabled env w h data hdis]
  refine ⟨rfl, ?_, ?_, hdis⟩
  · simp [World.setPeerEncryption, World.modifyPeer, World.getPeerEncryption]
  · intro k
    by_cases hk : k = h
    · simp [World.setPeerEncryption, World.modifyPeer, World.sendAclPkt, World.emit, hk]
    · simp [World.setPeerEncryption, World.modifyPeer, World.sendAclPkt, World.emit, hk]

/-- Witness of C6: the pairing-disabled scenario of the spec. -/
theorem pairing_disabled_rejects_witness :
    (handleSecurityData Env.sample
        (setPairingEnabled (World.start scenarioConfig) 0) 64 7
        [0x01, 0x03, 0x00, 0x09, 0x10, 0x01, 0x01]).trace =
      [.sendAclPkt 64 0x0006 [0x05, 0x05]] :=
  (pairing_disabled_rejects Env.sample (setPairingEnabled (World.start scenarioConfig) 0) 64 7
    [0x01, 0x03, 0x00, 0x09, 0x10, 0x01, 0x01] (by decide) rfl).1

/-- C7. Pair-once mode: from pairing_enabled = 2, an inbound PairingRequest is
answered with a PairingResponse and leaves pairing_enabled = 0; after any
sequence of later calls of the member functions of the signaling object that
does not call setPairingEnabled (frames on both channels, addConnection,
removeConnection, the two configuration setters, initiatePairingRequest,
sendDHKCheck, smCalculateLTKandConfirm, sendRandomValue,
validatePeerConfirmValue), pairing_enabled is still 0 and every inbound
PairingRequest, on any handle and with any payload, is answered with the bytes
0x05, 0x05 and a reset to NoEncryption, and nothing else; with
pairing_enabled = 1, handling a frame leaves pairing_enabled = 1. -/
theorem pair_once_mode (env : Env) (w : World) (h dlen : Nat) (data : List Nat)
    (hmode : w.config.pairing_enabled = 2) (hreq : byteAt data 0 = 0x01) :
    (handleSecurityData env w h dlen data).trace =
        w.trace ++ [.sendAclPkt h 0x0006
          [0x02, w.hci.localIOCap, 0x00, w.hci.localAuthreq, 0x10,
            responseKD env, responseKD env]] ∧
      (handleSecurityData env w h dlen data).config.pairing_enabled = 0 ∧
      (∀ (later : List Input) (h2 dlen2 : Nat) (data2 : List Nat), byteAt data2 0 = 0x01 →
        (run env (handleSecurityData env w h dlen data) later).config.pairing_enabled = 0 ∧
        handleSecurityData env (run env (handleSecurityData env w h dlen data) later)
            h2 dlen2 data2 =
          ((run env (handleSecurityData env w h dlen data) later).sendAclPkt h2 SECURITY_CID
            [0x05, 0x05]).setPeerEncryption h2 env.pe.NO_ENCRYPTION) ∧
      (∀ (w1 : World) (h1 dlen1 : Nat) (data1 : List Nat), w1.config.pairing_enabled = 1 →
        (handleSecurityData env w1 h1 dlen1 data1).config.pairing_enabled = 1) := by
  have hoff : (handleSecurityData env w h dlen data).config.pairing_enabled = 0 := by
    rw [handleSecurityData_config, if_pos ⟨hreq, by omega⟩]
  refine ⟨?_, hoff, ?_, ?_⟩
  · rw [handleSecurityData_pairing_request env w h dlen data hreq]
    exact (handlePairingRequest_enabled env w h data (by omega)).1
  · intro later h2 dlen2 data2 hreq2
    refine ⟨run_pairing_disabled env later _ hoff, ?_⟩
    rw [handleSecurityData_pairing_request env _ h2 dlen2 data2 hreq2]
    exact handlePairingRequest_disabled env _ h2 data2 (run_pairing_disabled env later _ hoff)
  · intro w1 h1 dlen1 data1 h1mode
    rw [handleSecurityData_config]
    have : ¬ (byteAt data1 0 = 0x01 ∧ 2 ≤ w1.config.pairing_enabled) := by
      intro hh
      omega
    rw [if_neg this]
    exact h1mode

/-- Witness of C7: in pair-once mode the first request on connection 64 is
accepted; after a direct smCalculateLTKandConfirm call, sendDHKCheck,
initiatePairingRequest, frames on both channels, a new connection,
sendRandomValue and validatePeerConfirmValue, a request on connection 65 is
answered with PairingFailed 0x05 and nothing else. -/
theorem pair_once_mode_witness :
    ((setPairingEnabled (World.start scenarioConfig) 2).config.pairing_enabled = 2 ∧
      byteAt [0x01, 0x03, 0x00, 0x09, 0x10, 0x01, 0x01] 0 = 0x01) ∧
    (handleSecurityData Env.sample
        (run Env.sample
          (handleSecurityData Env.sample (setPairingEnabled (World.start scenarioConfig) 2)
            64 7 [0x01, 0x03, 0x00, 0x09, 0x10, 0x01, 0x01])
          sampleLaterCalls)
        65 7 [0x01, 0x04, 0x00, 0x0D, 0x10, 0x03, 0x03]).trace =
      (run Env.sample
          (handleSecurityData Env.sample (setPairingEnabled (World.start scenarioConfig) 2)
            64 7 [0x01, 0x03, 0x00, 0x09, 0x10, 0x01, 0x01])
          sampleLaterCalls).trace ++ [.sendAclPkt 65 0x0006 [0x05, 0x05]] := by
  have hw := pair_once_mode Env.sample (setPairingEnabled (World.start scenarioConfig) 2)
    64 7 [0x01, 0x03, 0x00, 0x09, 0x10, 0x01, 0x01] rfl (by decide)
  have h2 := (hw.2.2.1 sampleLaterCalls 65 7 [0x01, 0x04, 0x00, 0x0D, 0x10, 0x03, 0x03]
    (by decide)).2
  refine ⟨⟨rfl, by decide⟩, ?_⟩
  rw [h2]
  rfl

/-- The later calls of the pair-once scenario do send packets and commands of
their own before the second request is rejected. -/
theorem sampleLaterCalls_trace_length :
    (run Env.sample
        (handleSecurityData Env.sample (setPairingEnabled (World.start scenarioConfig) 2)
          64 7 [0x01, 0x03, 0x00, 0x09, 0x10, 0x01, 0x01])
        sampleLaterCalls).trace.length = 17 := by
  decide

/-- C8. For every inbound PairingRequest handled while pairing is enabled, the
core sends exactly one PDU on CID 0x0006, the seven bytes 0x02, local IO
capability, 0x00, local authReq octet, 0x10, kd, kd with the same
key-distribution byte twice; it records peer_io_cap as authReq, oobFlag, ioCap
taken from payload bytes 2, 1 and 0; and the stored flags are the previous
flags or-ed with PairingRequested, so every flag set before is still set. -/
theorem pairing_request_accepted (env : Env) (w : World) (h dlen : Nat) (data : List Nat)
    (hreq : byteAt data 0 = 0x01) (hen : 0 < w.config.pairing_enabled) :
    (handleSecurityData env w h dlen data).trace =
        w.trace ++ [.sendAclPkt h 0x0006
          [0x02, w.hci.localIOCap, 0x00, w.hci.localAuthreq, 0x10,
            responseKD env, responseKD env]] ∧
      ((handleSecurityData env w h dlen data).att.peers h).peerIOCap =
        [byteAt data (1 + 2), byteAt data (1 + 1), byteAt data (1 + 0)] ∧
      (handleSecurityData env w h dlen data).getPeerEncryption h =
        w.getPeerEncryption h ||| env.pe.PAIRING_REQUEST ∧
      (∀ i, (w.getPeerEncryption h).testBit i = true →
        ((handleSecurityData env w h dlen data).getPeerEncryption h).testBit i = true) ∧
      (∀ i, env.pe.PAIRING_REQUEST.testBit i = true →
        ((handleSecurityData env w h dlen data).getPeerEncryption h).testBit i = true) := by
  rw [handleSecurityData_pairing_request env w h dlen data hreq]
  obtain ⟨ht, hio, henc⟩ := handlePairingRequest_enabled env w h data hen
  refine ⟨ht, hio, henc, ?_, ?_⟩
  · intro i hi
    rw [henc, Nat.testBit_or, hi]
    rfl
  · intro i hi
    rw [henc, Nat.testBit_or, hi]
    simp

/-- Witness of C8: a request with ioCap 0x03, oob 0x00, authReq 0x09 on a
connection whose flags were clear. -/
theorem pairing_request_accepted_witness :
    ((handleSecurityData Env.sample (World.start scenarioConfig) 64 7
        [0x01, 0x03, 0x00, 0x09, 0x10, 0x01, 0x01]).att.peers 64).peerIOCap =
      [0x09, 0x00, 0x03] :=
  (pairing_request_accepted Env.sample (World.start scenarioConfig) 64 7
    [0x01, 0x03, 0x00, 0x09, 0x10, 0x01, 0x01] (by decide) (by decide)).2.1

/-! ### Confirm value -/

/-- The value `validatePeerConfirmValue` recomputes is the reversed
`f4(local X, remote X, Nb, 0)`: the local key is the first argument. -/
theorem newConfirmValue_eq_f4 (env : Env) (w : World) :
    newConfirmValue env w =
      revBytes 16 (f4 env (revBytes 32 w.hci.localPublicKeyBuffer 0)
        (revBytes 32 w.hci.remotePublicKeyBuffer 0) w.hci.Nb 0) 0 := rfl

/-- Whichever way the getter takes its argument, bytes 1..15 of the compare
buffer are the bytes the stack held, not the stored confirm value. -/
theorem originalConfirmValue_tail (env : Env) (w : World) (h : Nat) :
    (originalConfirmValue env w h).drop 1 = copyBytes 15 env.stack 1 := by
  unfold originalConfirmValue
  split_ifs <;> rfl

/-- The confirm value is rejected whenever the stack bytes differ from bytes
1..15 of the recomputed value, whatever is stored for the connection. -/
theorem validatePeerConfirmValue_false_of_stack (env : Env) (w : World) (h : Nat)
    (hstack : copyBytes 15 env.stack 1 ≠ (newConfirmValue env w).drop 1) :
    (validatePeerConfirmValue env w h).2 = false := by
  unfold validatePeerConfirmValue
  have hne : ¬ newConfirmValue env w = originalConfirmValue env w h := by
    intro heq
    apply hstack
    rw [heq, originalConfirmValue_tail]
  rw [if_neg hne]

/-- C9, the code at two inputs. With the stored confirm value equal in all 16
bytes to the recomputed one, validatePeerConfirmValue still returns false and
sends 0x05, 0x04, because bytes 1..15 of its compare buffer are what the stack
held; and with a stored value that differs from the recomputed one in bytes
1..15 it returns true when the stack held the recomputed bytes. -/
theorem validatePeerConfirmValue_compares_stack :
    (newConfirmValue Env.sample (World.start scenarioConfig) =
        ((World.start scenarioConfig).att.peers 64).pairingConfirmValue ∧
      (validatePeerConfirmValue Env.sample (World.start scenarioConfig) 64).2 = false ∧
      aclPackets (validatePeerConfirmValue Env.sample (World.start scenarioConfig) 64).1.trace =
        [(64, 0x0006, [0x05, 0x04])]) ∧
    (newConfirmValue (Env.sampleWithStack (List.replicate 16 0)) wrongConfirmWorld ≠
        (wrongConfirmWorld.att.peers 64).pairingConfirmValue ∧
      (validatePeerConfirmValue (Env.sampleWithStack (List.replicate 16 0))
        wrongConfirmWorld 64).2 = true) := by
  decide

/-- C10, the code at a failing input. The stored confirm value is the honest
responder's reversed f4(PKb.x, PKa.x, Nb, 0) and the compare buffer holds all
16 bytes of it, yet validatePeerConfirmValue returns false and sends 0x05,
0x04: the value it recomputes is the reversed f4(PKa.x, PKb.x, Nb, 0), with
the local key first. -/
theorem validatePeerConfirmValue_rejects_honest_confirm :
    (honestWorld.att.peers 64).pairingConfirmValue =
        revBytes 16 (f4 Env.sample (revBytes 32 honestWorld.hci.remotePublicKeyBuffer 0)
          (revBytes 32 honestWorld.hci.localPublicKeyBuffer 0) honestWorld.hci.Nb 0) 0 ∧
      originalConfirmValue (Env.sampleWithStack honestConfirm) honestWorld 64 =
        (honestWorld.att.peers 64).pairingConfirmValue ∧
      newConfirmValue (Env.sampleWithStack honestConfirm) honestWorld =
        revBytes 16 (f4 Env.sample (revBytes 32 honestWorld.hci.localPublicKeyBuffer 0)
          (revBytes 32 honestWorld.hci.remotePublicKeyBuffer 0) honestWorld.hci.Nb 0) 0 ∧
      (validatePeerConfirmValue (Env.sampleWithStack honestConfirm) honestWorld 64).2 = false ∧
      aclPackets (validatePeerConfirmValue (Env.sampleWithStack honestConfirm)
        honestWorld 64).1.trace = [(64, 0x0006, [0x05, 0x04])] := by
  decide

/-! ### DHKey check -/

theorem aclPackets_append (a b : List Event) :
    aclPackets (a ++ b) = aclPackets a ++ aclPackets b := by
  induction a with
  | nil => rfl
  | cons e es ih => cases e <;> simp [aclPackets, ih]

theorem or_mod_256 (a b : Nat) (ha : a < 256) (hb : b < 256) : (a ||| b) % 256 = a ||| b :=
  Nat.mod_eq_of_lt (Nat.or_lt_two_pow (n := 8) ha hb)

theorem or_and_of_disjoint (a r d : Nat) (hdisj : r &&& d = 0) :
    (a ||| r) &&& d = a &&& d := by
  apply Nat.eq_of_testBit_eq
  intro i
  have hi : (r &&& d).testBit i = false := by rw [hdisj]; exact Nat.zero_testBit i
  rw [Nat.testBit_and] at hi
  simp only [Nat.testBit_and, Nat.testBit_or]
  cases ha : a.testBit i <;> cases hr : r.testBit i <;> cases hd : d.testBit i <;> simp_all

/-- The result of `smCalculateLTKandConfirm` in terms of the values the spec
names: the check value compared, the packet sent and the flags stored. -/
theorem smCalculateLTKandConfirm_eq (env : Env) (w : World) (h : Nat) (ea : List Nat) :
    smCalculateLTKandConfirm env w h ea =
      if copyBytes 16 (specResponderEa env w h) 0 = copyBytes 16 ea 0 then
        ((({ (w.readBdAddr env) with hci := { (w.readBdAddr env).hci with
            LTK := (specResponderKeys env w h).2 } } : World).sendAclPkt h SECURITY_CID
          (0x0D :: revBytes 16 (specResponderEb env w h) 0)).setPeerEncryption h
            ((w.getPeerEncryption h ||| env.pe.SENT_DH_CHECK) % 256))
      else
        (({ (w.readBdAddr env) with hci := { (w.readBdAddr env).hci with
            LTK := (specResponderKeys env w h).2 } } : World).sendAclPkt h SECURITY_CID
          [0x05, 0x0B]).setPeerEncryption h env.pe.NO_ENCRYPTION := rfl

/-- C12. smCalculateLTKandConfirm, with (MacKey, LTK) = f5(DHKey, Na, Nb,
A_peer, A_local), Ea' = f6(MacKey, Na, Nb, 0^16, peer IOcap, A_peer, A_local)
and Eb = f6(MacKey, Nb, Na, 0^16, local IOcap, A_local, A_peer): if Ea' differs
from the received Ea in one of the 16 bytes, the only PDU sent is 0x05, 0x0B
and the flags become NoEncryption, with SentDHCheck not set; if they are
equal, the only PDU sent is 0x0D followed by the reversed Eb, LTK is stored,
and the flags are the previous flags or-ed with SentDHCheck, so no flag is
cleared. Flags are bytes, and NoEncryption has no bit of SentDHCheck. -/
theorem smCalculateLTKandConfirm_check (env : Env) (w : World) (h : Nat) (ea : List Nat)
    (hold : w.getPeerEncryption h < 256) (hsent : env.pe.SENT_DH_CHECK < 256)
    (hno : env.pe.NO_ENCRYPTION &&& env.pe.SENT_DH_CHECK = 0) :
    (copyBytes 16 (specResponderEa env w h) 0 ≠ copyBytes 16 ea 0 →
        aclPackets (smCalculateLTKandConfirm env w h ea).trace =
          aclPackets w.trace ++ [(h, 0x0006, [0x05, 0x0B])] ∧
        (smCalculateLTKandConfirm env w h ea).getPeerEncryption h = env.pe.NO_ENCRYPTION ∧
        (smCalculateLTKandConfirm env w h ea).getPeerEncryption h &&&
          env.pe.SENT_DH_CHECK = 0) ∧
      (copyBytes 16 (specResponderEa env w h) 0 = copyBytes 16 ea 0 →
        aclPackets (smCalculateLTKandConfirm env w h ea).trace =
          aclPackets w.trace ++
            [(h, 0x0006, 0x0D :: revBytes 16 (specResponderEb env w h) 0)] ∧
        (smCalculateLTKandConfirm env w h ea).getPeerEncryption h =
          w.getPeerEncryption h ||| env.pe.SENT_DH_CHECK ∧
        (∀ i, (w.getPeerEncryption h).testBit i = true →
          ((smCalculateLTKandConfirm env w h ea).getPeerEncryption h).testBit i = true) ∧
        (smCalculateLTKandConfirm env w h ea).hci.LTK = (specResponderKeys env w h).2) := by
  rw [smCalculateLTKandConfirm_eq]
  constructor
  · intro hne
    rw [if_neg hne]
    refine ⟨?_, ?_, ?_⟩
    · simp [World.setPeerEncryption, World.modifyPeer, World.sendAclPkt, World.emit,
        World.readBdAddr, aclPackets_append, aclPackets, SECURITY_CID]
    · simp [World.setPeerEncryption, World.modifyPeer, World.getPeerEncryption]
    · simp [World.setPeerEncryption, World.modifyPeer, World.getPeerEncryption, hno]
  · intro heq
    rw [if_pos heq]
    have henc : (w.getPeerEncryption h ||| env.pe.SENT_DH_CHECK) % 256 =
        w.getPeerEncryption h ||| env.pe.SENT_DH_CHECK := or_mod_256 _ _ hold hsent
    refine ⟨?_, ?_, ?_, ?_⟩
    · simp [World.setPeerEncryption, World.modifyPeer, World.sendAclPkt, World.emit,
        World.readBdAddr, aclPackets_append, aclPackets, SECURITY_CID]
    · rw [henc]
      simp [World.setPeerEncryption, World.modifyPeer, World.getPeerEncryption]
    · intro i hi
      rw [henc]
      simp [World.setPeerEncryption, World.modifyPeer, World.getPeerEncryption]
      left
      exact hi
    · rfl

/-- Witness of C12: with every buffer cleared the recomputed Ea' is sixteen
zero bytes under the sample environment, so a received Ea of sixteen zero
bytes passes the check and SentDHCheck is stored. -/
theorem smCalculateLTKandConfirm_check_witness :
    ((World.start scenarioConfig).getPeerEncryption 64 < 256 ∧
      Env.sample.pe.SENT_DH_CHECK < 256 ∧
      Env.sample.pe.NO_ENCRYPTION &&& Env.sample.pe.SENT_DH_CHECK = 0) ∧
    (smCalculateLTKandConfirm Env.sample (World.start scenarioConfig) 64
        (List.replicate 16 0)).getPeerEncryption 64 =
      (World.start scenarioConfig).getPeerEncryption 64 ||| Env.sample.pe.SENT_DH_CHECK :=
  ⟨⟨by decide, by decide, by decide⟩,
    ((smCalculateLTKandConfirm_check Env.sample (World.start scenarioConfig) 64
      (List.replicate 16 0) (by decide) (by decide) (by decide)).2 (by decide)).2.1⟩

theorem handleSecurityData_dhkey_check (env : Env) (w : World) (h dlen : Nat)
    (data : List Nat) (hcode : byteAt data 0 = 0x0D) :
    handleSecurityData env w h dlen data = handlePairingDHKeyCheck env w h data := by
  simp [handleSecurityData, hcode, CONNECTION_PAIRING_REQUEST, CONNECTION_PAIRING_RANDOM,
    CONNECTION_PAIRING_RESPONSE, CONNECTION_PAIRING_FAILED, CONNECTION_IDENTITY_INFORMATION,
    CONNECTION_IDENTITY_ADDRESS, CONNECTION_PAIRING_PUBLIC_KEY,
    CONNECTION_PAIRING_DHKEY_CHECK]

/-- The PDUs `smCalculateLTKandConfirm` sends: exactly one, a PairingDHKeyCheck
or the PairingFailed with reason 0x0B. -/
theorem smCalculateLTKandConfirm_one_pdu (env : Env) (w : World) (h : Nat) (ea : List Nat) :
    ∃ pdu, aclPackets (smCalculateLTKandConfirm env w h ea).trace =
        aclPackets w.trace ++ [(h, 0x0006, pdu)] ∧
      (byteAt pdu 0 = 0x0D ∨ pdu = [0x05, 0x0B]) := by
  rw [smCalculateLTKandConfirm_eq]
  split_ifs
  · refine ⟨0x0D :: revBytes 16 (specResponderEb env w h) 0, ?_, Or.inl rfl⟩
    simp [World.setPeerEncryption, World.modifyPeer, World.sendAclPkt, World.emit,
      World.readBdAddr, aclPackets_append, aclPackets, SECURITY_CID]
  · refine ⟨[0x05, 0x0B], ?_, Or.inr rfl⟩
    simp [World.setPeerEncryption, World.modifyPeer, World.sendAclPkt, World.emit,
      World.readBdAddr, aclPackets_append, aclPackets, SECURITY_CID]

/-- C11. For every PairingDHKeyCheck received when the peer is the initiator,
ReceivedDHCheck is or-ed into the flags first. If DHKeyCalculated is not set,
the reversed 16-byte payload is stored in remote_dhkey_check, nothing is sent
(the trace is unchanged) and DHKey, MacKey and LTK are unchanged. If it is
set, the result is that of smCalculateLTKandConfirm run at once on the state
with the flag stored and the reversed payload, and exactly one PDU is sent, a
PairingDHKeyCheck or PairingFailed 0x0B. Flags are bytes, and ReceivedDHCheck
and DHKeyCalculated share no bit. -/
theorem dhkey_check_responder_ordering (env : Env) (w : World) (h dlen : Nat)
    (data : List Nat) (hcode : byteAt data 0 = 0x0D)
    (hpeer : w.getPeerPairingInitiatorRelationship h = true)
    (hold : w.getPeerEncryption h < 256) (hrdc : env.pe.RECEIVED_DH_CHECK < 256)
    (hdisj : env.pe.RECEIVED_DH_CHECK &&& env.pe.DH_KEY_CALULATED = 0) :
    (w.getPeerEncryption h &&& env.pe.DH_KEY_CALULATED = 0 →
        (handleSecurityData env w h dlen data).getPeerEncryption h =
          w.getPeerEncryption h ||| env.pe.RECEIVED_DH_CHECK ∧
        (handleSecurityData env w h dlen data).hci.remoteDHKeyCheckBuffer =
          revBytes 16 data 1 ∧
        (handleSecurityData env w h dlen data).trace = w.trace ∧
        (handleSecurityData env w h dlen data).hci.DHKey = w.hci.DHKey ∧
        (handleSecurityData env w h dlen data).hci.MacKey = w.hci.MacKey ∧
        (handleSecurityData env w h dlen data).hci.LTK = w.hci.LTK) ∧
      (w.getPeerEncryption h &&& env.pe.DH_KEY_CALULATED ≠ 0 →
        handleSecurityData env w h dlen data =
          smCalculateLTKandConfirm env
            (w.setPeerEncryption h (w.getPeerEncryption h ||| env.pe.RECEIVED_DH_CHECK))
            h (revBytes 16 data 1) ∧
        ∃ pdu, aclPackets (handleSecurityData env w h dlen data).trace =
            aclPackets w.trace ++ [(h, 0x0006, pdu)] ∧
          (byteAt pdu 0 = 0x0D ∨ pdu = [0x05, 0x0B])) := by
  have henc : (w.getPeerEncryption h ||| env.pe.RECEIVED_DH_CHECK) % 256 =
      w.getPeerEncryption h ||| env.pe.RECEIVED_DH_CHECK := or_mod_256 _ _ hold hrdc
  have hand : (w.getPeerEncryption h ||| env.pe.RECEIVED_DH_CHECK) &&&
      env.pe.DH_KEY_CALULATED = w.getPeerEncryption h &&& env.pe.DH_KEY_CALULATED :=
    or_and_of_disjoint _ _ _ hdisj
  rw [handleSecurityData_dhkey_check env w h dlen data hcode]
  unfold handlePairingDHKeyCheck
  rw [if_pos hpeer]
  simp only [henc, hand]
  constructor
  · intro hz
    rw [if_pos hz]
    refine ⟨?_, rfl, rfl, rfl, rfl, rfl⟩
    simp [World.setPeerEncryption, World.modifyPeer, World.getPeerEncryption]
  · intro hnz
    rw [if_neg hnz]
    refine ⟨rfl, ?_⟩
    exact smCalculateLTKandConfirm_one_pdu env _ h _

/-- Witness of C11: a check value arriving with flags PairingRequested and
RequestedEncryption only is buffered, reversed. -/
theorem dhkey_check_responder_ordering_witness :
    (byteAt sampleDHKeyCheckFrame 0 = 0x0D ∧
      (responderWorld 3).getPeerPairingInitiatorRelationship 64 = true ∧
      (responderWorld 3).getPeerEncryption 64 < 256 ∧
      Env.sample.pe.RECEIVED_DH_CHECK < 256 ∧
      Env.sample.pe.RECEIVED_DH_CHECK &&& Env.sample.pe.DH_KEY_CALULATED = 0) ∧
    (handleSecurityData Env.sample (responderWorld 3) 64 17
        sampleDHKeyCheckFrame).hci.remoteDHKeyCheckBuffer =
      revBytes 16 sampleDHKeyCheckFrame 1 :=
  ⟨⟨by decide, by decide, by decide, by decide, by decide⟩,
    ((dhkey_check_responder_ordering Env.sample (responderWorld 3) 64 17
      sampleDHKeyCheckFrame (by decide) (by decide) (by decide) (by decide)
      (by decide)).1 (by decide)).2.1⟩

/-- The initiator branch of the DHKey check in terms of the value the spec
names. -/
theorem handlePairingDHKeyCheck_initiator_eq (env : Env) (w : World) (h : Nat)
    (data : List Nat) (hinit : w.getPeerPairingInitiatorRelationship h = false) :
    handlePairingDHKeyCheck env w h data =
      if copyBytes 16 (specInitiatorEb env w h) 0 = revBytes 16 data 1 then
        (w.setPeerEncryption h
          ((w.getPeerEncryption h ||| env.pe.RECEIVED_DH_CHECK) % 256)).readBdAddr env
      else
        (((w.setPeerEncryption h
          ((w.getPeerEncryption h ||| env.pe.RECEIVED_DH_CHECK) % 256)).readBdAddr
            env).sendAclPkt h SECURITY_CID [0x05, 0x0B]).setPeerEncryption h
              env.pe.NO_ENCRYPTION := by
  have hp : ¬ w.getPeerPairingInitiatorRelationship h = true := by simp [hinit]
  unfold handlePairingDHKeyCheck
  rw [if_neg hp]
  have hEb : env.f6 ((w.setPeerEncryption h
        ((w.getPeerEncryption h ||| env.pe.RECEIVED_DH_CHECK) % 256)).readBdAddr env).hci.MacKey
      ((w.setPeerEncryption h
        ((w.getPeerEncryption h ||| env.pe.RECEIVED_DH_CHECK) % 256)).readBdAddr env).hci.Nb
      ((w.setPeerEncryption h
        ((w.getPeerEncryption h ||| env.pe.RECEIVED_DH_CHECK) % 256)).readBdAddr env).hci.Na
      (List.replicate 16 0)
      (((w.setPeerEncryption h
        ((w.getPeerEncryption h ||| env.pe.RECEIVED_DH_CHECK) % 256)).readBdAddr
          env).getPeerIOCap h)
      ((w.setPeerEncryption h
        ((w.getPeerEncryption h ||| env.pe.RECEIVED_DH_CHECK) % 256)).getPeerAddrWithType h)
      (0 :: copyBytes 6 ((w.setPeerEncryption h
        ((w.getPeerEncryption h ||| env.pe.RECEIVED_DH_CHECK) % 256)).readBdAddr
          env).hci.localAddr 0) = specInitiatorEb env w h := by
    simp [specInitiatorEb, specLocalAddress, World.readBdAddr, World.emit,
      World.setPeerEncryption, World.modifyPeer, World.getPeerIOCap,
      World.getPeerAddrWithType]
  simp only [hEb]
  rfl

/-- C13. For every PairingDHKeyCheck received when the local device is the
initiator, with Eb' = f6(MacKey, Nb, Na, 0^16, peer IOcap, peer address, local
address with type byte 0): if the reversed payload differs from Eb', the only
PDU sent is 0x05, 0x0B and the flags become NoEncryption; if it equals Eb', no
PDU is sent and the flags are the previous flags or-ed with ReceivedDHCheck.
Flags are bytes. -/
theorem dhkey_check_initiator (env : Env) (w : World) (h dlen : Nat) (data : List Nat)
    (hcode : byteAt data 0 = 0x0D)
    (hinit : w.getPeerPairingInitiatorRelationship h = false)
    (hold : w.getPeerEncryption h < 256) (hrdc : env.pe.RECEIVED_DH_CHECK < 256) :
    (revBytes 16 data 1 ≠ copyBytes 16 (specInitiatorEb env w h) 0 →
        aclPackets (handleSecurityData env w h dlen data).trace =
          aclPackets w.trace ++ [(h, 0x0006, [0x05, 0x0B])] ∧
        (handleSecurityData env w h dlen data).getPeerEncryption h =
          env.pe.NO_ENCRYPTION) ∧
      (revBytes 16 data 1 = copyBytes 16 (specInitiatorEb env w h) 0 →
        aclPackets (handleSecurityData env w h dlen data).trace = aclPackets w.trace ∧
        (handleSecurityData env w h dlen data).getPeerEncryption h =
          w.getPeerEncryption h ||| env.pe.RECEIVED_DH_CHECK) := by
  have henc : (w.getPeerEncryption h ||| env.pe.RECEIVED_DH_CHECK) % 256 =
      w.getPeerEncryption h ||| env.pe.RECEIVED_DH_CHECK := or_mod_256 _ _ hold hrdc
  rw [handleSecurityData_dhkey_check env w h dlen data hcode,
    handlePairingDHKeyCheck_initiator_eq env w h data hinit, henc]
  constructor
  · intro hne
    rw [if_neg (fun heq => hne heq.symm)]
    constructor
    · simp [World.setPeerEncryption, World.modifyPeer, World.sendAclPkt, World.emit,
        World.readBdAddr, aclPackets_append, aclPackets, SECURITY_CID]
    · simp [World.setPeerEncryption, World.modifyPeer, World.getPeerEncryption]
  · intro heq
    rw [if_pos heq.symm]
    constructor
    · simp [World.setPeerEncryption, World.modifyPeer, World.emit,
        World.readBdAddr, aclPackets_append, aclPackets]
    · simp [World.setPeerEncryption, World.modifyPeer, World.getPeerEncryption,
        World.readBdAddr, World.emit]

/-- Witness of C13: a check value that is not the sixteen zero bytes of Eb'
under the sample environment is answered with PairingFailed 0x0B. -/
theorem dhkey_check_initiator_witness :
    (byteAt sampleDHKeyCheckFrame 0 = 0x0D ∧
      (initiatorWorld 3).getPeerPairingInitiatorRelationship 64 = false ∧
      (initiatorWorld 3).getPeerEncryption 64 < 256 ∧
      Env.sample.pe.RECEIVED_DH_CHECK < 256) ∧
    aclPackets (handleSecurityData Env.sample (initiatorWorld 3) 64 17
        sampleDHKeyCheckFrame).trace =
      aclPackets (initiatorWorld 3).trace ++ [(64, 0x0006, [0x05, 0x0B])] :=
  ⟨⟨by decide, by decide, by decide, by decide⟩,
    ((dhkey_check_initiator Env.sample (initiatorWorld 3) 64 17 sampleDHKeyCheckFrame
      (by decide) (by decide) (by decide) (by decide)).1 (by decide)).1⟩

/-! ### Pairing random and the numeric code -/

theorem handleSecurityData_random (env : Env) (w : World) (h dlen : Nat)
    (data : List Nat) (hcode : byteAt data 0 = 0x04) :
    handleSecurityData env w h dlen data = handlePairingRandom env w h data := by
  simp [handleSecurityData, hcode, CONNECTION_PAIRING_REQUEST, CONNECTION_PAIRING_RANDOM]

/-- The responder branch of PairingRandom: the nonce stored, the PairingRandom
sent, the code displayed and the confirmation asked, in this order. -/
theorem handlePairingRandom_responder_eq (env : Env) (w : World) (h : Nat) (data : List Nat)
    (hpeer : w.getPeerPairingInitiatorRelationship h = true) :
    handlePairingRandom env w h data =
      match w.hci.binaryConfirmPairing with
      | none =>
          if w.hci.displayCode then
            (({ w with hci := { w.hci with Na := revBytes 16 data 1 } } : World).sendAclPkt h
              SECURITY_CID (0x04 :: revBytes 16 w.hci.Nb 0)).emit
                (.displayCode (g2ResultOf env (responderG2Args w data) % 1000000))
          else
            ({ w with hci := { w.hci with Na := revBytes 16 data 1 } } : World).sendAclPkt h
              SECURITY_CID (0x04 :: revBytes 16 w.hci.Nb 0)
      | some answer =>
          if answer then
            (if w.hci.displayCode then
              (({ w with hci := { w.hci with Na := revBytes 16 data 1 } } : World).sendAclPkt h
                SECURITY_CID (0x04 :: revBytes 16 w.hci.Nb 0)).emit
                  (.displayCode (g2ResultOf env (responderG2Args w data) % 1000000))
            else
              ({ w with hci := { w.hci with Na := revBytes 16 data 1 } } : World).sendAclPkt h
                SECURITY_CID (0x04 :: revBytes 16 w.hci.Nb 0)).emit
              (.binaryConfirmPairing true)
          else
            (((if w.hci.displayCode then
              (({ w with hci := { w.hci with Na := revBytes 16 data 1 } } : World).sendAclPkt h
                SECURITY_CID (0x04 :: revBytes 16 w.hci.Nb 0)).emit
                  (.displayCode (g2ResultOf env (responderG2Args w data) % 1000000))
            else
              ({ w with hci := { w.hci with Na := revBytes 16 data 1 } } : World).sendAclPkt h
                SECURITY_CID (0x04 :: revBytes 16 w.hci.Nb 0)).emit
              (.binaryConfirmPairing false)).sendAclPkt h SECURITY_CID
                [0x05, 0x0C]).setPeerEncryption h env.pe.NO_ENCRYPTION := by
  unfold handlePairingRandom
  rw [if_pos hpeer]
  cases hd : w.hci.displayCode <;> cases hc : w.hci.binaryConfirmPairing with
  | none => simp [hd, hc, World.sendAclPkt, World.emit, g2ResultOf, responderG2Args,
      CONNECTION_PAIRING_RANDOM]
  | some a =>
      cases a <;> simp [hd, hc, World.sendAclPkt, World.emit, g2ResultOf, responderG2Args,
        CONNECTION_PAIRING_RANDOM, CONNECTION_PAIRING_FAILED]

/-- C15. When the responder handles a PairingRandom and the confirm callback
answers false, the PDUs sent are its PairingRandom with the reversed Nb
followed by exactly one PairingFailed 0x05, 0x0C on CID 0x0006, and the flags
become NoEncryption; when the callback answers true, or none is registered,
the only PDU sent is the PairingRandom and the flags of every connection are
unchanged. -/
theorem user_rejection (env : Env) (w : World) (h dlen : Nat) (data : List Nat)
    (hcode : byteAt data 0 = 0x04)
    (hpeer : w.getPeerPairingInitiatorRelationship h = true) :
    (w.hci.binaryConfirmPairing = some false →
        aclPackets (handleSecurityData env w h dlen data).trace =
          aclPackets w.trace ++
            [(h, 0x0006, 0x04 :: revBytes 16 w.hci.Nb 0), (h, 0x0006, [0x05, 0x0C])] ∧
        (handleSecurityData env w h dlen data).getPeerEncryption h =
          env.pe.NO_ENCRYPTION) ∧
      ((w.hci.binaryConfirmPairing = some true ∨ w.hci.binaryConfirmPairing = none) →
        aclPackets (handleSecurityData env w h dlen data).trace =
          aclPackets w.trace ++ [(h, 0x0006, 0x04 :: revBytes 16 w.hci.Nb 0)] ∧
        ∀ k, (handleSecurityData env w h dlen data).getPeerEncryption k =
          w.getPeerEncryption k) := by
  rw [handleSecurityData_random env w h dlen data hcode,
    handlePairingRandom_responder_eq env w h data hpeer]
  constructor
  · intro hc
    rw [hc]
    cases hd : w.hci.displayCode <;>
      simp [World.setPeerEncryption, World.modifyPeer, World.sendAclPkt, World.emit,
        World.getPeerEncryption, aclPackets_append, aclPackets, SECURITY_CID]
  · intro hc
    rcases hc with hc | hc <;> rw [hc] <;> cases hd : w.hci.displayCode <;>
      simp [World.sendAclPkt, World.emit, World.getPeerEncryption, aclPackets_append,
        aclPackets, SECURITY_CID]

/-- Witness of C15: the user rejects the code on connection 64. -/
theorem user_rejection_witness :
    (byteAt sampleRandomFrame 0 = 0x04 ∧
      (withCallbacks (responderWorld 3) (some false)).getPeerPairingInitiatorRelationship 64 =
        true) ∧
    aclPackets (handleSecurityData Env.sample (withCallbacks (responderWorld 3) (some false))
        64 17 sampleRandomFrame).trace =
      aclPackets (withCallbacks (responderWorld 3) (some false)).trace ++
        [(64, 0x0006, 0x04 :: revBytes 16 (withCallbacks (responderWorld 3)
            (some false)).hci.Nb 0),
          (64, 0x0006, [0x05, 0x0C])] :=
  ⟨⟨by decide, by decide⟩,
    ((user_rejection Env.sample (withCallbacks (responderWorld 3) (some false)) 64 17
      sampleRandomFrame (by decide) (by decide)).1 rfl).1⟩

/-- The initiator branch of PairingRandom records no call of the display or
confirm callback: the call records nothing, or the trace print and the
PairingFailed 0x04 of the confirm check. -/
theorem handlePairingRandom_initiator_trace (env : Env) (w : World) (h : Nat)
    (data : List Nat) (hinit : w.getPeerPairingInitiatorRelationship h = false) :
    (handlePairingRandom env w h data).trace = w.trace ∨
      (handlePairingRandom env w h data).trace =
        w.trace ++ [.serialPrintln "The confirm values do not match.",
          .sendAclPkt h 0x0006 [0x05, 0x04]] := by
  have hp : ¬ w.getPeerPairingInitiatorRelationship h = true := by simp [hinit]
  unfold handlePairingRandom
  rw [if_neg hp]
  unfold validatePeerConfirmValue
  dsimp only
  split_ifs
  · left
    rfl
  · right
    simp [World.setPeerEncryption, World.modifyPeer, World.sendAclPkt, World.emit,
      SECURITY_CID, CONNECTION_PAIRING_FAILED]

/-- C14, the code at a failing input. With both callbacks registered, a
PairingRandom handled in the initiator role whose confirm check passes records
no call at all, so neither display_code nor confirm_pairing is invoked; the
same frame handled in the responder role records the PairingRandom sent, then
display_code with the code, then confirm_pairing. -/
theorem pairing_random_initiator_no_callback :
    (handleSecurityData (Env.sampleWithStack (List.replicate 16 0))
        (withCallbacks (initiatorWorld 3) (some true)) 64 17
        (0x04 :: List.replicate 16 0)).trace = [] ∧
      (handleSecurityData (Env.sampleWithStack (List.replicate 16 0))
        (withCallbacks (responderWorld 3) (some true)) 64 17
        (0x04 :: List.replicate 16 0)).trace =
        [.sendAclPkt 64 0x0006 (0x04 :: List.replicate 16 0), .displayCode 0,
          .binaryConfirmPairing true] := by
  decide

/-- With a 32-bit `int` the assembled value is the big-endian reading of the
four output bytes. -/
theorem g2Value_big_endian (env : Env) (hsz : env.sz = .bits32) (r : List Nat) :
    g2Value env r =
      byteAt r 0 * 2 ^ 24 + byteAt r 1 * 2 ^ 16 + byteAt r 2 * 2 ^ 8 + byteAt r 3 := by
  have h0 := byteAt_lt r 0
  have h1 := byteAt_lt r 1
  have h2 := byteAt_lt r 2
  have h3 := byteAt_lt r 3
  have hv : g2Value env r =
      (byteAt r 3 <<< 0 + (byteAt r 2 <<< 8 + (byteAt r 1 <<< 16 + (byteAt r 0 <<< 24 + 0)))) %
        2 ^ 32 := by
    unfold g2Value
    rw [hsz]
    rfl
  rw [hv]
  simp only [Nat.shiftLeft_eq, Nat.reducePow]
  omega

/-- With a 16-bit `int`, a third output byte of 0x80 or more makes the term
shifted by 8 negative: when the shifts past the width contribute nothing, the
assembled value is the reading of the low two bytes plus 0xFFFF0000. -/
theorem g2Value_int16_sign_extends (env : Env) (hsz : env.sz = .bits16) (r : List Nat)
    (hhigh : 128 ≤ byteAt r 2) (h16 : env.shiftPastWidth (byteAt r 1) 16 = 0)
    (h24 : env.shiftPastWidth (byteAt r 0) 24 = 0) :
    g2Value env r = 0xFFFF0000 + byteAt r 2 * 2 ^ 8 + byteAt r 3 := by
  have h2 := byteAt_lt r 2
  have h3 := byteAt_lt r 3
  have hv : g2Value env r =
      (int16ToUint32 (byteAt r 3 <<< 0) + int16ToUint32 (byteAt r 2 <<< 8) +
        env.shiftPastWidth (byteAt r 1) 16 + env.shiftPastWidth (byteAt r 0) 24) % 2 ^ 32 := by
    unfold g2Value
    rw [hsz]
  rw [hv, h16, h24]
  simp only [int16ToUint32, Nat.shiftLeft_eq, Nat.reducePow, Nat.pow_zero, Nat.mul_one]
  have hm3 : byteAt r 3 % 65536 = byteAt r 3 := Nat.mod_eq_of_lt (by omega)
  have hm2 : byteAt r 2 * 256 % 65536 = byteAt r 2 * 256 := Nat.mod_eq_of_lt (by omega)
  rw [hm3, hm2, if_pos (by omega), if_neg (by omega)]
  omega

/-- The g2 calls of the two roles. When each side's local public key buffer is
the other's remote one and both hold the same Na and Nb, the g2 call of the
responder branch and the g2 call of the initiator branch receive the same
arguments (PKa.x, PKb.x, Na, Nb); when both targets have a 32-bit `int` and
the same g2, both sides assemble the same 32-bit value, the big-endian reading
of the four g2 output bytes, and the same code mod 10^6, which is below
1000000. -/
theorem g2_arguments_agree (envR envI : Env) (wR wI : World) (dataR dataI : List Nat)
    (hg2 : envR.g2 = envI.g2) (hszR : envR.sz = .bits32) (hszI : envI.sz = .bits32)
    (hpka : wR.hci.remotePublicKeyBuffer = wI.hci.localPublicKeyBuffer)
    (hpkb : wR.hci.localPublicKeyBuffer = wI.hci.remotePublicKeyBuffer)
    (hna : revBytes 16 dataR 1 = wI.hci.Na) (hnb : wR.hci.Nb = revBytes 16 dataI 1) :
    responderG2Args wR dataR = initiatorG2Args wI dataI ∧
      initiatorG2Args wI dataI =
        (revBytes 32 wI.hci.localPublicKeyBuffer 0, revBytes 32 wR.hci.localPublicKeyBuffer 0,
          wI.hci.Na, wR.hci.Nb) ∧
      g2ResultOf envR (responderG2Args wR dataR) = g2ResultOf envI (initiatorG2Args wI dataI) ∧
      g2ResultOf envI (initiatorG2Args wI dataI) =
        byteAt (envI.g2 (revBytes 32 wI.hci.localPublicKeyBuffer 0)
            (revBytes 32 wR.hci.localPublicKeyBuffer 0) wI.hci.Na wR.hci.Nb) 0 * 2 ^ 24 +
          byteAt (envI.g2 (revBytes 32 wI.hci.localPublicKeyBuffer 0)
            (revBytes 32 wR.hci.localPublicKeyBuffer 0) wI.hci.Na wR.hci.Nb) 1 * 2 ^ 16 +
          byteAt (envI.g2 (revBytes 32 wI.hci.localPublicKeyBuffer 0)
            (revBytes 32 wR.hci.localPublicKeyBuffer 0) wI.hci.Na wR.hci.Nb) 2 * 2 ^ 8 +
          byteAt (envI.g2 (revBytes 32 wI.hci.localPublicKeyBuffer 0)
            (revBytes 32 wR.hci.localPublicKeyBuffer 0) wI.hci.Na wR.hci.Nb) 3 ∧
      g2ResultOf envR (responderG2Args wR dataR) % 1000000 < 1000000 := by
  have hargs : responderG2Args wR dataR = initiatorG2Args wI dataI := by
    simp only [responderG2Args, initiatorG2Args, hpka, hpkb, hna, hnb]
  have hI : initiatorG2Args wI dataI =
      (revBytes 32 wI.hci.localPublicKeyBuffer 0, revBytes 32 wR.hci.localPublicKeyBuffer 0,
        wI.hci.Na, wR.hci.Nb) := by
    simp only [initiatorG2Args, hpkb, hnb]
  have hbe : ∀ args, g2ResultOf envI args =
      byteAt (envI.g2 args.1 args.2.1 args.2.2.1 args.2.2.2) 0 * 2 ^ 24 +
        byteAt (envI.g2 args.1 args.2.1 args.2.2.1 args.2.2.2) 1 * 2 ^ 16 +
        byteAt (envI.g2 args.1 args.2.1 args.2.2.1 args.2.2.2) 2 * 2 ^ 8 +
        byteAt (envI.g2 args.1 args.2.1 args.2.2.1 args.2.2.2) 3 :=
    fun args => g2Value_big_endian envI hszI _
  have hsame : g2ResultOf envR (responderG2Args wR dataR) =
      g2ResultOf envI (initiatorG2Args wI dataI) := by
    unfold g2ResultOf
    rw [g2Value_big_endian envR hszR, g2Value_big_endian envI hszI, hargs, hg2]
  refine ⟨hargs, hI, hsame, ?_, Nat.mod_lt _ (by decide)⟩
  rw [hbe, hI]

/-- The value the responder branch of `CONNECTION_PAIRING_RANDOM` assembles is
`g2ResultOf` at `responderG2Args`: with a display callback registered the code
it displays is that value mod 10^6. -/
theorem handlePairingRandom_displays_g2ResultOf (env : Env) (w : World)
    (connectionHandle : Nat) (data : List Nat)
    (hrel : w.getPeerPairingInitiatorRelationship connectionHandle = true)
    (hdisp : w.hci.displayCode = true) :
    Event.displayCode (g2ResultOf env (responderG2Args w data) % 1000000) ∈
      (handlePairingRandom env w connectionHandle data).trace := by
  have hmem : ∀ w3 : World,
      Event.displayCode (g2ResultOf env (responderG2Args w data) % 1000000) ∈ w3.trace →
      Event.displayCode (g2ResultOf env (responderG2Args w data) % 1000000) ∈
        (match w3.hci.binaryConfirmPairing with
          | none => w3
          | some answer =>
              if (!answer) = true then
                ((w3.emit (.binaryConfirmPairing answer)).sendAclPkt connectionHandle
                  SECURITY_CID [CONNECTION_PAIRING_FAILED, 0x0C]).setPeerEncryption
                    connectionHandle env.pe.NO_ENCRYPTION
              else w3.emit (.binaryConfirmPairing answer)).trace := by
    intro w3 h3
    cases w3.hci.binaryConfirmPairing with
    | none => exact h3
    | some answer =>
        cases answer <;>
          simp [World.emit, World.sendAclPkt, World.setPeerEncryption, World.modifyPeer, h3]
  unfold handlePairingRandom
  rw [if_pos hrel]
  apply hmem
  have hd : (({ w with hci := { w.hci with Na := revBytes 16 data 1 } } : World).sendAclPkt
      connectionHandle SECURITY_CID
      (CONNECTION_PAIRING_RANDOM :: revBytes 16 w.hci.Nb 0)).hci.displayCode = true := hdisp
  rw [if_pos hd]
  simp [World.emit, World.sendAclPkt, g2ResultOf, responderG2Args]

/-- The value the initiator branch of `CONNECTION_PAIRING_RANDOM` assembles,
after storing the nonce of the frame in `HCI.Nb`, is `g2ResultOf` at
`initiatorG2Args`. -/
theorem initiator_result_eq (env : Env) (w : World) (data : List Nat) :
    g2Value env (env.g2 (revBytes 32 w.hci.localPublicKeyBuffer 0)
        (revBytes 32 w.hci.remotePublicKeyBuffer 0)
        ({ w with hci := { w.hci with Nb := revBytes 16 data 1 } } : World).hci.Na
        ({ w with hci := { w.hci with Nb := revBytes 16 data 1 } } : World).hci.Nb) =
      g2ResultOf env (initiatorG2Args w data) := rfl

/-- C16, the code at a failing input. Responder and initiator hold consistent
keys and nonces and their g2 calls receive the same arguments, with g2 output
0x00, 0x00, 0x80, 0x21. The initiator, on a target with 32-bit `int`,
assembles 0x00008021. The responder, on a target with 16-bit `int`, assembles
0xFFFF8021, because the byte 0x80 shifted by 8 is a negative `int`, and
displays the code 934561 where the big-endian reading gives 32801, the code
the same frame yields with a 32-bit `int`. Whatever the shifts past the width
of a 16-bit `int` contribute, the assembled value is not the big-endian
reading at one of the outputs 00 00 80 00 and 00 00 00 00. -/
theorem numeric_code_int16_disagrees :
    ((codeResponderWorld.hci.remotePublicKeyBuffer =
          codeInitiatorWorld.hci.localPublicKeyBuffer ∧
        codeResponderWorld.hci.localPublicKeyBuffer =
          codeInitiatorWorld.hci.remotePublicKeyBuffer ∧
        revBytes 16 sampleNaFrame 1 = codeInitiatorWorld.hci.Na ∧
        codeResponderWorld.hci.Nb = revBytes 16 sampleRandomFrame 1) ∧
      responderG2Args codeResponderWorld sampleNaFrame =
        initiatorG2Args codeInitiatorWorld sampleRandomFrame ∧
      Env.sample.g2 (responderG2Args codeResponderWorld sampleNaFrame).1
          (responderG2Args codeResponderWorld sampleNaFrame).2.1
          (responderG2Args codeResponderWorld sampleNaFrame).2.2.1
          (responderG2Args codeResponderWorld sampleNaFrame).2.2.2 = [0x00, 0x00, 0x80, 0x21] ∧
      Env.sample16.g2 = Env.sample.g2 ∧
      g2ResultOf Env.sample (initiatorG2Args codeInitiatorWorld sampleRandomFrame) =
        0x00008021 ∧
      g2ResultOf Env.sample16 (responderG2Args codeResponderWorld sampleNaFrame) =
        0xFFFF8021 ∧
      (handleSecurityData Env.sample16 codeResponderWorld 64 17 sampleNaFrame).trace =
        [.sendAclPkt 64 0x0006 (0x04 :: sampleRandomFrame.drop 1), .displayCode 934561] ∧
      (handleSecurityData Env.sample codeResponderWorld 64 17 sampleNaFrame).trace =
        [.sendAclPkt 64 0x0006 (0x04 :: sampleRandomFrame.drop 1), .displayCode 32801]) ∧
    (∀ env : Env, env.sz = .bits16 →
      g2Value env [0x00, 0x00, 0x80, 0x00] ≠ 0x00008000 ∨
        g2Value env [0x00, 0x00, 0x00, 0x00] ≠ 0) := by
  refine ⟨⟨by decide, by decide, by decide, rfl, by decide, by decide, by decide, by decide⟩,
    ?_⟩
  intro env hsz
  by_contra hcon
  push_neg at hcon
  obtain ⟨h1, h2⟩ := hcon
  unfold g2Value at h1 h2
  rw [hsz] at h1 h2
  simp only [int16ToUint32, byteAt, List.getD_cons_zero, List.getD_cons_succ, Nat.shiftLeft_eq,
    Nat.reducePow, Nat.reduceMul, Nat.reduceMod, Nat.reduceAdd, Nat.reduceSub, Nat.reduceLT,
    if_true, if_false, ite_true, ite_false, Nat.zero_mul, Nat.zero_add, Nat.mul_one,
    Nat.pow_zero] at h1 h2
  omega

/-! ### Unknown codes -/

/-- C20. A security frame whose first byte is none of 0x01, 0x02, 0x03, 0x04,
0x05, 0x08, 0x09, 0x0C, 0x0D leaves the state as it was (nothing sent, nothing
changed), and so does a signaling frame whose code is not 0x12, whatever its
length, the ConnParamUpdateResponse 0x13 included. -/
theorem unknown_codes_dropped (env : Env) (w : World) (h dlen : Nat) (dataS : List Nat)
    (h2 dlen2 : Nat) (dataG : List Nat)
    (hS : byteAt dataS 0 ∉ [0x01, 0x02, 0x03, 0x04, 0x05, 0x08, 0x09, 0x0C, 0x0D])
    (hG : byteAt dataG 0 ≠ 0x12) :
    handleSecurityData env w h dlen dataS = w ∧ handleData env w h2 dlen2 dataG = w := by
  constructor
  · simp only [List.mem_cons, List.mem_singleton, not_or, List.not_mem_nil, or_false] at hS
    obtain ⟨h1, h02, h3, h4, h5, h8, h9, hc, hd⟩ := hS
    simp [handleSecurityData, h1, h02, h3, h4, h5, h8, h9, hc, hd,
      CONNECTION_PAIRING_REQUEST, CONNECTION_PAIRING_RANDOM, CONNECTION_PAIRING_RESPONSE,
      CONNECTION_PAIRING_FAILED, CONNECTION_IDENTITY_INFORMATION,
      CONNECTION_IDENTITY_ADDRESS, CONNECTION_PAIRING_PUBLIC_KEY,
      CONNECTION_PAIRING_DHKEY_CHECK, CONNECTION_PAIRING_CONFIRM]
  · have hG2 : ¬ byteAt dataG 0 = CONNECTION_PARAMETER_UPDATE_REQUEST := hG
    unfold handleData handleDataDispatch
    dsimp only
    split_ifs <;> rfl

/-- Witness of C20: a security frame with code 0x0B and a length-consistent
ConnParamUpdateResponse are dropped. -/
theorem unknown_codes_dropped_witness :
    (byteAt [0x0B, 0x01] 0 ∉ [0x01, 0x02, 0x03, 0x04, 0x05, 0x08, 0x09, 0x0C, 0x0D] ∧
      byteAt [0x13, 0x07, 0x02, 0x00, 0x00, 0x00] 0 ≠ 0x12) ∧
    handleSecurityData Env.sample (World.start scenarioConfig) 64 2 [0x0B, 0x01] =
        World.start scenarioConfig ∧
      handleData Env.sample (World.start scenarioConfig) 64 6
        [0x13, 0x07, 0x02, 0x00, 0x00, 0x00] = World.start scenarioConfig :=
  ⟨⟨by decide, by decide⟩,
    unknown_codes_dropped Env.sample (World.start scenarioConfig) 64 2 [0x0B, 0x01] 64 6
      [0x13, 0x07, 0x02, 0x00, 0x00, 0x00] (by decide) (by decide)⟩

/-! ### Encryption flags across the entry points -/

theorem sentPairingFailed_of_trace (w res : World) (evs : List Event)
    (ht : res.trace = w.trace ++ evs) :
    sentPairingFailed w res = evs.any Event.isPairingFailed := by
  unfold sentPairingFailed callEvents
  rw [ht, List.drop_left]

theorem keepsFlags_refl (a : Nat) : KeepsFlags a a := fun _ _ h => h

theorem keepsFlags_or (a x : Nat) : KeepsFlags a (a ||| x) := by
  intro i _ h
  rw [Nat.testBit_or, h]
  rfl

theorem keepsFlags_or_mod (a x : Nat) : KeepsFlags a ((a ||| x) % 256) := by
  intro i hi h
  have h8 : (256 : Nat) = 2 ^ 8 := by norm_num
  rw [h8, Nat.testBit_mod_two_pow, Nat.testBit_or, h]
  simp [hi]

theorem keepsFlags_trans {a b c : Nat} (hab : KeepsFlags a b) (hbc : KeepsFlags b c) :
    KeepsFlags a c := fun i hi h => hbc i hi (hab i hi h)

theorem modifyPeer_encryption_other (w : World) (h j e : Nat) (hj : j ≠ h) :
    (w.setPeerEncryption h e).getPeerEncryption j = w.getPeerEncryption j := by
  simp [World.setPeerEncryption, World.modifyPeer, World.getPeerEncryption, hj]

theorem smCalculateLTKandConfirm_outcome (env : Env) (w : World) (h : Nat) (ea : List Nat) :
    FlagsOutcome env false w (smCalculateLTKandConfirm env w h ea) h := by
  rw [smCalculateLTKandConfirm_eq]
  split_ifs
  · refine ⟨Or.inr (Or.inr ⟨?_, ?_⟩), ?_⟩
    · rw [sentPairingFailed_of_trace w _ [.readBdAddr, .sendAclPkt h SECURITY_CID
        (0x0D :: revBytes 16 (specResponderEb env w h) 0)] (by
          simp [World.setPeerEncryption, World.modifyPeer, World.sendAclPkt, World.emit,
            World.readBdAddr])]
      simp [Event.isPairingFailed]
    · have : (World.setPeerEncryption
          (({ (w.readBdAddr env) with hci := { (w.readBdAddr env).hci with
            LTK := (specResponderKeys env w h).2 } } : World).sendAclPkt h SECURITY_CID
              (0x0D :: revBytes 16 (specResponderEb env w h) 0)) h
          ((w.getPeerEncryption h ||| env.pe.SENT_DH_CHECK) % 256)).getPeerEncryption h =
          (w.getPeerEncryption h ||| env.pe.SENT_DH_CHECK) % 256 := by
        simp [World.setPeerEncryption, World.modifyPeer, World.getPeerEncryption]
      rw [this]
      exact keepsFlags_or_mod _ _
    · intro j hj
      rw [modifyPeer_encryption_other _ _ _ _ hj]
      rfl
  · refine ⟨Or.inl ⟨?_, ?_, rfl, rfl, rfl, rfl⟩, ?_⟩
    · rw [sentPairingFailed_of_trace w _ [.readBdAddr, .sendAclPkt h SECURITY_CID
        [0x05, 0x0B]] (by
          simp [World.setPeerEncryption, World.modifyPeer, World.sendAclPkt, World.emit,
            World.readBdAddr])]
      simp [Event.isPairingFailed]
    · simp [World.setPeerEncryption, World.modifyPeer, World.getPeerEncryption]
    · intro j hj
      rw [modifyPeer_encryption_other _ _ _ _ hj]
      rfl

theorem sendDHKCheck_outcome (env : Env) (w : World) (h : Nat) :
    FlagsOutcome env false w (sendDHKCheck env w h) (h % 256) := by
  refine ⟨Or.inr (Or.inr ⟨?_, ?_⟩), ?_⟩
  · rw [sentPairingFailed_of_trace w _ [.readBdAddr, .sendAclPkt (h % 256) SECURITY_CID
      (0x0D :: revBytes 16 (env.f6
        (env.f5 w.hci.DHKey w.hci.Na w.hci.Nb (specLocalAddress env)
          (w.getPeerAddrWithType (h % 256))).1 w.hci.Na w.hci.Nb (List.replicate 16 0)
        w.getLocalIOCap (specLocalAddress env) (w.getPeerAddrWithType (h % 256))) 0),
      .poll] (by
        simp [sendDHKCheck, World.setPeerEncryption, World.modifyPeer, World.sendAclPkt,
          World.emit, World.readBdAddr, World.poll, specLocalAddress, World.getLocalIOCap,
          CONNECTION_PAIRING_DHKEY_CHECK])]
    simp [Event.isPairingFailed]
  · have : (sendDHKCheck env w h).getPeerEncryption (h % 256) =
        (w.getPeerEncryption (h % 256) ||| env.pe.SENT_DH_CHECK) % 256 := by
      simp [sendDHKCheck, World.setPeerEncryption, World.modifyPeer, World.getPeerEncryption,
        World.sendAclPkt, World.emit, World.readBdAddr, World.poll]
    rw [this]
    exact keepsFlags_or_mod _ _
  · intro j hj
    simp [sendDHKCheck, World.setPeerEncryption, World.modifyPeer, World.getPeerEncryption,
      World.sendAclPkt, World.emit, World.readBdAddr, World.poll, hj]

theorem initiatePairingRequest_outcome (env : Env) (w : World) (h : Nat) :
    FlagsOutcome env false w (initiatePairingRequest env w h) h := by
  refine ⟨Or.inr (Or.inr ⟨?_, ?_⟩), ?_⟩
  · rw [sentPairingFailed_of_trace w _ [.sendAclPkt h SECURITY_CID
      [0x01, byteAt [0x9, 0x00, env.IOCAP_DISPLAY_ONLY] 2, byteAt [0x9, 0x00,
        env.IOCAP_DISPLAY_ONLY] 1, byteAt [0x9, 0x00, env.IOCAP_DISPLAY_ONLY] 0,
        0x10, 0x01, 0x01]] (by
        simp [initiatePairingRequest, World.setPeerEncryption, World.modifyPeer,
          World.sendAclPkt, World.emit, World.setLocalIOCap, CONNECTION_PAIRING_REQUEST])]
    simp [Event.isPairingFailed]
  · have : (initiatePairingRequest env w h).getPeerEncryption h =
        w.getPeerEncryption h ||| env.pe.PAIRING_REQUEST := by
      simp [initiatePairingRequest, World.setPeerEncryption, World.modifyPeer,
        World.getPeerEncryption, World.sendAclPkt, World.emit, World.setLocalIOCap]
    rw [this]
    exact keepsFlags_or _ _
  · intro j hj
    simp [initiatePairingRequest, World.setPeerEncryption, World.modifyPeer,
      World.getPeerEncryption, World.sendAclPkt, World.emit, World.setLocalIOCap, hj]

/-- An outcome established after the flags were first or-ed with a flag is an
outcome of the whole call. -/
theorem flagsOutcome_after_set (env : Env) (w res : World) (h e : Nat)
    (hk : KeepsFlags (w.getPeerEncryption h) e)
    (ho : FlagsOutcome env false (w.setPeerEncryption h e) res h) :
    FlagsOutcome env false w res h := by
  have he : (w.setPeerEncryption h e).getPeerEncryption h = e := by
    simp [World.setPeerEncryption, World.modifyPeer, World.getPeerEncryption]
  obtain ⟨hcase, hother⟩ := ho
  refine ⟨?_, ?_⟩
  · rcases hcase with hf | hr | hkeep
    · exact Or.inl hf
    · exact absurd hr.1 (by decide)
    · refine Or.inr (Or.inr ⟨hkeep.1, ?_⟩)
      rw [he] at hkeep
      exact keepsFlags_trans hk hkeep.2
  · intro j hj
    rw [hother j hj]
    exact modifyPeer_encryption_other w h j e hj

theorem handlePairingRequest_outcome (env : Env) (w : World) (h : Nat) (data : List Nat) :
    FlagsOutcome env false w (handlePairingRequestFromInitiator env w h data) h := by
  by_cases hen : 0 < w.config.pairing_enabled
  · obtain ⟨ht, _, henc⟩ := handlePairingRequest_enabled env w h data hen
    refine ⟨Or.inr (Or.inr ⟨?_, ?_⟩), ?_⟩
    · rw [sentPairingFailed_of_trace w _ _ ht]
      simp [Event.isPairingFailed]
    · rw [henc]
      exact keepsFlags_or _ _
    · intro j hj
      unfold handlePairingRequestFromInitiator
      have hp : isPairingEnabled w = true := by simp [isPairingEnabled, hen]
      rw [if_pos hp]
      by_cases h2 : w.config.pairing_enabled ≥ 2
      · simp only [h2, if_true]
        simp [World.sendAclPkt, World.emit, World.setPeerEncryption, World.setPeerIOCap,
          World.modifyPeer, World.getPeerEncryption, hj]
      · simp only [h2, if_false]
        simp [World.sendAclPkt, World.emit, World.setPeerEncryption, World.setPeerIOCap,
          World.modifyPeer, World.getPeerEncryption, hj]
  · have hdis : w.config.pairing_enabled = 0 := by omega
    rw [handlePairingRequest_disabled env w h data hdis]
    refine ⟨Or.inl ⟨?_, ?_, rfl, rfl, rfl, rfl⟩, ?_⟩
    · rw [sentPairingFailed_of_trace w _ [.sendAclPkt h SECURITY_CID [0x05, 0x05]] rfl]
      simp [Event.isPairingFailed]
    · simp [World.setPeerEncryption, World.modifyPeer, World.getPeerEncryption]
    · intro j hj
      rw [modifyPeer_encryption_other _ _ _ _ hj]
      rfl

theorem handlePairingRandom_outcome (env : Env) (w : World) (h : Nat) (data : List Nat) :
    FlagsOutcome env false w (handlePairingRandom env w h data) h := by
  by_cases hpeer : w.getPeerPairingInitiatorRelationship h = true
  · rw [handlePairingRandom_responder_eq env w h data hpeer]
    cases hd : w.hci.displayCode <;> cases hc : w.hci.binaryConfirmPairing with
    | none =>
        refine ⟨Or.inr (Or.inr ⟨?_, fun _ _ hb => hb⟩), fun _ _ => rfl⟩
        rw [sentPairingFailed_of_trace w _ _ (by
          simp [World.sendAclPkt, World.emit]; rfl)]
        simp [Event.isPairingFailed]
    | some a =>
        cases a
        · refine ⟨Or.inl ⟨?_, ?_, rfl, rfl, rfl, rfl⟩, ?_⟩
          · rw [sentPairingFailed_of_trace w _ _ (by
              simp [World.sendAclPkt, World.emit, World.setPeerEncryption,
                World.modifyPeer]; rfl)]
            simp [Event.isPairingFailed, SECURITY_CID]
          · simp [World.setPeerEncryption, World.modifyPeer, World.getPeerEncryption]
          · intro j hj
            simp [World.sendAclPkt, World.emit, World.setPeerEncryption,
              World.modifyPeer, World.getPeerEncryption, hj]
        · refine ⟨Or.inr (Or.inr ⟨?_, fun _ _ hb => hb⟩), fun _ _ => rfl⟩
          rw [sentPairingFailed_of_trace w _ _ (by
            simp [World.sendAclPkt, World.emit]; rfl)]
          simp [Event.isPairingFailed]
  · unfold handlePairingRandom
    rw [if_neg hpeer]
    unfold validatePeerConfirmValue
    dsimp only
    split_ifs
    · refine ⟨Or.inr (Or.inr ⟨?_, fun _ _ hb => hb⟩), fun _ _ => rfl⟩
      rw [sentPairingFailed_of_trace w _ [] (by simp)]
      rfl
    · refine ⟨Or.inl ⟨?_, ?_, rfl, rfl, rfl, rfl⟩, ?_⟩
      · rw [sentPairingFailed_of_trace w _
          [.serialPrintln "The confirm values do not match.",
            .sendAclPkt h SECURITY_CID [0x05, 0x04]] (by
            simp [World.sendAclPkt, World.emit, World.setPeerEncryption,
              World.modifyPeer, CONNECTION_PAIRING_FAILED])]
        simp [Event.isPairingFailed]
      · simp [World.setPeerEncryption, World.modifyPeer, World.getPeerEncryption]
      · intro j hj
        simp [World.sendAclPkt, World.emit, World.setPeerEncryption,
          World.modifyPeer, World.getPeerEncryption, hj]

theorem handlePairingPublicKey_outcome (env : Env) (w : World) (h : Nat) (data : List Nat) :
    FlagsOutcome env false w (handlePairingPublicKey env w h data) h := by
  unfold handlePairingPublicKey
  dsimp only
  split_ifs
  · refine ⟨Or.inr (Or.inr ⟨?_, ?_⟩), ?_⟩
    · rw [sentPairingFailed_of_trace w _
        [.sendCommand ((env.OGF_LE_CTL <<< 10) ||| env.READ_LOCAL_P256) []] (by
          simp [World.emit, World.setPeerEncryption, World.modifyPeer])]
      simp [Event.isPairingFailed]
    · have key : ∀ x : World, x.att.peers = (w.setPeerEncryption h
          (w.getPeerEncryption h ||| env.pe.REQUESTED_ENCRYPTION)).att.peers →
          KeepsFlags (w.getPeerEncryption h) (x.getPeerEncryption h) := by
        intro x hx
        have hx2 : x.getPeerEncryption h =
            w.getPeerEncryption h ||| env.pe.REQUESTED_ENCRYPTION := by
          simp [World.getPeerEncryption, hx, World.setPeerEncryption, World.modifyPeer]
        rw [hx2]
        exact keepsFlags_or _ _
      exact key _ rfl
    · intro j hj
      simp [World.emit, World.setPeerEncryption, World.modifyPeer,
        World.getPeerEncryption, hj]
  · refine ⟨Or.inr (Or.inr ⟨?_, ?_⟩), ?_⟩
    · rw [sentPairingFailed_of_trace w _
        [.sendCommand ((env.OGF_LE_CTL <<< 10) ||| env.GENERATE_DH_KEY_V1)
          (copyBytes 32 data 1 ++ copyBytes 32 data 33), .poll] (by
          simp [World.emit, World.poll, World.setPeerEncryption, World.modifyPeer])]
      simp [Event.isPairingFailed]
    · have key : ∀ x : World, x.att.peers = (w.setPeerEncryption h
          (w.getPeerEncryption h ||| env.pe.REQUESTED_ENCRYPTION)).att.peers →
          KeepsFlags (w.getPeerEncryption h) (x.getPeerEncryption h) := by
        intro x hx
        have hx2 : x.getPeerEncryption h =
            w.getPeerEncryption h ||| env.pe.REQUESTED_ENCRYPTION := by
          simp [World.getPeerEncryption, hx, World.setPeerEncryption, World.modifyPeer]
        rw [hx2]
        exact keepsFlags_or _ _
      exact key _ rfl
    · intro j hj
      simp [World.emit, World.poll, World.setPeerEncryption, World.modifyPeer,
        World.getPeerEncryption, hj]

theorem handlePairingDHKeyCheck_outcome (env : Env) (w : World) (h : Nat) (data : List Nat) :
    FlagsOutcome env false w (handlePairingDHKeyCheck env w h data) h := by
  by_cases hpeer : w.getPeerPairingInitiatorRelationship h = true
  · unfold handlePairingDHKeyCheck
    rw [if_pos hpeer]
    dsimp only
    split_ifs
    · apply flagsOutcome_after_set env w _ h _ (keepsFlags_or_mod _ env.pe.RECEIVED_DH_CHECK)
      refine ⟨Or.inr (Or.inr ⟨?_, fun _ _ hb => hb⟩), fun _ _ => rfl⟩
      rw [sentPairingFailed_of_trace _ _ [] (by simp)]
      rfl
    · exact flagsOutcome_after_set env w _ h _
        (keepsFlags_or_mod _ env.pe.RECEIVED_DH_CHECK)
        (smCalculateLTKandConfirm_outcome env _ h _)
  · have hinit : w.getPeerPairingInitiatorRelationship h = false := by
      simpa using hpeer
    rw [handlePairingDHKeyCheck_initiator_eq env w h data hinit]
    apply flagsOutcome_after_set env w _ h _ (keepsFlags_or_mod _ env.pe.RECEIVED_DH_CHECK)
    split_ifs
    · refine ⟨Or.inr (Or.inr ⟨?_, fun _ _ hb => hb⟩), fun _ _ => rfl⟩
      rw [sentPairingFailed_of_trace _ _ [.readBdAddr] (by
        simp [World.readBdAddr, World.emit])]
      rfl
    · refine ⟨Or.inl ⟨?_, ?_, rfl, rfl, rfl, rfl⟩, ?_⟩
      · rw [sentPairingFailed_of_trace _ _
          [.readBdAddr, .sendAclPkt h SECURITY_CID [0x05, 0x0B]] (by
            simp [World.readBdAddr, World.sendAclPkt, World.emit, World.setPeerEncryption,
              World.modifyPeer])]
        simp [Event.isPairingFailed]
      · simp [World.setPeerEncryption, World.modifyPeer, World.getPeerEncryption]
      · intro j hj
        simp [World.readBdAddr, World.sendAclPkt, World.emit, World.setPeerEncryption,
          World.modifyPeer, World.getPeerEncryption, hj]

/-- The outcome of `handleSecurityData` for every frame. -/
theorem handleSecurityData_outcome (env : Env) (w : World) (h dlen : Nat) (data : List Nat) :
    FlagsOutcome env (decide (byteAt data 0 = 0x05)) w
      (handleSecurityData env w h dlen data) h := by
  have lift : ∀ res, FlagsOutcome env false w res h →
      FlagsOutcome env (decide (byteAt data 0 = 0x05)) w res h := by
    intro res ho
    obtain ⟨hcase, hother⟩ := ho
    refine ⟨?_, hother⟩
    rcases hcase with hf | hr | hkeep
    · exact Or.inl hf
    · exact absurd hr.1 (by decide)
    · exact Or.inr (Or.inr hkeep)
  have same : ∀ (res : World) (evs : List Event), res.trace = w.trace ++ evs →
      evs.any Event.isPairingFailed = false →
      (∀ j, res.getPeerEncryption j = w.getPeerEncryption j) →
      FlagsOutcome env false w res h := by
    intro res evs ht hev hp
    refine ⟨Or.inr (Or.inr ⟨?_, ?_⟩), ?_⟩
    · rw [sentPairingFailed_of_trace w res evs ht, hev]
    · rw [hp h]
      exact keepsFlags_refl _
    · intro j _
      exact hp j
  unfold handleSecurityData
  dsimp only
  split_ifs with h1 h4 h2 h5 h8 h9 hc hd h3
  · exact lift _ (handlePairingRequest_outcome env w h data)
  · exact lift _ (handlePairingRandom_outcome env w h data)
  · apply lift
    refine same _ [.sendCommand ((env.OGF_LE_CTL <<< 10) ||| env.READ_LOCAL_P256) []]
      (by simp [handlePairingRequestResponseAsInitiator, World.emit, World.setPeerIOCap,
        World.modifyPeer]) (by simp [Event.isPairingFailed]) ?_
    intro j
    by_cases hj : j = h <;>
      simp [handlePairingRequestResponseAsInitiator, World.emit, World.setPeerIOCap,
        World.modifyPeer, World.getPeerEncryption, hj]
  · have h5b : byteAt data 0 = 0x05 := h5
    refine ⟨Or.inr (Or.inl ⟨by simp [h5b], rfl, ?_, rfl⟩), ?_⟩
    · simp [World.setPeerEncryption, World.modifyPeer, World.getPeerEncryption]
    · intro j hj
      exact modifyPeer_encryption_other w h j _ hj
  · exact lift _ (same _ [] (by simp) rfl (fun _ => rfl))
  · apply lift
    unfold handleIdentityAddress
    dsimp only
    split_ifs
    · exact same _ [.saveNewAddress (byteAt data 1) (revBytes 6 data 2) w.att.peerIRK
          w.att.localIRK, .storeLTK (revBytes 6 data 2) w.hci.LTK]
        (by simp [World.emit]) (by simp [Event.isPairingFailed]) (fun _ => rfl)
    · exact same _ [.saveNewAddress (byteAt data 1) (revBytes 6 data 2) w.att.peerIRK
          w.att.localIRK]
        (by simp [World.emit]) (by simp [Event.isPairingFailed]) (fun _ => rfl)
  · exact lift _ (handlePairingPublicKey_outcome env w h data)
  · exact lift _ (handlePairingDHKeyCheck_outcome env w h data)
  · apply lift
    refine same _ [.leRand, .leRand, .sendAclPkt h SECURITY_CID
        (0x04 :: copyBytes 16 (revBytes 16 (copyBytes 8 (env.leRand w.hci.randCalls) 0 ++
          copyBytes 8 (env.leRand (w.hci.randCalls + 1)) 0) 0) 0), .poll]
      (by simp [sendRandomValue, World.poll, World.sendAclPkt, World.emit,
        World.setPeerPairingConfirmValue, World.modifyPeer, CONNECTION_PAIRING_RANDOM])
      (by simp [Event.isPairingFailed]) ?_
    intro j
    by_cases hj : j = h <;>
      simp [sendRandomValue, World.poll, World.sendAclPkt, World.emit,
        World.setPeerPairingConfirmValue, World.modifyPeer, World.getPeerEncryption, hj]
  · exact lift _ (same _ [] (by simp) rfl (fun _ => rfl))

/-- The outcome of a call of any entry point, for the connection it is about. -/
theorem callEntryPoint_outcome (env : Env) (w : World) (ep : EntryPoint) :
    FlagsOutcome env ep.receivesPairingFailed w (callEntryPoint env w ep) ep.connection := by
  cases ep with
  | handleSecurityData h dlen data => exact handleSecurityData_outcome env w h dlen data
  | initiatePairingRequest h => exact initiatePairingRequest_outcome env w h
  | sendDHKCheck h => exact sendDHKCheck_outcome env w h
  | smCalculateLTKandConfirm h ea => exact smCalculateLTKandConfirm_outcome env w h ea

theorem keepsFlags_all_bits (old new : Nat) (hold : old < 256) (hk : KeepsFlags old new) :
    ∀ i, old.testBit i = true → new.testBit i = true := by
  intro i hi
  by_cases h8 : i < 8
  · exact hk i h8 hi
  · have hlt : old < 2 ^ i :=
      lt_of_lt_of_le hold (by
        have : (256 : Nat) = 2 ^ 8 := by norm_num
        rw [this]
        exact Nat.pow_le_pow_right (by decide) (by omega))
    rw [Nat.testBit_lt_two_pow hlt] at hi
    exact absurd hi (by decide)

/-- C18. For every entry point of the core (handleSecurityData for every frame
and role, initiatePairingRequest, sendDHKCheck, smCalculateLTKandConfirm),
every input and every connection whose flags are a byte, the flags after the
call contain every bit set before the call, or they are NoEncryption and the
call handled an inbound PairingFailed or sent a PairingFailed PDU. -/
theorem monotone_flags (env : Env) (w : World) (ep : EntryPoint) (j : Nat)
    (hbyte : w.getPeerEncryption j < 256) :
    (∀ i, (w.getPeerEncryption j).testBit i = true →
        ((callEntryPoint env w ep).getPeerEncryption j).testBit i = true) ∨
      ((callEntryPoint env w ep).getPeerEncryption j = env.pe.NO_ENCRYPTION ∧
        (ep.receivesPairingFailed = true ∨
          sentPairingFailed w (callEntryPoint env w ep) = true)) := by
  obtain ⟨hcase, hother⟩ := callEntryPoint_outcome env w ep
  by_cases hj : j = ep.connection
  · subst hj
    rcases hcase with hf | hr | hkeep
    · exact Or.inr ⟨hf.2.1, Or.inr hf.1⟩
    · exact Or.inr ⟨hr.2.2.1, Or.inl hr.1⟩
    · exact Or.inl (keepsFlags_all_bits _ _ hbyte hkeep.2)
  · left
    intro i hi
    rw [hother j hj]
    exact hi

/-- Witness of C18: a PairingDHKeyCheck on a responder connection with flags
PairingRequested and RequestedEncryption keeps both bits. -/
theorem monotone_flags_witness :
    (responderWorld 3).getPeerEncryption 64 < 256 ∧
      ((∀ i, ((responderWorld 3).getPeerEncryption 64).testBit i = true →
          ((callEntryPoint Env.sample (responderWorld 3)
            (.handleSecurityData 64 17 sampleDHKeyCheckFrame)).getPeerEncryption 64).testBit
              i = true) ∨
        ((callEntryPoint Env.sample (responderWorld 3)
            (.handleSecurityData 64 17 sampleDHKeyCheckFrame)).getPeerEncryption 64 =
          Env.sample.pe.NO_ENCRYPTION ∧
          ((EntryPoint.handleSecurityData 64 17 sampleDHKeyCheckFrame).receivesPairingFailed =
              true ∨
            sentPairingFailed (responderWorld 3)
              (callEntryPoint Env.sample (responderWorld 3)
                (.handleSecurityData 64 17 sampleDHKeyCheckFrame)) = true))) :=
  ⟨by decide,
    monotone_flags Env.sample (responderWorld 3)
      (.handleSecurityData 64 17 sampleDHKeyCheckFrame) 64 (by decide)⟩

/-! ### Terminal failure -/

/-- C17 as stated fails: an inbound PairingFailed handled in a state whose Nb
and public-key buffers are not zero leaves them as they are. -/
theorem pairing_failed_zeroes_counterexample :
    (handleSecurityData Env.sample honestWorld 64 2 [0x05, 0x08]).hci.Nb = sampleNb ∧
      sampleNb ≠ List.replicate 16 0 ∧
      (handleSecurityData Env.sample honestWorld 64 2 [0x05, 0x08]).hci.localPublicKeyBuffer =
        sampleKeyA ++ List.replicate 32 0 ∧
      sampleKeyA ++ List.replicate 32 0 ≠ List.replicate 64 0 := by
  decide

theorem sentPairingFailed_of_same_trace (w res : World) (ht : res.trace = w.trace) :
    sentPairingFailed w res = false := by
  rw [sentPairingFailed_of_trace w res [] (by simp [ht])]
  rfl

/-- C17, amended. After any PairingFailed PDU the connection's encryption
state is NoEncryption and nothing is zeroed: a call that handles an inbound
PairingFailed sends nothing (the trace is unchanged) and leaves Na, Nb, DHKey,
MacKey, LTK and the public-key buffers, with the other HCI members, as they
were; a call of an entry point that sends a PairingFailed leaves DHKey, MacKey
and the public-key buffers as they were. -/
theorem pairing_failed_terminal (env : Env) (w : World) (ep : EntryPoint) :
    (ep.receivesPairingFailed = true →
        (callEntryPoint env w ep).getPeerEncryption ep.connection = env.pe.NO_ENCRYPTION ∧
        (callEntryPoint env w ep).trace = w.trace ∧
        (callEntryPoint env w ep).hci = w.hci) ∧
      (sentPairingFailed w (callEntryPoint env w ep) = true →
        (callEntryPoint env w ep).getPeerEncryption ep.connection = env.pe.NO_ENCRYPTION ∧
        (callEntryPoint env w ep).hci.DHKey = w.hci.DHKey ∧
        (callEntryPoint env w ep).hci.MacKey = w.hci.MacKey ∧
        (callEntryPoint env w ep).hci.localPublicKeyBuffer = w.hci.localPublicKeyBuffer ∧
        (callEntryPoint env w ep).hci.remotePublicKeyBuffer =
          w.hci.remotePublicKeyBuffer) := by
  constructor
  · intro hr
    cases ep with
    | handleSecurityData h dlen data =>
        have h5 : byteAt data 0 = 0x05 := by
          simpa [EntryPoint.receivesPairingFailed] using hr
        have hres : handleSecurityData env w h dlen data =
            w.setPeerEncryption h env.pe.NO_ENCRYPTION := by
          simp [handleSecurityData, h5, CONNECTION_PAIRING_REQUEST, CONNECTION_PAIRING_RANDOM,
            CONNECTION_PAIRING_RESPONSE, CONNECTION_PAIRING_FAILED]
        show (handleSecurityData env w h dlen data).getPeerEncryption h = _ ∧
          (handleSecurityData env w h dlen data).trace = _ ∧
          (handleSecurityData env w h dlen data).hci = _
        rw [hres]
        refine ⟨?_, rfl, rfl⟩
        simp [World.setPeerEncryption, World.modifyPeer, World.getPeerEncryption]
    | initiatePairingRequest h => simp [EntryPoint.receivesPairingFailed] at hr
    | sendDHKCheck h => simp [EntryPoint.receivesPairingFailed] at hr
    | smCalculateLTKandConfirm h ea => simp [EntryPoint.receivesPairingFailed] at hr
  · intro hs
    obtain ⟨hcase, _⟩ := callEntryPoint_outcome env w ep
    rcases hcase with hf | hr | hkeep
    · exact hf.2
    · rw [sentPairingFailed_of_same_trace w _ hr.2.1] at hs
      exact absurd hs (by decide)
    · rw [hkeep.1] at hs
      exact absurd hs (by decide)

/-- The amended C17 at an input: the inbound PairingFailed of the
counterexample leaves the flags at NoEncryption and the trace empty. -/
theorem pairing_failed_terminal_witness :
    (callEntryPoint Env.sample honestWorld
        (.handleSecurityData 64 2 [0x05, 0x08])).getPeerEncryption 64 =
        Env.sample.pe.NO_ENCRYPTION ∧
      (callEntryPoint Env.sample honestWorld (.handleSecurityData 64 2 [0x05, 0x08])).trace =
        honestWorld.trace ∧
      (callEntryPoint Env.sample honestWorld (.handleSecurityData 64 2 [0x05, 0x08])).hci =
        honestWorld.hci :=
  (pairing_failed_terminal Env.sample honestWorld (.handleSecurityData 64 2 [0x05, 0x08])).1
    (by decide)

/-! ### A request during a pairing attempt -/

theorem or_eq_left_of_and_eq (a p : Nat) (hp : a &&& p = p) : a ||| p = a := by
  apply Nat.eq_of_testBit_eq
  intro i
  have hi : (a &&& p).testBit i = p.testBit i := by rw [hp]
  rw [Nat.testBit_and] at hi
  rw [Nat.testBit_or]
  cases ha : a.testBit i <;> cases hpi : p.testBit i <;> simp_all

theorem handlePairingRequest_hci (env : Env) (w : World) (h : Nat) (data : List Nat) :
    (handlePairingRequestFromInitiator env w h data).hci = w.hci := by
  unfold handlePairingRequestFromInitiator
  split_ifs <;> rfl

/-- C19 as stated fails: a PairingRequest on connection 64, whose flags
PairingRequested, RequestedEncryption, DHKeyCalculated and ReceivedDHCheck are
set by an attempt in flight, is answered with a PairingResponse only; no
PairingFailed with reason 0x08 is sent and the flags stay as they were. -/
theorem pairing_request_in_flight_counterexample :
    (responderWorld 27).getPeerEncryption 64 &&& Env.sample.pe.PAIRING_REQUEST =
        Env.sample.pe.PAIRING_REQUEST ∧
      (handleSecurityData Env.sample (responderWorld 27) 64 7
          [0x01, 0x03, 0x00, 0x09, 0x10, 0x01, 0x01]).trace =
        [.sendAclPkt 64 0x0006 [0x02, 0x00, 0x00, 0x00, 0x10, 0x02, 0x02]] ∧
      (handleSecurityData Env.sample (responderWorld 27) 64 7
          [0x01, 0x03, 0x00, 0x09, 0x10, 0x01, 0x01]).getPeerEncryption 64 = 27 := by
  decide

/-- C19, amended. A PairingRequest that arrives on a connection whose
PairingRequested flag is already set is handled like a first request: with
pairing enabled the only PDU sent is the PairingResponse, the connection's
flags stay as they were and the HCI members (nonces, keys, buffers) are
unchanged; with pairing disabled the only PDU sent is PairingFailed with
reason 0x05 and the flags become NoEncryption. No PairingFailed with reason
0x08 is sent. -/
theorem pairing_request_in_flight (env : Env) (w : World) (h dlen : Nat) (data : List Nat)
    (hreq : byteAt data 0 = 0x01)
    (hflight : w.getPeerEncryption h &&& env.pe.PAIRING_REQUEST = env.pe.PAIRING_REQUEST) :
    (0 < w.config.pairing_enabled →
        (handleSecurityData env w h dlen data).trace =
          w.trace ++ [.sendAclPkt h 0x0006
            [0x02, w.hci.localIOCap, 0x00, w.hci.localAuthreq, 0x10,
              responseKD env, responseKD env]] ∧
        (handleSecurityData env w h dlen data).getPeerEncryption h =
          w.getPeerEncryption h ∧
        (handleSecurityData env w h dlen data).hci = w.hci) ∧
      (w.config.pairing_enabled = 0 →
        (handleSecurityData env w h dlen data).trace =
          w.trace ++ [.sendAclPkt h 0x0006 [0x05, 0x05]] ∧
        (handleSecurityData env w h dlen data).getPeerEncryption h =
          env.pe.NO_ENCRYPTION ∧
        (handleSecurityData env w h dlen data).hci = w.hci) := by
  rw [handleSecurityData_pairing_request env w h dlen data hreq]
  constructor
  · intro hen
    obtain ⟨ht, _, henc⟩ := handlePairingRequest_enabled env w h data hen
    refine ⟨ht, ?_, handlePairingRequest_hci env w h data⟩
    rw [henc]
    exact or_eq_left_of_and_eq _ _ hflight
  · intro hdis
    refine ⟨?_, ?_, handlePairingRequest_hci env w h data⟩
    · rw [handlePairingRequest_disabled env w h data hdis]
      rfl
    · rw [handlePairingRequest_disabled env w h data hdis]
      simp [World.setPeerEncryption, World.modifyPeer, World.getPeerEncryption]

/-- Witness of C19 amended: the request of the counterexample leaves the
flags of the attempt in flight as they were. -/
theorem pairing_request_in_flight_witness :
    (byteAt [0x01, 0x03, 0x00, 0x09, 0x10, 0x01, 0x01] 0 = 0x01 ∧
      (responderWorld 27).getPeerEncryption 64 &&& Env.sample.pe.PAIRING_REQUEST =
        Env.sample.pe.PAIRING_REQUEST) ∧
    (handleSecurityData Env.sample (responderWorld 27) 64 7
        [0x01, 0x03, 0x00, 0x09, 0x10, 0x01, 0x01]).getPeerEncryption 64 =
      (responderWorld 27).getPeerEncryption 64 :=
  ⟨⟨by decide, by decide⟩,
    ((pairing_request_in_flight Env.sample (responderWorld 27) 64 7
      [0x01, 0x03, 0x00, 0x09, 0x10, 0x01, 0x01] (by decide) (by decide)).1
        (by decide)).2.1⟩

/-! ### Length narrowing and interval bounds -/

/-- C28. Whenever handleData hands a frame to a handler, the 16-bit header
length is at most 251, so narrowing it to the 8-bit dlen parameter loses
nothing: the handler is given the header length itself, which is the frame
length minus 4, and a ConnParamUpdateRequest handler decides its
"shorter than 8" check on the true payload length. -/
theorem length_narrowing_lossless (sz : SizeT) (dlen : Nat) (data : List Nat)
    (hdlen : dlen < 256) (hdisp : (handleDataDispatch sz dlen data).isHandled = true) :
    rd16 data 2 ≤ 251 ∧ rd16 data 2 % 256 = rd16 data 2 ∧ dlen = 4 + rd16 data 2 ∧
      (handleDataDispatch sz dlen data =
          .request (byteAt data 1) (rd16 data 2) (data.drop 4) ∨
        handleDataDispatch sz dlen data =
          .response (byteAt data 1) (rd16 data 2) (data.drop 4)) ∧
      (∀ (env : Env) (w : World) (h : Nat), env.sz = sz → byteAt data 0 = 0x12 →
        handleData env w h dlen data =
          connectionParameterUpdateRequest w h (byteAt data 1) (rd16 data 2) (data.drop 4)) := by
  have hnd : ¬ handleDataDispatch sz dlen data = .dropped := by
    intro hd
    rw [hd] at hdisp
    simp [Dispatch.isHandled] at hdisp
  have hok : ¬ (dlen < 4 ∨ dlen ≠ 4 + rd16 data 2) :=
    fun hbad => hnd ((dispatch_dropped_iff sz dlen data hdlen).2 hbad)
  have h4 : ¬ dlen < 4 := fun hlt => hok (Or.inl hlt)
  have heq : dlen = 4 + rd16 data 2 := by
    by_contra hne
    exact hok (Or.inr hne)
  have hle : rd16 data 2 ≤ 251 := by omega
  have hmod : rd16 data 2 % 256 = rd16 data 2 := Nat.mod_eq_of_lt (by omega)
  have hsz : ¬ dlen ≠ (4 + rd16 data 2) % sz.modulus := by
    cases sz <;> simp only [SizeT.modulus, Nat.reducePow] <;> omega
  have hform : handleDataDispatch sz dlen data =
      if byteAt data 0 = CONNECTION_PARAMETER_UPDATE_REQUEST then
        .request (byteAt data 1) (rd16 data 2) (data.drop 4)
      else if byteAt data 0 = CONNECTION_PARAMETER_UPDATE_RESPONSE then
        .response (byteAt data 1) (rd16 data 2) (data.drop 4)
      else .ignoredCode := by
    unfold handleDataDispatch
    rw [if_neg h4, if_neg hsz]
    simp only [hmod]
  refine ⟨hle, hmod, heq, ?_, ?_⟩
  · rw [hform] at hdisp ⊢
    split_ifs at hdisp ⊢
    · exact Or.inl rfl
    · exact Or.inr rfl
    · simp [Dispatch.isHandled] at hdisp
  · intro env w h henv hcode
    have hc : byteAt data 0 = CONNECTION_PARAMETER_UPDATE_REQUEST := hcode
    unfold handleData
    rw [henv, hform, if_pos hc]

/-- Witness of C28: a 12-byte ConnParamUpdateRequest frame. -/
theorem length_narrowing_lossless_witness :
    ((12 : Nat) < 256 ∧
      (handleDataDispatch SizeT.bits16 12
        [0x12, 0x07, 0x08, 0x00, 0x20, 0x00, 0x24, 0x00, 0x00, 0x00, 0xF4, 0x01]).isHandled =
        true) ∧
    rd16 [0x12, 0x07, 0x08, 0x00, 0x20, 0x00, 0x24, 0x00, 0x00, 0x00, 0xF4, 0x01] 2 ≤ 251 :=
  ⟨⟨by decide, by decide⟩,
    (length_narrowing_lossless SizeT.bits16 12
      [0x12, 0x07, 0x08, 0x00, 0x20, 0x00, 0x24, 0x00, 0x00, 0x00, 0xF4, 0x01]
      (by decide) (by decide)).1⟩

theorem connectionParameterUpdateRequest_of_value_zero (w : World)
    (handle identifier dlen : Nat) (data : List Nat) (hlen : 8 ≤ dlen)
    (h0 : responseValue w.config data = 0x0000) :
    connectionParameterUpdateRequest w handle identifier dlen data =
      (w.sendAclPkt handle SIGNALING_CID [0x13, identifier, 0x02, 0x00, 0x00, 0x00]).emit
        (.leConnUpdate handle (rd16 data 0) (rd16 data 2) (rd16 data 4) (rd16 data 6)) := by
  have hd : ¬ dlen < 8 := by omega
  unfold connectionParameterUpdateRequest
  rw [if_neg hd]
  simp only [h0, if_true]
  rfl

theorem responseValue_zero_of_not_one (c : Config) (data : List Nat)
    (h : ¬ responseValue c data = 0x0001) : responseValue c data = 0x0000 := by
  rcases responseValue_cases c data with h0 | h1
  · exact h0
  · exact absurd h1 h

/-- addConnection leaves the state as it was unless the role is 1 and one of
its two tests fires. -/
theorem addConnection_eq_self_iff (w : World) (handle role interval supervisionTimeout : Nat) :
    addConnection w handle role interval supervisionTimeout = w ↔
      ¬ (role = 1 ∧ (intervalOutOfRange w.config interval ||
        timeoutDiffers w.config supervisionTimeout) = true) := by
  by_cases hrole : role ≠ 1
  · have hw : addConnection w handle role interval supervisionTimeout = w := by
      unfold addConnection
      rw [if_pos hrole]
    exact ⟨fun _ h => hrole h.1, fun _ => hw⟩
  · by_cases hup : (intervalOutOfRange w.config interval ||
        timeoutDiffers w.config supervisionTimeout) = true
    · have hw : addConnection w handle role interval supervisionTimeout ≠ w := by
        unfold addConnection
        rw [if_neg hrole]
        simp only [hup, if_true]
        exact emit_ne_self _ _
      exact ⟨fun h => absurd h hw, fun h => absurd ⟨by omega, hup⟩ h⟩
    · have hw : addConnection w handle role interval supervisionTimeout = w := by
        unfold addConnection
        rw [if_neg hrole]
        simp only [hup]
        rfl
      exact ⟨fun _ h => hup h.2, fun _ => hw⟩

/-- C29. When at least one of the configured min_interval and max_interval is
zero, the interval test is skipped for every requested or granted interval:
connectionParameterUpdateRequest accepts every request of at least 8 bytes
whose supervision timeout is acceptable (none configured, or equal), and
addConnection emits a request exactly for role 1 with a configured
supervision timeout that differs from the granted one. With the constructor's
configuration (all zero) every request of at least 8 bytes is accepted and
addConnection never emits. -/
theorem interval_bounds_need_both (w : World)
    (hone : w.config.minInterval = 0 ∨ w.config.maxInterval = 0) :
    (∀ (handle identifier dlen : Nat) (data : List Nat), 8 ≤ dlen →
        (w.config.supervisionTimeout = 0 ∨ rd16 data 6 = w.config.supervisionTimeout) →
        connectionParameterUpdateRequest w handle identifier dlen data =
          (w.sendAclPkt handle SIGNALING_CID [0x13, identifier, 0x02, 0x00, 0x00, 0x00]).emit
            (.leConnUpdate handle (rd16 data 0) (rd16 data 2) (rd16 data 4)
              (rd16 data 6))) ∧
      (∀ (handle role interval supervisionTimeout : Nat),
        addConnection w handle role interval supervisionTimeout ≠ w ↔
          (role = 1 ∧ w.config.supervisionTimeout ≠ 0 ∧
            supervisionTimeout ≠ w.config.supervisionTimeout)) ∧
      (w.config = Config.init →
        (∀ (handle identifier dlen : Nat) (data : List Nat), 8 ≤ dlen →
          connectionParameterUpdateRequest w handle identifier dlen data =
            (w.sendAclPkt handle SIGNALING_CID
              [0x13, identifier, 0x02, 0x00, 0x00, 0x00]).emit
              (.leConnUpdate handle (rd16 data 0) (rd16 data 2) (rd16 data 4)
                (rd16 data 6))) ∧
        ∀ (handle role interval supervisionTimeout : Nat),
          addConnection w handle role interval supervisionTimeout = w) := by
  have hint : ¬ (w.config.minInterval ≠ 0 ∧ w.config.maxInterval ≠ 0) := by
    intro h
    rcases hone with h0 | h0
    · exact h.1 h0
    · exact h.2 h0
  have hacc : ∀ (handle identifier dlen : Nat) (data : List Nat), 8 ≤ dlen →
      (w.config.supervisionTimeout = 0 ∨ rd16 data 6 = w.config.supervisionTimeout) →
      connectionParameterUpdateRequest w handle identifier dlen data =
        (w.sendAclPkt handle SIGNALING_CID [0x13, identifier, 0x02, 0x00, 0x00, 0x00]).emit
          (.leConnUpdate handle (rd16 data 0) (rd16 data 2) (rd16 data 4)
            (rd16 data 6)) := by
    intro handle identifier dlen data hlen hto
    apply connectionParameterUpdateRequest_of_value_zero w handle identifier dlen data hlen
    apply responseValue_zero_of_not_one
    rw [responseValue_eq_one_iff]
    intro h
    rcases h with h | h
    · exact hint ⟨h.1, h.2.1⟩
    · rcases hto with hz | he
      · exact h.1 hz
      · exact h.2 he
  have hadd : ∀ (handle role interval supervisionTimeout : Nat),
      addConnection w handle role interval supervisionTimeout ≠ w ↔
        (role = 1 ∧ w.config.supervisionTimeout ≠ 0 ∧
          supervisionTimeout ≠ w.config.supervisionTimeout) := by
    intro handle role interval supervisionTimeout
    have hio : intervalOutOfRange w.config interval = false := by
      rcases hone with h0 | h0 <;> simp [intervalOutOfRange, h0]
    rw [Ne, addConnection_eq_self_iff, not_not, hio]
    simp [timeoutDiffers]
  refine ⟨hacc, hadd, ?_⟩
  intro hinit
  have hz : w.config.supervisionTimeout = 0 := by rw [hinit]; rfl
  constructor
  · intro handle identifier dlen data hlen
    exact hacc handle identifier dlen data hlen (Or.inl hz)
  · intro handle role interval supervisionTimeout
    by_contra hne
    exact ((hadd handle role interval supervisionTimeout).1 hne).2.1 hz

/-- Witness of C29: after setConnectionInterval(0x0018, 0) a request with
minimum 0x0001 and the configured timeout is accepted. -/
theorem interval_bounds_need_both_witness :
    ((setConnectionInterval (World.start scenarioConfig) 0x0018 0).config.minInterval = 0 ∨
      (setConnectionInterval (World.start scenarioConfig) 0x0018 0).config.maxInterval = 0) ∧
    connectionParameterUpdateRequest (setConnectionInterval (World.start scenarioConfig) 0x0018 0)
        64 7 8 [0x01, 0x00, 0xFF, 0xFF, 0x00, 0x00, 0xF4, 0x01] =
      ((setConnectionInterval (World.start scenarioConfig) 0x0018 0).sendAclPkt 64 SIGNALING_CID
          [0x13, 7, 0x02, 0x00, 0x00, 0x00]).emit
        (.leConnUpdate 64 0x0001 0xFFFF 0 0x01F4) :=
  ⟨Or.inr rfl,
    (interval_bounds_need_both (setConnectionInterval (World.start scenarioConfig) 0x0018 0)
      (Or.inr rfl)).1 64 7 8 [0x01, 0x00, 0xFF, 0xFF, 0x00, 0x00, 0xF4, 0x01]
      (le_refl 8) (Or.inr (by decide))⟩

/-! ### Byte order -/

theorem getD_map_range (f : Nat → Nat) (n k : Nat) (hk : k < n) :
    ((List.range n).map f).getD k 0 = f k := by
  simp [List.getD_eq_getElem?_getD, List.getElem?_map, List.getElem?_range hk]

theorem byteAt_mod (data : List Nat) (i : Nat) : byteAt data i % 256 = byteAt data i := by
  unfold byteAt
  exact Nat.mod_mod _ _

theorem byteAt_revBytes (n : Nat) (src : List Nat) (off k : Nat) (hk : k < n) :
    byteAt (revBytes n src off) k = byteAt src (off + (n - 1 - k)) := by
  have h : byteAt (revBytes n src off) k = byteAt src (off + (n - 1 - k)) % 256 := by
    unfold revBytes
    rw [byteAt, getD_map_range _ n k hk]
  rw [h, byteAt_mod]

theorem byteAt_cons_succ (a : Nat) (l : List Nat) (k : Nat) :
    byteAt (a :: l) (1 + k) = byteAt l k := by
  unfold byteAt
  rw [Nat.add_comm 1 k]
  rfl

theorem revBytes_length (n : Nat) (src : List Nat) (off : Nat) :
    (revBytes n src off).length = n := by
  simp [revBytes]

theorem revBytes_lt (n : Nat) (src : List Nat) (off : Nat) :
    ∀ b ∈ revBytes n src off, b < 256 := by
  intro b hb
  simp only [revBytes, List.mem_map] at hb
  obtain ⟨j, _, rfl⟩ := hb
  exact byteAt_lt _ _

/-- Reversing twice gives the bytes copied in order. -/
theorem revBytes_revBytes (n : Nat) (v : List Nat) :
    revBytes n (revBytes n v 0) 0 = copyBytes n v 0 := by
  unfold copyBytes
  show (List.range n).map (fun j => byteAt (revBytes n v 0) (0 + (n - 1 - j))) = _
  apply List.map_congr_left
  intro j hj
  have hjn : j < n := List.mem_range.1 hj
  rw [Nat.zero_add, byteAt_revBytes n v 0 (n - 1 - j) (by omega)]
  congr 1
  omega

/-- Reversing the payload of a frame, after its code byte. -/
theorem revBytes_cons_one (n : Nat) (a : Nat) (l : List Nat) :
    revBytes n (a :: l) 1 = revBytes n l 0 := by
  unfold revBytes
  apply List.map_congr_left
  intro j _
  rw [byteAt_cons_succ, Nat.zero_add]

/-- Copying n bytes out of an n-byte value gives the value. -/
theorem copyBytes_eq_self (n : Nat) (v : List Nat) (hl : v.length = n)
    (hb : ∀ b ∈ v, b < 256) : copyBytes n v 0 = v := by
  apply List.ext_getElem
  · simp [copyBytes, hl]
  · intro i h1 h2
    have hmem : v[i] ∈ v := List.getElem_mem h2
    simp only [copyBytes, List.getElem_map, List.getElem_range, byteAt, Nat.zero_add]
    rw [List.getD_eq_getElem v 0 h2]
    exact Nat.mod_eq_of_lt (hb _ hmem)

/-- C24. The 16-byte conversion of the codec boundary, out[15 - i] = in[i] for
i in 0..15, maps 16-byte values to 16-byte values and is an involution on
them: converting wire to crypto order and back yields V. It is injective and
onto, hence a bijection on 16-byte values. The loops that store Na, Nb and
RemoteDHKeyCheck apply it to the payload after the code byte. -/
theorem byte_order_round_trip (V : List Nat) (hV : IsValue16 V) :
    IsValue16 (swapOrder16 V) ∧ swapOrder16 (swapOrder16 V) = V ∧
      (∀ W, IsValue16 W → swapOrder16 V = swapOrder16 W → V = W) ∧
      (∃ U, IsValue16 U ∧ swapOrder16 U = V) ∧
      (∀ code : Nat, revBytes 16 (code :: V) 1 = swapOrder16 V) := by
  have hinv : ∀ X, IsValue16 X → swapOrder16 (swapOrder16 X) = X := by
    intro X hX
    unfold swapOrder16
    rw [revBytes_revBytes, copyBytes_eq_self 16 X hX.1 hX.2]
  have hval : ∀ X, IsValue16 (swapOrder16 X) :=
    fun X => ⟨revBytes_length 16 X 0, revBytes_lt 16 X 0⟩
  refine ⟨hval V, hinv V hV, ?_, ⟨swapOrder16 V, hval V, hinv V hV⟩, ?_⟩
  · intro W hW heq
    rw [← hinv V hV, ← hinv W hW, heq]
  · intro code
    exact revBytes_cons_one 16 code V

/-- Witness of C24: the value with bytes 1 to 16. -/
theorem byte_order_round_trip_witness :
    IsValue16 [1, 2, 3, 4, 5, 6, 7, 8, 9, 10, 11, 12, 13, 14, 15, 16] ∧
      swapOrder16 (swapOrder16 [1, 2, 3, 4, 5, 6, 7, 8, 9, 10, 11, 12, 13, 14, 15, 16]) =
        [1, 2, 3, 4, 5, 6, 7, 8, 9, 10, 11, 12, 13, 14, 15, 16] :=
  ⟨⟨rfl, by decide⟩,
    (byte_order_round_trip [1, 2, 3, 4, 5, 6, 7, 8, 9, 10, 11, 12, 13, 14, 15, 16]
      ⟨rfl, by decide⟩).2.1⟩

/-! ### DHKey check of the initiator and the PDU encoding -/

/-- The result of `sendDHKCheck` in terms of the values the spec names. -/
theorem sendDHKCheck_eq (env : Env) (w : World) (h : Nat) :
    sendDHKCheck env w h =
      ((({ (w.readBdAddr env) with hci := { (w.readBdAddr env).hci with
          MacKey := (specInitiatorKeys env w (h % 256)).1,
          LTK := (specInitiatorKeys env w (h % 256)).2 } } : World).sendAclPkt (h % 256)
        SECURITY_CID (0x0D :: revBytes 16 (specInitiatorEa env w (h % 256)) 0)).setPeerEncryption
          (h % 256) ((w.getPeerEncryption (h % 256) ||| env.pe.SENT_DH_CHECK) % 256)).poll :=
  rfl

theorem sendDHKCheck_packets (env : Env) (w : World) (h : Nat) :
    aclPackets (sendDHKCheck env w h).trace =
      aclPackets w.trace ++
        [(h % 256, 0x0006, 0x0D :: revBytes 16 (specInitiatorEa env w (h % 256)) 0)] := by
  rw [sendDHKCheck_eq]
  simp [World.setPeerEncryption, World.modifyPeer, World.sendAclPkt, World.emit,
    World.readBdAddr, World.poll, aclPackets_append, aclPackets, SECURITY_CID]

theorem smCalculateLTKandConfirm_packets_ok (env : Env) (w : World) (h : Nat) (ea : List Nat)
    (heq : copyBytes 16 (specResponderEa env w h) 0 = copyBytes 16 ea 0) :
    aclPackets (smCalculateLTKandConfirm env w h ea).trace =
      aclPackets w.trace ++
        [(h, 0x0006, 0x0D :: revBytes 16 (specResponderEb env w h) 0)] := by
  rw [smCalculateLTKandConfirm_eq, if_pos heq]
  simp [World.setPeerEncryption, World.modifyPeer, World.sendAclPkt, World.emit,
    World.readBdAddr, aclPackets_append, aclPackets, SECURITY_CID]

/-- The loop leaves the code byte followed by the reversed check value,
whatever the buffer held. -/
theorem dhkeyCheckPdu_eq (E : List Nat) (g0 g1 g2 g3 g4 g5 g6 g7 g8 g9 g10 g11 g12 g13 g14 g15 g16 : Nat) :
    dhkeyCheckPdu E [g0, g1, g2, g3, g4, g5, g6, g7, g8, g9, g10, g11, g12, g13, g14, g15, g16] = 0x0D :: revBytes 16 E 0 := by
  have hr : List.range 16 = [0, 1, 2, 3, 4, 5, 6, 7, 8, 9, 10, 11, 12, 13, 14, 15] := by
    decide
  simp only [dhkeyCheckPdu, revBytes, dhkeyCheckIndex, hr, List.foldl, List.map,
    CONNECTION_PAIRING_DHKEY_CHECK, List.set_cons_zero, List.set_cons_succ, Nat.zero_add,
    Nat.reduceSub]

/-- C27. In sendDHKCheck and smCalculateLTKandConfirm the loop
ret[16 - i] = E[i], i in 0..15, writes indices 1 to 16 of the 17-byte buffer,
each of them, never index 0 and none above 16. Whatever the buffer held, the
PDU is 17 bytes long, byte 0 is 0x0D and bytes 1..16 are the reversed check
value, so the receiver's loop out[15 - i] = payload[i] recovers the 16 bytes
of the check value. Both functions send this PDU. -/
theorem dhkey_check_pdu_encoding (E : List Nat) (g0 g1 g2 g3 g4 g5 g6 g7 g8 g9 g10 g11 g12 g13 g14 g15 g16 : Nat) :
    dhkeyCheckPdu E [g0, g1, g2, g3, g4, g5, g6, g7, g8, g9, g10, g11, g12, g13, g14, g15, g16] = 0x0D :: revBytes 16 E 0 ∧
      (dhkeyCheckPdu E [g0, g1, g2, g3, g4, g5, g6, g7, g8, g9, g10, g11, g12, g13, g14, g15, g16]).length = 17 ∧
      (∀ i, i < 16 → 1 ≤ dhkeyCheckIndex i ∧ dhkeyCheckIndex i ≤ 16) ∧
      (∀ k, 1 ≤ k → k ≤ 16 → ∃ i, i < 16 ∧ dhkeyCheckIndex i = k) ∧
      revBytes 16 (dhkeyCheckPdu E [g0, g1, g2, g3, g4, g5, g6, g7, g8, g9, g10, g11, g12, g13, g14, g15, g16]) 1 = copyBytes 16 E 0 ∧
      (IsValue16 E → revBytes 16 (dhkeyCheckPdu E [g0, g1, g2, g3, g4, g5, g6, g7, g8, g9, g10, g11, g12, g13, g14, g15, g16]) 1 = E) ∧
      (∀ (env : Env) (w : World) (h : Nat) (ea : List Nat),
        copyBytes 16 (specResponderEa env w h) 0 = copyBytes 16 ea 0 →
        aclPackets (smCalculateLTKandConfirm env w h ea).trace =
          aclPackets w.trace ++ [(h, 0x0006, dhkeyCheckPdu (specResponderEb env w h) [g0, g1, g2, g3, g4, g5, g6, g7, g8, g9, g10, g11, g12, g13, g14, g15, g16])]) ∧
      (∀ (env : Env) (w : World) (h : Nat),
        aclPackets (sendDHKCheck env w h).trace =
          aclPackets w.trace ++
            [(h % 256, 0x0006, dhkeyCheckPdu (specInitiatorEa env w (h % 256)) [g0, g1, g2, g3, g4, g5, g6, g7, g8, g9, g10, g11, g12, g13, g14, g15, g16])]) := by
  have hrec : revBytes 16 (dhkeyCheckPdu E [g0, g1, g2, g3, g4, g5, g6, g7, g8, g9, g10, g11, g12, g13, g14, g15, g16]) 1 = copyBytes 16 E 0 := by
    rw [dhkeyCheckPdu_eq, revBytes_cons_one, revBytes_revBytes]
  refine ⟨dhkeyCheckPdu_eq E g0 g1 g2 g3 g4 g5 g6 g7 g8 g9 g10 g11 g12 g13 g14 g15 g16, ?_, ?_, ?_, hrec, ?_, ?_, ?_⟩
  · rw [dhkeyCheckPdu_eq]
    simp [revBytes]
  · intro i hi
    unfold dhkeyCheckIndex
    omega
  · intro k h1 h16
    refine ⟨16 - k, by omega, ?_⟩
    unfold dhkeyCheckIndex
    omega
  · intro hE
    rw [hrec, copyBytes_eq_self 16 E hE.1 hE.2]
  · intro env w h ea heq
    rw [dhkeyCheckPdu_eq]
    exact smCalculateLTKandConfirm_packets_ok env w h ea heq
  · intro env w h
    rw [dhkeyCheckPdu_eq]
    exact sendDHKCheck_packets env w h

/-- C26. sendDHKCheck on a connection handle that fits its `uint8_t`
parameter: MacKey and LTK are set to f5(DHKey, Na, Nb, A_I, A_R), the only PDU
sent is 0x0D followed by the reversed Ea = f6(MacKey, Na, Nb, 0^16, IOcap_I,
A_I, A_R), with A_I the local address after type byte 0, A_R the peer address
with type and IOcap_I the local IO capability triple, and the flags are the
previous flags or-ed with SentDHCheck, so no flag is cleared. A responder
whose DHKey, Na and Nb are the same, whose peer address and peer IO
capability are A_I and IOcap_I and whose local address is A_R recomputes the
same keys and the same Ea' in smCalculateLTKandConfirm. Flags are bytes. -/
theorem sendDHKCheck_check (env : Env) (w : World) (h : Nat) (hh : h < 256)
    (hold : w.getPeerEncryption h < 256) (hsent : env.pe.SENT_DH_CHECK < 256) :
    (sendDHKCheck env w h).hci.MacKey = (specInitiatorKeys env w h).1 ∧
      (sendDHKCheck env w h).hci.LTK = (specInitiatorKeys env w h).2 ∧
      aclPackets (sendDHKCheck env w h).trace =
        aclPackets w.trace ++ [(h, 0x0006, 0x0D :: revBytes 16 (specInitiatorEa env w h) 0)] ∧
      (sendDHKCheck env w h).getPeerEncryption h =
        w.getPeerEncryption h ||| env.pe.SENT_DH_CHECK ∧
      (∀ i, (w.getPeerEncryption h).testBit i = true →
        ((sendDHKCheck env w h).getPeerEncryption h).testBit i = true) ∧
      (∀ (envR : Env) (wR : World) (hR : Nat), envR.f5 = env.f5 → envR.f6 = env.f6 →
        wR.hci.DHKey = w.hci.DHKey → wR.hci.Na = w.hci.Na → wR.hci.Nb = w.hci.Nb →
        wR.getPeerAddrWithType hR = specLocalAddress env →
        specLocalAddress envR = w.getPeerAddrWithType h →
        wR.getPeerIOCap hR = w.getLocalIOCap →
        specResponderKeys envR wR hR = specInitiatorKeys env w h ∧
          specResponderEa envR wR hR = specInitiatorEa env w h) := by
  have hm : h % 256 = h := Nat.mod_eq_of_lt hh
  have henc : (w.getPeerEncryption h ||| env.pe.SENT_DH_CHECK) % 256 =
      w.getPeerEncryption h ||| env.pe.SENT_DH_CHECK := or_mod_256 _ _ hold hsent
  have hflags : (sendDHKCheck env w h).getPeerEncryption h =
      w.getPeerEncryption h ||| env.pe.SENT_DH_CHECK := by
    rw [sendDHKCheck_eq, hm, henc]
    simp [World.setPeerEncryption, World.modifyPeer, World.getPeerEncryption, World.poll,
      World.emit]
  have hpk := sendDHKCheck_packets env w h
  rw [hm] at hpk
  refine ⟨?_, ?_, hpk, hflags, ?_, ?_⟩
  · rw [sendDHKCheck_eq, hm]
    rfl
  · rw [sendDHKCheck_eq, hm]
    rfl
  · intro i hi
    rw [hflags, Nat.testBit_or, hi]
    rfl
  · intro envR wR hR hf5 hf6 hdh hna hnb hpeer hlocal hio
    have hk : specResponderKeys envR wR hR = specInitiatorKeys env w h := by
      simp only [specResponderKeys, specInitiatorKeys, hf5, hdh, hna, hnb, hpeer, hlocal]
    refine ⟨hk, ?_⟩
    simp only [specResponderEa, specInitiatorEa, hk, hf6, hna, hnb, hpeer, hlocal, hio]

/-- Witness of C26: the initiator state with every buffer cleared. -/
theorem sendDHKCheck_check_witness :
    ((64 : Nat) < 256 ∧ (initiatorWorld 3).getPeerEncryption 64 < 256 ∧
      Env.sample.pe.SENT_DH_CHECK < 256) ∧
    (sendDHKCheck Env.sample (initiatorWorld 3) 64).getPeerEncryption 64 =
      (initiatorWorld 3).getPeerEncryption 64 ||| Env.sample.pe.SENT_DH_CHECK :=
  ⟨⟨by decide, by decide, by decide⟩,
    (sendDHKCheck_check Env.sample (initiatorWorld 3) 64 (by decide) (by decide)
      (by decide)).2.2.2.1⟩

/-! ### Public key -/

theorem handleSecurityData_public_key (env : Env) (w : World) (h dlen : Nat)
    (data : List Nat) (hcode : byteAt data 0 = 0x0C) :
    handleSecurityData env w h dlen data = handlePairingPublicKey env w h data := by
  simp [handleSecurityData, hcode, CONNECTION_PAIRING_REQUEST, CONNECTION_PAIRING_RANDOM,
    CONNECTION_PAIRING_RESPONSE, CONNECTION_PAIRING_FAILED, CONNECTION_IDENTITY_INFORMATION,
    CONNECTION_IDENTITY_ADDRESS, CONNECTION_PAIRING_PUBLIC_KEY]

/-- C22 as stated fails: a PairingPublicKey received as responder makes the
core issue one command, opcode 0x2025 (Read Local P-256 Public Key in the
sample environment) without parameters, not the Generate DH Key command
0x2026 with the stored key. -/
theorem public_key_responder_counterexample :
    (responderWorld 1).getPeerPairingInitiatorRelationship 64 = true ∧
      hciCommands (handleSecurityData Env.sample (responderWorld 1) 64 65
        samplePublicKeyFrame).trace = [.sendCommand 0x2025 []] ∧
      (Env.sample.OGF_LE_CTL <<< 10) ||| Env.sample.GENERATE_DH_KEY_V1 = 0x2026 := by
  decide

/-- C22, amended. For every PairingPublicKey received, the 64-byte payload (32
bytes X, then 32 bytes Y) is stored in remote_public_key_xy and
RequestedEncryption is or-ed into the flags. When the peer is the pairing
initiator (the local device is the responder) the core then issues the Read
Local P-256 Public Key command, without parameters, and nothing else; when the
local device is the initiator it issues the Generate DH Key command with the
stored key and polls the transport. -/
theorem public_key_received (env : Env) (w : World) (h dlen : Nat) (data : List Nat)
    (hcode : byteAt data 0 = 0x0C) :
    (handleSecurityData env w h dlen data).hci.remotePublicKeyBuffer =
        copyBytes 32 data 1 ++ copyBytes 32 data 33 ∧
      (handleSecurityData env w h dlen data).getPeerEncryption h =
        w.getPeerEncryption h ||| env.pe.REQUESTED_ENCRYPTION ∧
      (w.getPeerPairingInitiatorRelationship h = true →
        (handleSecurityData env w h dlen data).trace =
          w.trace ++ [.sendCommand ((env.OGF_LE_CTL <<< 10) ||| env.READ_LOCAL_P256) []]) ∧
      (w.getPeerPairingInitiatorRelationship h = false →
        (handleSecurityData env w h dlen data).trace =
          w.trace ++ [.sendCommand ((env.OGF_LE_CTL <<< 10) ||| env.GENERATE_DH_KEY_V1)
            (copyBytes 32 data 1 ++ copyBytes 32 data 33), .poll]) := by
  rw [handleSecurityData_public_key env w h dlen data hcode]
  have hrel : (w.setPeerEncryption h
      (w.getPeerEncryption h ||| env.pe.REQUESTED_ENCRYPTION)).getPeerPairingInitiatorRelationship
        h = w.getPeerPairingInitiatorRelationship h := by
    simp [World.setPeerEncryption, World.modifyPeer, World.getPeerPairingInitiatorRelationship]
  unfold handlePairingPublicKey
  simp only [hrel]
  cases hp : w.getPeerPairingInitiatorRelationship h
  · simp [World.setPeerEncryption, World.modifyPeer, World.getPeerEncryption, World.emit,
      World.poll]
  · simp [World.setPeerEncryption, World.modifyPeer, World.getPeerEncryption, World.emit,
      World.poll]

/-- Witness of C22 amended: the frame of the counterexample, stored. -/
theorem public_key_received_witness :
    byteAt samplePublicKeyFrame 0 = 0x0C ∧
      (handleSecurityData Env.sample (responderWorld 1) 64 65
        samplePublicKeyFrame).hci.remotePublicKeyBuffer =
        copyBytes 32 samplePublicKeyFrame 1 ++ copyBytes 32 samplePublicKeyFrame 33 :=
  ⟨by decide,
    (public_key_received Env.sample (responderWorld 1) 64 65 samplePublicKeyFrame
      (by decide)).1⟩

/-! ### Nonces on the wire -/

/-- The PairingRandom `sendRandomValue` sends carries `HCI.Na` as it is held,
copied in order. -/
theorem sendRandomValue_packets (env : Env) (w : World) (h : Nat) :
    aclPackets (sendRandomValue env w h).trace =
        aclPackets w.trace ++ [(h, 0x0006, 0x04 :: (sendRandomValue env w h).hci.Na)] ∧
      (sendRandomValue env w h).hci.Na =
        revBytes 16 (copyBytes 8 (env.leRand w.hci.randCalls) 0 ++
          copyBytes 8 (env.leRand (w.hci.randCalls + 1)) 0) 0 := by
  have hna : (sendRandomValue env w h).hci.Na =
      revBytes 16 (copyBytes 8 (env.leRand w.hci.randCalls) 0 ++
        copyBytes 8 (env.leRand (w.hci.randCalls + 1)) 0) 0 := rfl
  refine ⟨?_, hna⟩
  have hcopy : copyBytes 16 (revBytes 16 (copyBytes 8 (env.leRand w.hci.randCalls) 0 ++
      copyBytes 8 (env.leRand (w.hci.randCalls + 1)) 0) 0) 0 =
      revBytes 16 (copyBytes 8 (env.leRand w.hci.randCalls) 0 ++
        copyBytes 8 (env.leRand (w.hci.randCalls + 1)) 0) 0 :=
    copyBytes_eq_self 16 _ (revBytes_length 16 _ 0) (revBytes_lt 16 _ 0)
  rw [hna]
  simp [sendRandomValue, World.sendAclPkt, World.emit, aclPackets_append, aclPackets,
    SECURITY_CID, CONNECTION_PAIRING_RANDOM, hcopy]

/-- The responder's PairingRandom carries the reversed `HCI.Nb`, and the nonce
stored from an inbound PairingRandom is the reversed payload, in both roles. -/
theorem pairing_random_reversals (env : Env) (w : World) (h : Nat) (data : List Nat) :
    (w.getPeerPairingInitiatorRelationship h = true →
        (handlePairingRandom env w h data).hci.Na = revBytes 16 data 1 ∧
        ∃ rest, aclPackets (handlePairingRandom env w h data).trace =
          aclPackets w.trace ++ (h, 0x0006, 0x04 :: revBytes 16 w.hci.Nb 0) :: rest) ∧
      (w.getPeerPairingInitiatorRelationship h = false →
        (handlePairingRandom env w h data).hci.Nb = revBytes 16 data 1) := by
  constructor
  · intro hpeer
    rw [handlePairingRandom_responder_eq env w h data hpeer]
    cases hd : w.hci.displayCode <;> cases hc : w.hci.binaryConfirmPairing with
    | none =>
        refine ⟨rfl, [], ?_⟩
        simp [World.sendAclPkt, World.emit, aclPackets_append, aclPackets, SECURITY_CID]
    | some a =>
        cases a
        · refine ⟨rfl, [(h, 0x0006, [0x05, 0x0C])], ?_⟩
          simp [World.sendAclPkt, World.emit, World.setPeerEncryption, World.modifyPeer,
            aclPackets_append, aclPackets, SECURITY_CID]
        · refine ⟨rfl, [], ?_⟩
          simp [World.sendAclPkt, World.emit, aclPackets_append, aclPackets, SECURITY_CID]
  · intro hinit
    have hp : ¬ w.getPeerPairingInitiatorRelationship h = true := by simp [hinit]
    unfold handlePairingRandom
    rw [if_neg hp]
    unfold validatePeerConfirmValue
    dsimp only
    split_ifs <;> rfl

/-- C23, the code at a failing input. With the controller's random bytes
0x01 (eight times) then 0x02 (eight times), sendRandomValue holds Na as 0x02
eight times then 0x01 eight times and sends a PairingRandom whose 16 payload
bytes are these same bytes in the same order, not their reversal. -/
theorem sendRandomValue_payload_not_reversed :
    (sendRandomValue Env.sample (World.start scenarioConfig) 64).hci.Na =
        [2, 2, 2, 2, 2, 2, 2, 2, 1, 1, 1, 1, 1, 1, 1, 1] ∧
      aclPackets (sendRandomValue Env.sample (World.start scenarioConfig) 64).trace =
        [(64, 0x0006, [0x04, 2, 2, 2, 2, 2, 2, 2, 2, 1, 1, 1, 1, 1, 1, 1, 1])] ∧
      revBytes 16 (sendRandomValue Env.sample (World.start scenarioConfig) 64).hci.Na 0 =
        [1, 1, 1, 1, 1, 1, 1, 1, 2, 2, 2, 2, 2, 2, 2, 2] := by
  decide

/-! ### Key distribution -/

/-- The key-distribution octet of the PairingResponse and of the recorded
agreement has IdKey, bit 1, set. -/
theorem responseKD_idKey (env : Env) : (responseKD env).testBit 1 = true := by
  unfold responseKD
  rw [Nat.testBit_or]
  have : (0x02 : Nat).testBit 1 = true := by decide
  rw [this]
  simp

theorem keyDistribution_recorded (env : Env) (w : World) (h : Nat) (data : List Nat)
    (hen : 0 < w.config.pairing_enabled) :
    (handlePairingRequestFromInitiator env w h data).att.remoteKeyDistribution =
        responseKD env ∧
      (handlePairingRequestFromInitiator env w h data).att.localKeyDistribution =
        responseKD env ∧
      (handlePairingRequestResponseAsInitiator env w h data).att.remoteKeyDistribution =
        responseKD env ∧
      (handlePairingRequestResponseAsInitiator env w h data).att.localKeyDistribution =
        responseKD env := by
  have hp : isPairingEnabled w = true := by simp [isPairingEnabled, hen]
  refine ⟨?_, ?_, rfl, rfl⟩
  · unfold handlePairingRequestFromInitiator
    rw [if_pos hp]
    split_ifs <;> rfl
  · unfold handlePairingRequestFromInitiator
    rw [if_pos hp]
    split_ifs <;> rfl

/-- C25, the code at a failing input. The PairingRequest sent by
initiatePairingRequest carries 0x01 as initiatorKeyDistribution and as
responderKeyDistribution, in which bit 1 (IdKey) is clear, while the
PairingResponse of handlePairingRequestFromInitiator carries 0x02 twice. -/
theorem initiatePairingRequest_key_distribution :
    aclPackets (initiatePairingRequest Env.sample (World.start scenarioConfig) 64).trace =
        [(64, 0x0006, [0x01, 0x00, 0x00, 0x09, 0x10, 0x01, 0x01])] ∧
      (0x01 : Nat).testBit 1 = false ∧
      aclPackets (handlePairingRequestFromInitiator Env.sample (World.start scenarioConfig) 64
        [0x01, 0x03, 0x00, 0x09, 0x10, 0x01, 0x01]).trace =
        [(64, 0x0006, [0x02, 0x00, 0x00, 0x00, 0x10, 0x02, 0x02])] ∧
      (0x02 : Nat).testBit 1 = true := by
  decide

/-! ### Short security frames -/

/-- The frame length given to `handleSecurityData` has no effect on what it
does. -/
theorem handleSecurityData_ignores_dlen (env : Env) (w : World) (h dlen1 dlen2 : Nat)
    (data : List Nat) :
    handleSecurityData env w h dlen1 data = handleSecurityData env w h dlen2 data := rfl

/-- C21, the code at a failing input. A PairingRequest frame of length 1, the
code byte alone, is not dropped: a PairingResponse is sent and the peer IO
capability recorded is read from indices 3, 2 and 1 of the buffer, beyond the
frame. -/
theorem short_security_frame_not_dropped :
    (1 : Nat) < 7 ∧
      (handleSecurityData Env.sample (World.start scenarioConfig) 64 1
          [0x01, 0x03, 0x00, 0x09]).trace =
        [.sendAclPkt 64 0x0006 [0x02, 0x00, 0x00, 0x00, 0x10, 0x02, 0x02]] ∧
      ((handleSecurityData Env.sample (World.start scenarioConfig) 64 1
          [0x01, 0x03, 0x00, 0x09]).att.peers 64).peerIOCap = [0x09, 0x00, 0x03] ∧
      ((handleSecurityData Env.sample (World.start scenarioConfig) 64 1
          [0x01, 0x04, 0x01, 0x0D]).att.peers 64).peerIOCap = [0x0D, 0x01, 0x04] := by
  decide

end L2CAPSignaling
